import Mathlib

/-!
ext2-create: a shallow embedding of `src/ext2-create.c`

The program builds a 1 MiB ext2 image by a fixed sequence of `lseek`/`write`
calls.  The embedding keeps the C names.  Machine integers are natural numbers
with explicit truncation, C objects are viewed as little-endian byte memory
(`Nat → Nat`, index = byte offset inside the object), and the output file is the
log of the positioned writes performed on it.  The writer stages come twice:
as functions on the file in which every `lseek` and `write` succeeds, and, with
the suffix `_io`, as runs in which each call may fail and `errno_exit` ends the
process; `main_io_ok` relates the two.
-/

namespace Ext2Create

/-! ## Constants (lines 18-78 of the source) -/

def BLOCK_SIZE : Nat := 1024
def BLOCK_OFFSET (i : Nat) : Nat := i * BLOCK_SIZE
def NUM_BLOCKS : Nat := 1024
def NUM_INODES : Nat := 128

def LOST_AND_FOUND_INO : Nat := 11
def HELLO_WORLD_INO : Nat := 12
def HELLO_INO : Nat := 13
def LAST_INO : Nat := HELLO_INO

def SUPERBLOCK_BLOCKNO : Nat := 1
def BLOCK_GROUP_DESCRIPTOR_BLOCKNO : Nat := 2
def BLOCK_BITMAP_BLOCKNO : Nat := 3
def INODE_BITMAP_BLOCKNO : Nat := 4
def INODE_TABLE_BLOCKNO : Nat := 5
def ROOT_DIR_BLOCKNO : Nat := 21
def LOST_AND_FOUND_DIR_BLOCKNO : Nat := 22
def HELLO_WORLD_FILE_BLOCKNO : Nat := 23
def LAST_BLOCK : Nat := HELLO_WORLD_FILE_BLOCKNO

def NUM_FREE_BLOCKS : Nat := NUM_BLOCKS - LAST_BLOCK - 1
def NUM_FREE_INODES : Nat := NUM_INODES - LAST_INO

def EXT2_MAGIC_NUMBER : Nat := 0xEF53

def EXT2_BAD_INO : Nat := 1
def EXT2_ROOT_INO : Nat := 2
def EXT2_GOOD_OLD_FIRST_INO : Nat := 11

def EXT2_S_IFLNK : Nat := 0xA000
def EXT2_S_IFREG : Nat := 0x8000
def EXT2_S_IFDIR : Nat := 0x4000
def EXT2_S_IRUSR : Nat := 0x0100
def EXT2_S_IWUSR : Nat := 0x0080
def EXT2_S_IXUSR : Nat := 0x0040
def EXT2_S_IRGRP : Nat := 0x0020
def EXT2_S_IXGRP : Nat := 0x0008
def EXT2_S_IROTH : Nat := 0x0004
def EXT2_S_IXOTH : Nat := 0x0001

def EXT2_NDIR_BLOCKS : Nat := 12
def EXT2_IND_BLOCK : Nat := EXT2_NDIR_BLOCKS
def EXT2_DIND_BLOCK : Nat := EXT2_IND_BLOCK + 1
def EXT2_TIND_BLOCK : Nat := EXT2_DIND_BLOCK + 1
def EXT2_N_BLOCKS : Nat := EXT2_TIND_BLOCK + 1

def EXT2_NAME_LEN : Nat := 255

/-! ## Machine integers and little-endian memory -/

/-- Conversion of a non-negative value to `u16`. -/
def u16 (v : Nat) : Nat := v % 65536

/-- Conversion of a non-negative value to `u32`. -/
def u32 (v : Nat) : Nat := v % 4294967296

/-- The four bytes of a `u32` object, lowest address first. -/
def le32 (v : Nat) : List Nat :=
  [v % 256, v / 256 % 256, v / 65536 % 256, v / 16777216 % 256]

/-- Memory of an `unsigned int a[]` array: byte `k` is byte `k % 4` of
element `k / 4`. -/
def u32_array_mem (a : List Nat) : Nat → Nat :=
  fun k => a.getD (k / 4) 0 / 256 ^ (k % 4) % 256

/-- A member of a C object: its size in bytes and its bytes (index = byte
offset inside the member). -/
structure Member where
  size : Nat
  mem : Nat → Nat

/-- A `u8` member. -/
def u8_m (v : Nat) : Member := ⟨1, fun _ => v % 256⟩

/-- A `u16` (or `i16`) member holding the bits `v`, little-endian. -/
def u16_m (v : Nat) : Member := ⟨2, fun k => v / 256 ^ k % 256⟩

/-- A `u32` (or `i32`) member holding the bits `v`, little-endian. -/
def u32_m (v : Nat) : Member := ⟨4, fun k => v / 256 ^ k % 256⟩

/-- A `u8 a[n]` (or `char a[n]`) member. -/
def u8_array_m (n : Nat) (a : List Nat) : Member := ⟨n, fun k => a.getD k 0 % 256⟩

/-- A `u32 a[n]` member. -/
def u32_array_m (n : Nat) (a : List Nat) : Member := ⟨4 * n, u32_array_mem a⟩

/-- Zeroed padding of `n` bytes. -/
def pad_m (n : Nat) : Member := ⟨n, fun _ => 0⟩

/-- Memory of an object made of the members `ms` in declaration order,
followed in the address space by whatever `after` holds (`after k` is the byte
`k` places past the end of the object). -/
def obj_mem : List Member → (Nat → Nat) → Nat → Nat
  | [], after, k => after k % 256
  | m :: ms, after, k => if k < m.size then m.mem k else obj_mem ms after (k - m.size)

/-- Size of an object made of the members `ms`. -/
def obj_size (ms : List Member) : Nat := (ms.map (fun m => m.size)).sum

/-- Memory behind an object that is written with exactly its own size. -/
def unread : Nat → Nat := fun _ => 0

/-- Read a little-endian `u16` at byte offset `o`. -/
def rd16 (m : Nat → Nat) (o : Nat) : Nat := m o + 256 * m (o + 1)

/-- Read a little-endian `u32` at byte offset `o`. -/
def rd32 (m : Nat → Nat) (o : Nat) : Nat :=
  m o + 256 * m (o + 1) + 65536 * m (o + 2) + 16777216 * m (o + 3)

/-- Read `n` consecutive bytes starting at byte offset `o`. -/
def rdbytes (m : Nat → Nat) : Nat → Nat → List Nat
  | _, 0 => []
  | o, n + 1 => m o :: rdbytes m (o + 1) n

/-- Read `n` consecutive little-endian `u32` values starting at byte offset `o`. -/
def rd32s (m : Nat → Nat) : Nat → Nat → List Nat
  | _, 0 => []
  | o, n + 1 => rd32 m o :: rd32s m (o + 4) n

/-- Bit `i` of a bitmap held in byte memory: bit `i % 8` of byte `i / 8`. -/
def bitmap_bit (m : Nat → Nat) (i : Nat) : Bool := (m (i / 8)).testBit (i % 8)

/-! ## The output file -/

/-- One successful `write(fd, buf, len)` at file offset `off`. -/
structure WriteOp where
  off : Nat
  len : Nat
  buf : Nat → Nat

/-- State of the open file: current position, length, and the writes done
so far, the most recent first. -/
structure Fd where
  pos : Nat
  size : Nat
  log : List WriteOp

/-- Successful `lseek(fd, off, SEEK_SET)`. -/
def lseek (fd : Fd) (off : Nat) : Fd := { fd with pos := off }

/-- Successful `write(fd, buf, len)` transferring all `len` bytes. -/
def write (fd : Fd) (buf : Nat → Nat) (len : Nat) : Fd :=
  { pos := fd.pos + len
    size := if len = 0 then fd.size else max fd.size (fd.pos + len)
    log := ⟨fd.pos, len, buf⟩ :: fd.log }

/-- Byte at offset `o` after the logged writes were applied to a zero-filled
file: the most recent write covering `o` wins. -/
def read_log : List WriteOp → Nat → Nat
  | [], _ => 0
  | w :: ws, o =>
    if w.off ≤ o ∧ o < w.off + w.len then w.buf (o - w.off) else read_log ws o

/-- Content of the file, as a function of the byte offset. -/
def image (fd : Fd) : Nat → Nat := read_log fd.log

/-- The part of the file that starts at byte offset `base`. -/
def image_from (fd : Fd) (base : Nat) : Nat → Nat := fun k => image fd (base + k)

/-- The file right after `ftruncate(fd, 0); ftruncate(fd, n)`. -/
def ftruncate_fresh (n : Nat) : Fd := { pos := 0, size := n, log := [] }

/-! ## Bitmaps (lines 275-324) -/

/-- An automatic array of `n` elements that has not been assigned yet:
element `i` holds the indeterminate value `uninit i`. -/
def uninit_array (uninit : Nat → Nat) (n : Nat) : List Nat :=
  (List.range n).map uninit

/-- The loop `for (i = lo; i < hi; i++) a[i] = v;`. -/
def fill_loop (a : List Nat) (lo hi v : Nat) : List Nat :=
  (List.range' lo (hi - lo)).foldl (fun acc i => acc.set i v) a

/-- Contents of `bm_array` when `write_block_bitmap` reaches its `write`. -/
def block_bitmap_array (uninit : Nat → Nat) : List Nat :=
  let bm_size := 32
  let bm_array := uninit_array uninit 256
  let bm_array := bm_array.set 0 0x007fffff
  let bm_array := fill_loop bm_array 1 bm_size 0x00000000
  let bm_array := fill_loop bm_array bm_size 256 0xffffffff
  bm_array.set (bm_size - 1) 0x80000000

def write_block_bitmap (uninit : Nat → Nat) (fd : Fd) : Fd :=
  let fd := lseek fd (BLOCK_OFFSET BLOCK_BITMAP_BLOCKNO)
  let size := 256 * 4
  write fd (u32_array_mem (block_bitmap_array uninit)) size

/-- Contents of `bm_array` when `write_inode_bitmap` reaches its `write`. -/
def inode_bitmap_array (uninit : Nat → Nat) : List Nat :=
  let bm_size := 4
  let bm_array := uninit_array uninit 256
  let bm_array := fill_loop bm_array 0 bm_size 0
  let bm_array := bm_array.set 0 0x1fff
  fill_loop bm_array bm_size 256 0xffffffff

def write_inode_bitmap (uninit : Nat → Nat) (fd : Fd) : Fd :=
  let fd := lseek fd (BLOCK_OFFSET INODE_BITMAP_BLOCKNO)
  let size := BLOCK_SIZE
  write fd (u32_array_mem (inode_bitmap_array uninit)) size

/-! ## C library helpers -/

/-- Bytes of a C string literal, without the terminating NUL. -/
def str_bytes (s : String) : List Nat := s.toList.map Char.toNat

/-- The call `memcpy(dst, src, n)` seen on the bytes of `dst`: the first `n`
bytes are replaced by the first `n` bytes of `src`. -/
def memcpy (dst src : List Nat) (n : Nat) : List Nat := src.take n ++ dst.drop n

/-- The assignment `a[idx] = v` on the bytes of a `u32` array. -/
def store_u32 (a : List Nat) (idx v : Nat) : List Nat :=
  a.take (4 * idx) ++ le32 (u32 v) ++ a.drop (4 * idx + 4)

/-- Conversion of a signed value (`ssize_t`, `time_t`) to `u16`. -/
def u16_of_int (v : Int) : Nat := (v % 65536).toNat

/-- Conversion of a signed value (`ssize_t`, `time_t`) to `u32`. -/
def u32_of_int (v : Int) : Nat := (v % 4294967296).toNat

/-- The function `get_current_time`, given the value `t` returned by
`time(NULL)`: `none` stands for the `errno_exit("time")` path. -/
def get_current_time (t : Int) : Option Nat :=
  if t = -1 then none else some (u32_of_int t)

/-! ## Superblock (lines 80-110, 189-252) -/

structure ext2_superblock where
  s_inodes_count : Nat
  s_blocks_count : Nat
  s_r_blocks_count : Nat
  s_free_blocks_count : Nat
  s_free_inodes_count : Nat
  s_first_data_block : Nat
  s_log_block_size : Nat
  s_log_frag_size : Int
  s_blocks_per_group : Nat
  s_frags_per_group : Nat
  s_inodes_per_group : Nat
  s_mtime : Nat
  s_wtime : Nat
  s_mnt_count : Nat
  s_max_mnt_count : Int
  s_magic : Nat
  s_state : Nat
  s_errors : Nat
  s_minor_rev_level : Nat
  s_lastcheck : Nat
  s_checkinterval : Nat
  s_creator_os : Nat
  s_rev_level : Nat
  s_def_resuid : Nat
  s_def_resgid : Nat
  s_pad : List Nat
  s_uuid : List Nat
  s_volume_name : List Nat
  s_reserved : List Nat
deriving DecidableEq

/-- The initialiser `= {0}`. -/
def ext2_superblock.zero : ext2_superblock :=
  { s_inodes_count := 0, s_blocks_count := 0, s_r_blocks_count := 0
    s_free_blocks_count := 0, s_free_inodes_count := 0, s_first_data_block := 0
    s_log_block_size := 0, s_log_frag_size := 0, s_blocks_per_group := 0
    s_frags_per_group := 0, s_inodes_per_group := 0, s_mtime := 0, s_wtime := 0
    s_mnt_count := 0, s_max_mnt_count := 0, s_magic := 0, s_state := 0
    s_errors := 0, s_minor_rev_level := 0, s_lastcheck := 0
    s_checkinterval := 0, s_creator_os := 0, s_rev_level := 0
    s_def_resuid := 0, s_def_resgid := 0
    s_pad := List.replicate 5 0
    s_uuid := List.replicate 16 0
    s_volume_name := List.replicate 16 0
    s_reserved := List.replicate 229 0 }

/-- Object representation of a superblock: the members in declaration order.
Every member is naturally aligned, so there is no padding. -/
def ext2_superblock.layout (s : ext2_superblock) : List Member :=
  [u32_m s.s_inodes_count, u32_m s.s_blocks_count, u32_m s.s_r_blocks_count,
   u32_m s.s_free_blocks_count, u32_m s.s_free_inodes_count,
   u32_m s.s_first_data_block, u32_m s.s_log_block_size,
   u32_m (u32_of_int s.s_log_frag_size), u32_m s.s_blocks_per_group,
   u32_m s.s_frags_per_group, u32_m s.s_inodes_per_group, u32_m s.s_mtime,
   u32_m s.s_wtime, u16_m s.s_mnt_count, u16_m (u16_of_int s.s_max_mnt_count),
   u16_m s.s_magic, u16_m s.s_state, u16_m s.s_errors, u16_m s.s_minor_rev_level,
   u32_m s.s_lastcheck, u32_m s.s_checkinterval, u32_m s.s_creator_os,
   u32_m s.s_rev_level, u16_m s.s_def_resuid, u16_m s.s_def_resgid,
   u32_array_m 5 s.s_pad, u8_array_m 16 s.s_uuid, u8_array_m 16 s.s_volume_name,
   u32_array_m 229 s.s_reserved]

/-- Value of `sizeof(struct ext2_superblock)`. -/
def sizeof_ext2_superblock : Nat := obj_size ext2_superblock.zero.layout

/-- The array `s_uuid` after the sixteen element assignments. -/
def superblock_uuid (s_uuid : List Nat) : List Nat :=
  (((((((((((((((s_uuid.set 0 0x5A).set 1 0x1E).set 2 0xAB).set 3 0x1E).set 4 0x13).set 5
    0x37).set 6 0x13).set 7 0x37).set 8 0x13).set 9 0x37).set 10 0xC0).set 11 0xFF).set 12
    0xEE).set 13 0xC0).set 14 0xFF).set 15 0xEE

/-- The superblock object at the time `write_superblock` writes it: the
zero-initialised object after the member assignments. -/
def superblock_value (current_time : Nat) : ext2_superblock :=
  { ext2_superblock.zero with
    s_inodes_count := u32 NUM_INODES
    s_blocks_count := u32 NUM_BLOCKS
    s_r_blocks_count := 0
    s_free_blocks_count := u32 NUM_FREE_BLOCKS
    s_free_inodes_count := u32 NUM_FREE_INODES
    s_first_data_block := u32 SUPERBLOCK_BLOCKNO
    s_log_block_size := 0
    s_log_frag_size := 0
    s_blocks_per_group := u32 (BLOCK_SIZE * 8)
    s_frags_per_group := u32 (BLOCK_SIZE * 8)
    s_inodes_per_group := u32 NUM_INODES
    s_mtime := 0
    s_wtime := current_time
    s_mnt_count := 0
    s_max_mnt_count := 0
    s_magic := u16 EXT2_MAGIC_NUMBER
    s_state := 0
    s_errors := 0
    s_minor_rev_level := 0
    s_lastcheck := current_time
    s_checkinterval := 0
    s_creator_os := 0
    s_rev_level := 0
    s_def_resuid := 0
    s_def_resgid := 0
    s_uuid := superblock_uuid ext2_superblock.zero.s_uuid
    s_volume_name :=
      memcpy ext2_superblock.zero.s_volume_name (str_bytes ("cs111-base")) 10 }

def write_superblock (t : Int) (fd : Fd) : Option Fd := do
  let fd := lseek fd (BLOCK_OFFSET 1)
  let current_time ← get_current_time t
  let superblock := superblock_value current_time
  let size := sizeof_ext2_superblock
  pure (write fd (obj_mem superblock.layout unread) size)

/-- Value of an `i16` object holding the bits `v`. -/
def to_i16 (v : Nat) : Int := if v < 32768 then (v : Int) else (v : Int) - 65536

/-- Value of an `i32` object holding the bits `v`. -/
def to_i32 (v : Nat) : Int := if v < 2147483648 then (v : Int) else (v : Int) - 4294967296

/-- Decoding of a superblock from byte memory: every member is read at its
offset in `struct ext2_superblock` with its width, little-endian. -/
def decode_superblock (m : Nat → Nat) : ext2_superblock :=
  { s_inodes_count := rd32 m 0
    s_blocks_count := rd32 m 4
    s_r_blocks_count := rd32 m 8
    s_free_blocks_count := rd32 m 12
    s_free_inodes_count := rd32 m 16
    s_first_data_block := rd32 m 20
    s_log_block_size := rd32 m 24
    s_log_frag_size := to_i32 (rd32 m 28)
    s_blocks_per_group := rd32 m 32
    s_frags_per_group := rd32 m 36
    s_inodes_per_group := rd32 m 40
    s_mtime := rd32 m 44
    s_wtime := rd32 m 48
    s_mnt_count := rd16 m 52
    s_max_mnt_count := to_i16 (rd16 m 54)
    s_magic := rd16 m 56
    s_state := rd16 m 58
    s_errors := rd16 m 60
    s_minor_rev_level := rd16 m 62
    s_lastcheck := rd32 m 64
    s_checkinterval := rd32 m 68
    s_creator_os := rd32 m 72
    s_rev_level := rd32 m 76
    s_def_resuid := rd16 m 80
    s_def_resgid := rd16 m 82
    s_pad := rd32s m 84 5
    s_uuid := rdbytes m 104 16
    s_volume_name := rdbytes m 120 16
    s_reserved := rd32s m 136 229 }

/-! ## Block group descriptor (lines 112-122, 254-273) -/

structure ext2_block_group_descriptor where
  bg_block_bitmap : Nat
  bg_inode_bitmap : Nat
  bg_inode_table : Nat
  bg_free_blocks_count : Nat
  bg_free_inodes_count : Nat
  bg_used_dirs_count : Nat
  bg_pad : Nat
  bg_reserved : List Nat
deriving DecidableEq

def ext2_block_group_descriptor.zero : ext2_block_group_descriptor :=
  { bg_block_bitmap := 0, bg_inode_bitmap := 0, bg_inode_table := 0
    bg_free_blocks_count := 0, bg_free_inodes_count := 0, bg_used_dirs_count := 0
    bg_pad := 0, bg_reserved := List.replicate 3 0 }

def ext2_block_group_descriptor.layout (g : ext2_block_group_descriptor) :
    List Member :=
  [u32_m g.bg_block_bitmap, u32_m g.bg_inode_bitmap, u32_m g.bg_inode_table,
   u16_m g.bg_free_blocks_count, u16_m g.bg_free_inodes_count,
   u16_m g.bg_used_dirs_count, u16_m g.bg_pad, u32_array_m 3 g.bg_reserved]

/-- Value of `sizeof(struct ext2_block_group_descriptor)`. -/
def sizeof_ext2_block_group_descriptor : Nat :=
  obj_size ext2_block_group_descriptor.zero.layout

/-- The descriptor object at the time it is written. -/
def block_group_descriptor_value : ext2_block_group_descriptor :=
  let block_group_descriptor := ext2_block_group_descriptor.zero
  { block_group_descriptor with
    bg_block_bitmap := u32 BLOCK_BITMAP_BLOCKNO
    bg_inode_bitmap := u32 INODE_BITMAP_BLOCKNO
    bg_inode_table := u32 INODE_TABLE_BLOCKNO
    bg_free_blocks_count := u16 1000
    bg_free_inodes_count := u16 115
    bg_used_dirs_count := u16 2 }

def write_block_group_descriptor_table (fd : Fd) : Fd :=
  let fd := lseek fd (BLOCK_OFFSET 2)
  let size := sizeof_ext2_block_group_descriptor
  write fd (obj_mem block_group_descriptor_value.layout unread) size

/-! ## Inode table (lines 124-146, 326-425) -/

structure ext2_inode where
  i_mode : Nat
  i_uid : Nat
  i_size : Nat
  i_atime : Nat
  i_ctime : Nat
  i_mtime : Nat
  i_dtime : Nat
  i_gid : Nat
  i_links_count : Nat
  i_blocks : Nat
  i_flags : Nat
  i_reserved1 : Nat
  /-- The 60 bytes of `u32 i_block[EXT2_N_BLOCKS]`. -/
  i_block : List Nat
  i_version : Nat
  i_file_acl : Nat
  i_dir_acl : Nat
  i_faddr : Nat
  i_frag : Nat
  i_fsize : Nat
  i_pad1 : Nat
  i_reserved2 : List Nat
deriving DecidableEq

def ext2_inode.zero : ext2_inode :=
  { i_mode := 0, i_uid := 0, i_size := 0, i_atime := 0, i_ctime := 0, i_mtime := 0
    i_dtime := 0, i_gid := 0, i_links_count := 0, i_blocks := 0, i_flags := 0
    i_reserved1 := 0
    i_block := List.replicate (4 * EXT2_N_BLOCKS) 0
    i_version := 0, i_file_acl := 0, i_dir_acl := 0, i_faddr := 0
    i_frag := 0, i_fsize := 0, i_pad1 := 0
    i_reserved2 := List.replicate 2 0 }

def ext2_inode.layout (n : ext2_inode) : List Member :=
  [u16_m n.i_mode, u16_m n.i_uid, u32_m n.i_size, u32_m n.i_atime, u32_m n.i_ctime,
   u32_m n.i_mtime, u32_m n.i_dtime, u16_m n.i_gid, u16_m n.i_links_count,
   u32_m n.i_blocks, u32_m n.i_flags, u32_m n.i_reserved1,
   u8_array_m (4 * EXT2_N_BLOCKS) n.i_block, u32_m n.i_version, u32_m n.i_file_acl,
   u32_m n.i_dir_acl, u32_m n.i_faddr, u8_m n.i_frag, u8_m n.i_fsize, u16_m n.i_pad1,
   u32_array_m 2 n.i_reserved2]

/-- Value of `sizeof(struct ext2_inode)`. -/
def sizeof_ext2_inode : Nat := obj_size ext2_inode.zero.layout

/-- The function `write_inode`; `index` is a `u32`, so `index - 1` wraps. -/
def write_inode (fd : Fd) (index : Nat) (inode : ext2_inode) : Fd :=
  let off := BLOCK_OFFSET INODE_TABLE_BLOCKNO
    + u32 (u32 index + 4294967295) * sizeof_ext2_inode
  let fd := lseek fd off
  let size := sizeof_ext2_inode
  write fd (obj_mem inode.layout unread) size

def lost_and_found_inode (current_time : Nat) : ext2_inode :=
  { ext2_inode.zero with
    i_mode := u16 (EXT2_S_IFDIR ||| EXT2_S_IRUSR ||| EXT2_S_IWUSR ||| EXT2_S_IXUSR
      ||| EXT2_S_IRGRP ||| EXT2_S_IXGRP ||| EXT2_S_IROTH ||| EXT2_S_IXOTH)
    i_uid := 0
    i_size := 1024
    i_atime := current_time
    i_ctime := current_time
    i_mtime := current_time
    i_dtime := 0
    i_gid := 0
    i_links_count := 2
    i_blocks := 2
    i_block := store_u32 ext2_inode.zero.i_block 0 LOST_AND_FOUND_DIR_BLOCKNO }

def root_inode (current_time : Nat) : ext2_inode :=
  { ext2_inode.zero with
    i_mode := u16 (EXT2_S_IFDIR ||| EXT2_S_IRUSR ||| EXT2_S_IWUSR ||| EXT2_S_IXUSR
      ||| EXT2_S_IRGRP ||| EXT2_S_IXGRP ||| EXT2_S_IROTH ||| EXT2_S_IXOTH)
    i_uid := 0
    i_size := 1024
    i_atime := current_time
    i_ctime := current_time
    i_mtime := current_time
    i_dtime := 0
    i_gid := 0
    i_links_count := 3
    i_blocks := 2
    i_block := store_u32 ext2_inode.zero.i_block 0 ROOT_DIR_BLOCKNO }

def reg_file_inode (current_time : Nat) : ext2_inode :=
  { ext2_inode.zero with
    i_mode := u16 (EXT2_S_IFREG ||| EXT2_S_IRUSR ||| EXT2_S_IWUSR ||| EXT2_S_IRGRP
      ||| EXT2_S_IROTH)
    i_uid := 1000
    i_size := 12
    i_atime := current_time
    i_ctime := current_time
    i_mtime := current_time
    i_dtime := 0
    i_gid := 1000
    i_links_count := 1
    i_blocks := 2
    i_block := store_u32 ext2_inode.zero.i_block 0 HELLO_WORLD_FILE_BLOCKNO }

def symlink_inode (current_time : Nat) : ext2_inode :=
  let arr := str_bytes ("hello-world") ++ [0]
  { ext2_inode.zero with
    i_mode := u16 (EXT2_S_IFLNK ||| EXT2_S_IRUSR ||| EXT2_S_IWUSR ||| EXT2_S_IRGRP
      ||| EXT2_S_IROTH)
    i_uid := 1000
    i_size := 11
    i_atime := current_time
    i_ctime := current_time
    i_mtime := current_time
    i_dtime := 0
    i_gid := 1000
    i_links_count := 1
    i_blocks := 0
    i_block := memcpy ext2_inode.zero.i_block arr 11 }

def write_inode_table (t : Int) (fd : Fd) : Option Fd := do
  let current_time ← get_current_time t
  let fd := write_inode fd LOST_AND_FOUND_INO (lost_and_found_inode current_time)
  let fd := write_inode fd EXT2_ROOT_INO (root_inode current_time)
  let fd := write_inode fd HELLO_WORLD_INO (reg_file_inode current_time)
  let fd := write_inode fd HELLO_INO (symlink_inode current_time)
  pure fd

/-! ## Directory entries (lines 148-179, 427-503) -/

structure ext2_dir_entry where
  inode : Nat
  rec_len : Nat
  name_len : Nat
  name : List Nat
deriving DecidableEq

def ext2_dir_entry.zero : ext2_dir_entry :=
  { inode := 0, rec_len := 0, name_len := 0, name := List.replicate EXT2_NAME_LEN 0 }

/-- Object representation of a directory entry: 4 + 2 + 2 + 255 bytes and one
byte of trailing padding for the alignment of `inode`, taken to be 0 as the
`= {0}` initialiser leaves it. -/
def ext2_dir_entry.layout (e : ext2_dir_entry) : List Member :=
  [u32_m e.inode, u16_m e.rec_len, u16_m e.name_len, u8_array_m EXT2_NAME_LEN e.name,
   pad_m 1]

/-- Value of `sizeof(struct ext2_dir_entry)`. -/
def sizeof_ext2_dir_entry : Nat := obj_size ext2_dir_entry.zero.layout

/-- The statement `dir_entry_set(entry, inode_num, str)`; `str` holds the
bytes of the string, so `strlen(s)` is its length.  The embedding covers strings
of at most `EXT2_NAME_LEN` bytes: for a longer one the `memcpy` of the source
writes past `name[254]`, which has no defined result, and every statement about
packed entries carries that bound. -/
def dir_entry_set (entry : ext2_dir_entry) (inode_num : Nat) (str : List Nat) :
    ext2_dir_entry :=
  let len := str.length
  { inode := u32 inode_num
    name_len := u16 len
    name := memcpy entry.name str len
    rec_len := if len % 4 ≠ 0 then u16 (12 + len / 4 * 4) else u16 (8 + len) }

/-- The statement `dir_entry_write(entry, fd)`: `rec_len` bytes are written
starting at the address of `entry`; `after` is the memory that follows the
object, reached when `rec_len` exceeds `sizeof(struct ext2_dir_entry)`. -/
def dir_entry_write (entry : ext2_dir_entry) (after : Nat → Nat) (fd : Fd) : Fd :=
  let size := entry.rec_len
  write fd (obj_mem entry.layout after) size

/-- The function `write_root_dir_block`; `stack j` is the memory that follows
the `j`-th entry object declared in the function. -/
def write_root_dir_block (stack : Nat → Nat → Nat) (fd : Fd) : Fd :=
  let fd := lseek fd (BLOCK_OFFSET ROOT_DIR_BLOCKNO)
  let bytes_remaining : Int := BLOCK_SIZE
  let current_entry := dir_entry_set ext2_dir_entry.zero EXT2_ROOT_INO (str_bytes ("."))
  let fd := dir_entry_write current_entry (stack 0) fd
  let bytes_remaining := bytes_remaining - current_entry.rec_len
  let parent_entry := dir_entry_set ext2_dir_entry.zero EXT2_ROOT_INO (str_bytes (".."))
  let fd := dir_entry_write parent_entry (stack 1) fd
  let bytes_remaining := bytes_remaining - parent_entry.rec_len
  let child_entry1 :=
    dir_entry_set ext2_dir_entry.zero LOST_AND_FOUND_INO (str_bytes ("lost+found"))
  let fd := dir_entry_write child_entry1 (stack 2) fd
  let bytes_remaining := bytes_remaining - child_entry1.rec_len
  let child_entry2 :=
    dir_entry_set ext2_dir_entry.zero HELLO_WORLD_INO (str_bytes ("hello-world"))
  let fd := dir_entry_write child_entry2 (stack 3) fd
  let bytes_remaining := bytes_remaining - child_entry2.rec_len
  let child_entry3 := dir_entry_set ext2_dir_entry.zero HELLO_INO (str_bytes ("hello"))
  let fd := dir_entry_write child_entry3 (stack 4) fd
  let bytes_remaining := bytes_remaining - child_entry3.rec_len
  let fill_entry := { ext2_dir_entry.zero with rec_len := u16_of_int bytes_remaining }
  dir_entry_write fill_entry (stack 5) fd

def write_lost_and_found_dir_block (stack : Nat → Nat → Nat) (fd : Fd) : Fd :=
  let fd := lseek fd (BLOCK_OFFSET LOST_AND_FOUND_DIR_BLOCKNO)
  let bytes_remaining : Int := BLOCK_SIZE
  let current_entry :=
    dir_entry_set ext2_dir_entry.zero LOST_AND_FOUND_INO (str_bytes ("."))
  let fd := dir_entry_write current_entry (stack 0) fd
  let bytes_remaining := bytes_remaining - current_entry.rec_len
  let parent_entry := dir_entry_set ext2_dir_entry.zero EXT2_ROOT_INO (str_bytes (".."))
  let fd := dir_entry_write parent_entry (stack 1) fd
  let bytes_remaining := bytes_remaining - parent_entry.rec_len
  let fill_entry := { ext2_dir_entry.zero with rec_len := u16_of_int bytes_remaining }
  dir_entry_write fill_entry (stack 2) fd

/-- The packing pattern shared by the two directory writers, for any list of
`(inode number, name)` bindings: the real entries as `dir_entry_set` builds
them. -/
def dir_entries (bindings : List (Nat × List Nat)) : List ext2_dir_entry :=
  bindings.map (fun b => dir_entry_set ext2_dir_entry.zero b.1 b.2)

/-- Value of `bytes_remaining` after the entries `es` were written. -/
def bytes_remaining_after (es : List ext2_dir_entry) : Int :=
  es.foldl (fun r e => r - (e.rec_len : Int)) (BLOCK_SIZE : Int)

/-- The real entries followed by the zero-inode filler entry. -/
def dir_block_entries (bindings : List (Nat × List Nat)) : List ext2_dir_entry :=
  dir_entries bindings
    ++ [{ ext2_dir_entry.zero with
          rec_len := u16_of_int (bytes_remaining_after (dir_entries bindings)) }]

/-- One `dir_entry_write` per entry, in order; the `j`-th entry object is
followed in memory by `stack j`. -/
def dir_entries_write (stack : Nat → Nat → Nat) :
    List ext2_dir_entry → Nat → Fd → Fd
  | [], _, fd => fd
  | e :: es, j, fd => dir_entries_write stack es (j + 1) (dir_entry_write e (stack j) fd)

/-- Packing of one directory block at block number `blockno`. -/
def pack_dir_block (blockno : Nat) (bindings : List (Nat × List Nat))
    (stack : Nat → Nat → Nat) (fd : Fd) : Fd :=
  dir_entries_write stack (dir_block_entries bindings) 0 (lseek fd (BLOCK_OFFSET blockno))

/-- The bindings of the root directory, in the order they are written. -/
def root_bindings : List (Nat × List Nat) :=
  [(EXT2_ROOT_INO, str_bytes (".")), (EXT2_ROOT_INO, str_bytes ("..")),
   (LOST_AND_FOUND_INO, str_bytes ("lost+found")),
   (HELLO_WORLD_INO, str_bytes ("hello-world")), (HELLO_INO, str_bytes ("hello"))]

/-- The bindings of the lost+found directory, in the order they are written. -/
def lost_and_found_bindings : List (Nat × List Nat) :=
  [(LOST_AND_FOUND_INO, str_bytes (".")), (EXT2_ROOT_INO, str_bytes (".."))]

/-! ## File data and `main` (lines 505-544) -/

def write_hello_world_file_block (fd : Fd) : Fd :=
  let fd := lseek fd (BLOCK_OFFSET HELLO_WORLD_FILE_BLOCKNO)
  let arr := str_bytes ("Hello world\n")
  let size := 12
  write fd (obj_mem [u8_array_m 12 arr] unread) size

/-- What the run takes from outside: the values returned by the successive
calls of `time(NULL)`, the indeterminate initial contents of the two bitmap
arrays, and the stack memory behind the directory entry objects. -/
structure Env where
  time : Nat → Int
  block_bitmap_uninit : Nat → Nat
  inode_bitmap_uninit : Nat → Nat
  root_stack : Nat → Nat → Nat
  lost_and_found_stack : Nat → Nat → Nat

/-- The function `main` with every `open`, `ftruncate`, `lseek`, `write` and
`close` succeeding; `none` is the exit taken when `time` fails. -/
def main (env : Env) : Option Fd := do
  let fd := ftruncate_fresh (NUM_BLOCKS * BLOCK_SIZE)
  let fd ← write_superblock (env.time 0) fd
  let fd := write_block_group_descriptor_table fd
  let fd := write_block_bitmap env.block_bitmap_uninit fd
  let fd := write_inode_bitmap env.inode_bitmap_uninit fd
  let fd ← write_inode_table (env.time 1) fd
  let fd := write_root_dir_block env.root_stack fd
  let fd := write_lost_and_found_dir_block env.lost_and_found_stack fd
  let fd := write_hello_world_file_block fd
  pure fd

/-- A sample environment: the clock returns 1700000000 and all indeterminate
memory holds the byte `0xAA`. -/
def sample_env : Env :=
  { time := fun _ => 1700000000
    block_bitmap_uninit := fun _ => 0xAAAAAAAA
    inode_bitmap_uninit := fun _ => 0xAAAAAAAA
    root_stack := fun _ _ => 0xAA
    lost_and_found_stack := fun _ _ => 0xAA }

/-- Closed form of the log of a run of `main` in which `time` succeeds, most
recent write first (`main_log_eq` proves that `main` produces it). -/
def main_log (env : Env) : List WriteOp :=
  [⟨23552, 12, obj_mem [u8_array_m 12 (str_bytes ("Hello world\n"))] unread⟩,
   ⟨22552, 1000, obj_mem ({ ext2_dir_entry.zero with rec_len := 1000 }).layout
      (env.lost_and_found_stack 2)⟩,
   ⟨22540, 12, obj_mem (dir_entry_set ext2_dir_entry.zero EXT2_ROOT_INO
      (str_bytes (".."))).layout (env.lost_and_found_stack 1)⟩,
   ⟨22528, 12, obj_mem (dir_entry_set ext2_dir_entry.zero LOST_AND_FOUND_INO
      (str_bytes ("."))).layout (env.lost_and_found_stack 0)⟩,
   ⟨21584, 944, obj_mem ({ ext2_dir_entry.zero with rec_len := 944 }).layout
      (env.root_stack 5)⟩,
   ⟨21568, 16, obj_mem (dir_entry_set ext2_dir_entry.zero HELLO_INO
      (str_bytes ("hello"))).layout (env.root_stack 4)⟩,
   ⟨21548, 20, obj_mem (dir_entry_set ext2_dir_entry.zero HELLO_WORLD_INO
      (str_bytes ("hello-world"))).layout (env.root_stack 3)⟩,
   ⟨21528, 20, obj_mem (dir_entry_set ext2_dir_entry.zero LOST_AND_FOUND_INO
      (str_bytes ("lost+found"))).layout (env.root_stack 2)⟩,
   ⟨21516, 12, obj_mem (dir_entry_set ext2_dir_entry.zero EXT2_ROOT_INO
      (str_bytes (".."))).layout (env.root_stack 1)⟩,
   ⟨21504, 12, obj_mem (dir_entry_set ext2_dir_entry.zero EXT2_ROOT_INO
      (str_bytes ("."))).layout (env.root_stack 0)⟩,
   ⟨6656, 128, obj_mem (symlink_inode (u32_of_int (env.time 1))).layout unread⟩,
   ⟨6528, 128, obj_mem (reg_file_inode (u32_of_int (env.time 1))).layout unread⟩,
   ⟨5248, 128, obj_mem (root_inode (u32_of_int (env.time 1))).layout unread⟩,
   ⟨6400, 128, obj_mem (lost_and_found_inode (u32_of_int (env.time 1))).layout unread⟩,
   ⟨4096, 1024, u32_array_mem (inode_bitmap_array env.inode_bitmap_uninit)⟩,
   ⟨3072, 1024, u32_array_mem (block_bitmap_array env.block_bitmap_uninit)⟩,
   ⟨2048, 32, obj_mem block_group_descriptor_value.layout unread⟩,
   ⟨1024, 1052, obj_mem (superblock_value (u32_of_int (env.time 0))).layout unread⟩]

/-! ## Reading a directory block -/

/-- A directory record as a reader of the image sees it. -/
structure DirRecord where
  inode : Nat
  rec_len : Nat
  name_len : Nat
  name : List Nat
deriving DecidableEq

/-- The record found at byte offset `off` of a directory block. -/
def read_dir_record (blk : Nat → Nat) (off : Nat) : DirRecord :=
  { inode := rd32 blk off
    rec_len := rd16 blk (off + 4)
    name_len := rd16 blk (off + 6)
    name := rdbytes blk (off + 8) (rd16 blk (off + 6)) }

/-- Traversal of a directory block by record length, from offset `off` to the
end of the block; it stops early at a record of length 0. -/
def dir_walk (blk : Nat → Nat) : Nat → Nat → List DirRecord
  | 0, _ => []
  | fuel + 1, off =>
    if off + 8 ≤ BLOCK_SIZE then
      let r := read_dir_record blk off
      if r.rec_len = 0 then [r] else r :: dir_walk blk fuel (off + r.rec_len)
    else []

/-- Length of a file that was `size0` bytes long before the logged writes: a
write of `len > 0` bytes at `off` extends the file to `off + len` if it was
shorter. -/
def log_size (size0 : Nat) : List WriteOp → Nat
  | [] => size0
  | w :: ws =>
    if w.len = 0 then log_size size0 ws else max (log_size size0 ws) (w.off + w.len)

/-- Decoding of an inode record from byte memory: every member is read at its
offset in `struct ext2_inode` with its width, little-endian; `i_block` is kept
as its 60 bytes. -/
def decode_inode (m : Nat → Nat) : ext2_inode :=
  { i_mode := rd16 m 0
    i_uid := rd16 m 2
    i_size := rd32 m 4
    i_atime := rd32 m 8
    i_ctime := rd32 m 12
    i_mtime := rd32 m 16
    i_dtime := rd32 m 20
    i_gid := rd16 m 24
    i_links_count := rd16 m 26
    i_blocks := rd32 m 28
    i_flags := rd32 m 32
    i_reserved1 := rd32 m 36
    i_block := rdbytes m 40 60
    i_version := rd32 m 100
    i_file_acl := rd32 m 104
    i_dir_acl := rd32 m 108
    i_faddr := rd32 m 112
    i_frag := m 116
    i_fsize := m 117
    i_pad1 := rd16 m 118
    i_reserved2 := rd32s m 120 2 }

/-! ## Failing system calls (`errno_exit`, lines 155-156, and the checks after
every `time`, `lseek` and `write`) -/

/-- What a run takes from outside when system calls may fail: the environment
of the run, the value returned by the `k`-th `lseek` or `write` call, the value of
`errno` right after that call, and the value of `errno` right after the `k`-th
`time` call. -/
structure Sys where
  env : Env
  ret : Nat → Int
  errno : Nat → Int
  time_errno : Nat → Int

/-- State of the process: the file, the number of `lseek` and `write` calls made
so far and the number of `time` calls made so far. -/
structure Proc where
  fd : Fd
  calls : Nat
  times : Nat

/-- Exit status that the parent sees after `exit(err)`: the low 8 bits. -/
def exit_status (err : Int) : Nat := (err % 256).toNat

/-- The macro `errno_exit`, after `errno` was read as `err`: the process exits
with `exit(err)` and the file stays as it is. -/
def errno_exit {α : Type} (err : Int) (fd : Fd) : Except (Nat × Fd) α :=
  Except.error (exit_status err, fd)

/-- The call `lseek(fd, off, SEEK_SET)` and the check `off == -1` after it. -/
def lseek_io (sys : Sys) (p : Proc) (off : Nat) : Except (Nat × Fd) Proc :=
  if sys.ret p.calls = -1 then errno_exit (sys.errno p.calls) p.fd
  else pure { p with fd := lseek p.fd off, calls := p.calls + 1 }

/-- The call `write(fd, buf, size)` and the check `!= size` after it.  A call
that returns `r` with `0 < r < size` has transferred `r` bytes. -/
def write_io (sys : Sys) (p : Proc) (buf : Nat → Nat) (size : Nat) : Except (Nat × Fd) Proc :=
  let r := sys.ret p.calls
  if r ≠ (size : Int) then
    errno_exit (sys.errno p.calls)
      (if 0 < r then write p.fd buf (min r.toNat size) else p.fd)
  else pure { p with fd := write p.fd buf size, calls := p.calls + 1 }

/-- The function `get_current_time` with its failure exit. -/
def get_current_time_io (sys : Sys) (p : Proc) : Except (Nat × Fd) (Nat × Proc) :=
  let t := sys.env.time p.times
  if t = -1 then errno_exit (sys.time_errno p.times) p.fd
  else pure (u32_of_int t, { p with times := p.times + 1 })

def write_superblock_io (sys : Sys) (p : Proc) : Except (Nat × Fd) Proc := do
  let p ← lseek_io sys p (BLOCK_OFFSET 1)
  let (current_time, p) ← get_current_time_io sys p
  let superblock := superblock_value current_time
  let size := sizeof_ext2_superblock
  write_io sys p (obj_mem superblock.layout unread) size

def write_block_group_descriptor_table_io (sys : Sys) (p : Proc) :
    Except (Nat × Fd) Proc := do
  let p ← lseek_io sys p (BLOCK_OFFSET 2)
  let size := sizeof_ext2_block_group_descriptor
  write_io sys p (obj_mem block_group_descriptor_value.layout unread) size

def write_block_bitmap_io (sys : Sys) (p : Proc) : Except (Nat × Fd) Proc := do
  let p ← lseek_io sys p (BLOCK_OFFSET BLOCK_BITMAP_BLOCKNO)
  let size := 256 * 4
  write_io sys p (u32_array_mem (block_bitmap_array sys.env.block_bitmap_uninit)) size

def write_inode_bitmap_io (sys : Sys) (p : Proc) : Except (Nat × Fd) Proc := do
  let p ← lseek_io sys p (BLOCK_OFFSET INODE_BITMAP_BLOCKNO)
  let size := BLOCK_SIZE
  write_io sys p (u32_array_mem (inode_bitmap_array sys.env.inode_bitmap_uninit)) size

def write_inode_io (sys : Sys) (p : Proc) (index : Nat) (inode : ext2_inode) :
    Except (Nat × Fd) Proc := do
  let off := BLOCK_OFFSET INODE_TABLE_BLOCKNO
    + u32 (u32 index + 4294967295) * sizeof_ext2_inode
  let p ← lseek_io sys p off
  let size := sizeof_ext2_inode
  write_io sys p (obj_mem inode.layout unread) size

def write_inode_table_io (sys : Sys) (p : Proc) : Except (Nat × Fd) Proc := do
  let (current_time, p) ← get_current_time_io sys p
  let p ← write_inode_io sys p LOST_AND_FOUND_INO (lost_and_found_inode current_time)
  let p ← write_inode_io sys p EXT2_ROOT_INO (root_inode current_time)
  let p ← write_inode_io sys p HELLO_WORLD_INO (reg_file_inode current_time)
  write_inode_io sys p HELLO_INO (symlink_inode current_time)

/-- The statement `dir_entry_write(entry, fd)` with its failure exit. -/
def dir_entry_write_io (sys : Sys) (entry : ext2_dir_entry) (after : Nat → Nat) (p : Proc) :
    Except (Nat × Fd) Proc :=
  let size := entry.rec_len
  write_io sys p (obj_mem entry.layout after) size

def write_root_dir_block_io (sys : Sys) (p : Proc) : Except (Nat × Fd) Proc := do
  let stack := sys.env.root_stack
  let p ← lseek_io sys p (BLOCK_OFFSET ROOT_DIR_BLOCKNO)
  let bytes_remaining : Int := BLOCK_SIZE
  let current_entry := dir_entry_set ext2_dir_entry.zero EXT2_ROOT_INO (str_bytes ("."))
  let p ← dir_entry_write_io sys current_entry (stack 0) p
  let bytes_remaining := bytes_remaining - current_entry.rec_len
  let parent_entry := dir_entry_set ext2_dir_entry.zero EXT2_ROOT_INO (str_bytes (".."))
  let p ← dir_entry_write_io sys parent_entry (stack 1) p
  let bytes_remaining := bytes_remaining - parent_entry.rec_len
  let child_entry1 :=
    dir_entry_set ext2_dir_entry.zero LOST_AND_FOUND_INO (str_bytes ("lost+found"))
  let p ← dir_entry_write_io sys child_entry1 (stack 2) p
  let bytes_remaining := bytes_remaining - child_entry1.rec_len
  let child_entry2 :=
    dir_entry_set ext2_dir_entry.zero HELLO_WORLD_INO (str_bytes ("hello-world"))
  let p ← dir_entry_write_io sys child_entry2 (stack 3) p
  let bytes_remaining := bytes_remaining - child_entry2.rec_len
  let child_entry3 := dir_entry_set ext2_dir_entry.zero HELLO_INO (str_bytes ("hello"))
  let p ← dir_entry_write_io sys child_entry3 (stack 4) p
  let bytes_remaining := bytes_remaining - child_entry3.rec_len
  let fill_entry := { ext2_dir_entry.zero with rec_len := u16_of_int bytes_remaining }
  dir_entry_write_io sys fill_entry (stack 5) p

def write_lost_and_found_dir_block_io (sys : Sys) (p : Proc) : Except (Nat × Fd) Proc := do
  let stack := sys.env.lost_and_found_stack
  let p ← lseek_io sys p (BLOCK_OFFSET LOST_AND_FOUND_DIR_BLOCKNO)
  let bytes_remaining : Int := BLOCK_SIZE
  let current_entry :=
    dir_entry_set ext2_dir_entry.zero LOST_AND_FOUND_INO (str_bytes ("."))
  let p ← dir_entry_write_io sys current_entry (stack 0) p
  let bytes_remaining := bytes_remaining - current_entry.rec_len
  let parent_entry := dir_entry_set ext2_dir_entry.zero EXT2_ROOT_INO (str_bytes (".."))
  let p ← dir_entry_write_io sys parent_entry (stack 1) p
  let bytes_remaining := bytes_remaining - parent_entry.rec_len
  let fill_entry := { ext2_dir_entry.zero with rec_len := u16_of_int bytes_remaining }
  dir_entry_write_io sys fill_entry (stack 2) p

/-- One `dir_entry_write` per entry, in order, each with its failure exit. -/
def dir_entries_write_io (sys : Sys) (stack : Nat → Nat → Nat) :
    List ext2_dir_entry → Nat → Proc → Except (Nat × Fd) Proc
  | [], _, p => pure p
  | e :: es, j, p => do
    let p ← dir_entry_write_io sys e (stack j) p
    dir_entries_write_io sys stack es (j + 1) p

/-- Packing of one directory block at block number `blockno`, each system call
with its failure exit. -/
def pack_dir_block_io (sys : Sys) (blockno : Nat) (bindings : List (Nat × List Nat))
    (stack : Nat → Nat → Nat) (p : Proc) : Except (Nat × Fd) Proc := do
  let p ← lseek_io sys p (BLOCK_OFFSET blockno)
  dir_entries_write_io sys stack (dir_block_entries bindings) 0 p

def write_hello_world_file_block_io (sys : Sys) (p : Proc) : Except (Nat × Fd) Proc := do
  let p ← lseek_io sys p (BLOCK_OFFSET HELLO_WORLD_FILE_BLOCKNO)
  let arr := str_bytes ("Hello world\n")
  let size := 12
  write_io sys p (obj_mem [u8_array_m 12 arr] unread) size

/-- The function `main` with the failure exits of `time`, `lseek` and `write`;
`open`, `ftruncate` and `close` succeed.  `Except.ok` is the `return 0` at the
end of `main`. -/
def main_io (sys : Sys) : Except (Nat × Fd) Proc := do
  let p : Proc := { fd := ftruncate_fresh (NUM_BLOCKS * BLOCK_SIZE), calls := 0, times := 0 }
  let p ← write_superblock_io sys p
  let p ← write_block_group_descriptor_table_io sys p
  let p ← write_block_bitmap_io sys p
  let p ← write_inode_bitmap_io sys p
  let p ← write_inode_table_io sys p
  let p ← write_root_dir_block_io sys p
  let p ← write_lost_and_found_dir_block_io sys p
  write_hello_world_file_block_io sys p

/-- Exit status of a run: the status passed to `exit`, or 0 when `main`
returns. -/
def run_status : Except (Nat × Fd) Proc → Nat
  | Except.error (status, _) => status
  | Except.ok _ => 0

/-- The file a run leaves behind. -/
def run_file : Except (Nat × Fd) Proc → Fd
  | Except.error (_, fd) => fd
  | Except.ok p => p.fd

/-- Offsets and lengths of the writes a run has made, oldest first. -/
def run_writes (r : Except (Nat × Fd) Proc) : List (Nat × Nat) :=
  (run_file r).log.reverse.map (fun w => (w.off, w.len))

/-- Values that the 29 `lseek` and `write` calls of `main` return when all of
them succeed: the offset reached for an `lseek`, the size for a `write`. -/
def main_success_ret (k : Nat) : Int :=
  ([1024, 1052, 2048, 32, 3072, 1024, 4096, 1024, 6400, 128, 5248, 128, 6528, 128, 6656,
    128, 21504, 12, 12, 20, 20, 16, 944, 22528, 12, 12, 1000, 23552, 12] : List Int).getD k 0

/-- A run in which every call succeeds. -/
def sys_success : Sys :=
  { env := sample_env, ret := main_success_ret, errno := fun _ => 0, time_errno := fun _ => 0 }

/-- A run in which the first `write` (of the superblock, 1052 bytes requested)
transfers only 512 bytes and `errno` holds `e` afterwards. -/
def sys_short_write (e : Int) : Sys :=
  { sys_success with
    ret := fun k => if k = 1 then 512 else main_success_ret k
    errno := fun _ => e }

/-- A run in which the `lseek` of `write_root_dir_block` fails with `errno`
holding `e`. -/
def sys_seek_fails (e : Int) : Sys :=
  { sys_success with
    ret := fun k => if k = 16 then -1 else main_success_ret k
    errno := fun _ => e }

/-- Eighty-six bindings of the one-byte name `a`: 774 header and name bytes,
1032 bytes of record lengths. -/
def overflow_bindings : List (Nat × List Nat) :=
  List.replicate 86 (HELLO_WORLD_INO, str_bytes ("a"))

/-- A run in which the seek and the 87 writes of packing `overflow_bindings`
all succeed. -/
def sys_pack_overflow : Sys :=
  { sys_success with
    ret := fun k => if k = 0 then 21504 else if k < 87 then 12 else 65528 }

/-! ## Generic facts about the file model -/

theorem image_write_inside (fd : Fd) (buf : Nat → Nat) (len k : Nat) (h : k < len) :
    image (write fd buf len) (fd.pos + k) = buf k := by
  simp [image, write, read_log, h]

theorem image_write_outside (fd : Fd) (buf : Nat → Nat) (len o : Nat)
    (h : o < fd.pos ∨ fd.pos + len ≤ o) :
    image (write fd buf len) o = image fd o := by
  have hn : ¬ (fd.pos ≤ o ∧ o < fd.pos + len) := by omega
  simp [image, write, read_log, hn]

theorem testBit_u32_array_mem (a : List Nat) (i : Nat) :
    bitmap_bit (u32_array_mem a) i = (a.getD (i / 32) 0).testBit (i % 32) := by
  unfold bitmap_bit u32_array_mem
  have h8 : i % 8 < 8 := Nat.mod_lt _ (by decide)
  have hp : (256 : Nat) ^ (i / 8 % 4) = 2 ^ (8 * (i / 8 % 4)) := by
    rw [Nat.pow_mul]
  have hm : (256 : Nat) = 2 ^ 8 := rfl
  rw [hp, hm, Nat.testBit_mod_two_pow, ← Nat.shiftRight_eq_div_pow, Nat.testBit_shiftRight]
  have e1 : i / 8 / 4 = i / 32 := by omega
  have e2 : 8 * (i / 8 % 4) + i % 8 = i % 32 := by omega
  simp [h8, e1, e2]

theorem getD_set (a : List Nat) (i j v d : Nat) :
    (a.set i v).getD j d = if i = j ∧ j < a.length then v else a.getD j d := by
  simp only [List.getD_eq_getElem?_getD, List.getElem?_set]
  by_cases hij : i = j
  · subst hij
    by_cases hl : i < a.length
    · simp [hl]
    · have hn : a[i]? = none := List.getElem?_eq_none (by omega)
      simp [hl, hn]
  · simp [hij]

theorem fill_loop_length (a : List Nat) (lo hi v : Nat) :
    (fill_loop a lo hi v).length = a.length := by
  unfold fill_loop
  generalize hi - lo = n
  induction n generalizing a lo with
  | zero => simp
  | succ n ih => simp [List.range', ih]

theorem fill_loop_getD (a : List Nat) (lo hi v j d : Nat) :
    (fill_loop a lo hi v).getD j d
      = if lo ≤ j ∧ j < hi ∧ j < a.length then v else a.getD j d := by
  unfold fill_loop
  by_cases hlh : lo ≤ hi
  · obtain ⟨n, rfl⟩ : ∃ n, hi = lo + n := ⟨hi - lo, by omega⟩
    rw [Nat.add_sub_cancel_left]
    induction n generalizing a lo with
    | zero =>
      have : ¬ (lo ≤ j ∧ j < lo ∧ j < a.length) := by omega
      simp [this]
    | succ n ih =>
      simp only [List.range', List.foldl_cons]
      rw [ih (a.set lo v) (lo + 1) (by omega), getD_set, List.length_set]
      by_cases h1 : lo = j
      · subst h1
        by_cases h2 : lo < a.length
        · have c1 : ¬ (lo + 1 ≤ lo ∧ lo < lo + 1 + n ∧ lo < a.length) := by omega
          have c2 : lo ≤ lo ∧ lo < lo + (n + 1) ∧ lo < a.length := by omega
          simp [c1, c2, h2]
        · have c1 : ¬ (lo + 1 ≤ lo ∧ lo < lo + 1 + n ∧ lo < a.length) := by omega
          have c2 : ¬ (lo ≤ lo ∧ lo < lo + (n + 1) ∧ lo < a.length) := by omega
          simp [c1, c2, h2]
      · by_cases h3 : lo + 1 ≤ j ∧ j < lo + 1 + n ∧ j < a.length
        · have c2 : lo ≤ j ∧ j < lo + (n + 1) ∧ j < a.length := by omega
          simp [h3, c2]
        · have c2 : ¬ (lo ≤ j ∧ j < lo + (n + 1) ∧ j < a.length) := by omega
          simp [h3, c2, h1]
  · have h0 : hi - lo = 0 := by omega
    have : ¬ (lo ≤ j ∧ j < hi ∧ j < a.length) := by omega
    simp [h0, this]

theorem uninit_array_length (uninit : Nat → Nat) (n : Nat) :
    (uninit_array uninit n).length = n := by
  simp [uninit_array]

/-- Every element of the block bitmap array is assigned before the write:
word 0 is `0x007fffff`, words 1..30 are 0, word 31 is `0x80000000` and words
32..255 are `0xffffffff`, whatever the array held at first. -/
theorem block_bitmap_array_getD (uninit : Nat → Nat) (j : Nat) (hj : j < 256) :
    (block_bitmap_array uninit).getD j 0
      = if j = 0 then 0x007fffff else if j < 31 then 0
        else if j = 31 then 0x80000000 else 0xffffffff := by
  unfold block_bitmap_array
  simp only [getD_set, fill_loop_getD, fill_loop_length, List.length_set, uninit_array_length]
  split_ifs <;> first | rfl | omega

/-- Every element of the inode bitmap array is assigned before the write:
word 0 is `0x1fff`, words 1..3 are 0 and words 4..255 are `0xffffffff`. -/
theorem inode_bitmap_array_getD (uninit : Nat → Nat) (j : Nat) (hj : j < 256) :
    (inode_bitmap_array uninit).getD j 0
      = if j = 0 then 0x1fff else if j < 4 then 0 else 0xffffffff := by
  unfold inode_bitmap_array
  simp only [getD_set, fill_loop_getD, fill_loop_length, List.length_set, uninit_array_length]
  split_ifs <;> first | rfl | omega

theorem image_from_write (fd : Fd) (buf : Nat → Nat) (off len k : Nat) (h : k < len) :
    image_from (write (lseek fd off) buf len) off k = buf k := by
  have := image_write_inside (lseek fd off) buf len k h
  simpa [image_from, lseek] using this

theorem bitmap_bit_congr (m m2 : Nat → Nat) (i : Nat) (h : m (i / 8) = m2 (i / 8)) :
    bitmap_bit m i = bitmap_bit m2 i := by
  unfold bitmap_bit; rw [h]

/-- Bit `i` of the block written by `write_block_bitmap` is bit `i % 32` of
element `i / 32` of `bm_array`. -/
theorem block_bitmap_bit_word (uninit : Nat → Nat) (fd : Fd) (i : Nat) (hi : i < 8192) :
    bitmap_bit (image_from (write_block_bitmap uninit fd)
        (BLOCK_OFFSET BLOCK_BITMAP_BLOCKNO)) i
      = ((block_bitmap_array uninit).getD (i / 32) 0).testBit (i % 32) := by
  rw [← testBit_u32_array_mem]
  apply bitmap_bit_congr
  unfold write_block_bitmap
  exact image_from_write fd _ _ _ _ (by omega)

/-- Bit `i` of the block written by `write_inode_bitmap` is bit `i % 32` of
element `i / 32` of `bm_array`. -/
theorem inode_bitmap_bit_word (uninit : Nat → Nat) (fd : Fd) (i : Nat) (hi : i < 8192) :
    bitmap_bit (image_from (write_inode_bitmap uninit fd)
        (BLOCK_OFFSET INODE_BITMAP_BLOCKNO)) i
      = ((inode_bitmap_array uninit).getD (i / 32) 0).testBit (i % 32) := by
  rw [← testBit_u32_array_mem]
  apply bitmap_bit_congr
  unfold write_inode_bitmap
  exact image_from_write fd _ _ _ _ (by simp only [BLOCK_SIZE]; omega)

theorem testBit_block_word0 (b : Nat) : Nat.testBit 0x007fffff b = decide (b < 23) :=
  Nat.testBit_two_pow_sub_one 23 b

theorem testBit_block_word31 (b : Nat) : Nat.testBit 0x80000000 b = decide (31 = b) :=
  Nat.testBit_two_pow (n := 31) (m := b)

theorem testBit_ones32 (b : Nat) : Nat.testBit 0xffffffff b = decide (b < 32) :=
  Nat.testBit_two_pow_sub_one 32 b

theorem testBit_inode_word0 (b : Nat) : Nat.testBit 0x1fff b = decide (b < 13) :=
  Nat.testBit_two_pow_sub_one 13 b

/-- The bits of the block bitmap, independent of the reading convention:
bits 0..22 and 1023..8191 are set, bits 23..1022 are clear. -/
theorem block_bitmap_bit_iff (uninit : Nat → Nat) (fd : Fd) (i : Nat) (hi : i < 8192) :
    bitmap_bit (image_from (write_block_bitmap uninit fd)
        (BLOCK_OFFSET BLOCK_BITMAP_BLOCKNO)) i = true ↔ (i < 23 ∨ 1023 ≤ i) := by
  rw [block_bitmap_bit_word uninit fd i hi,
    block_bitmap_array_getD uninit (i / 32) (by omega)]
  split_ifs with h0 h1 h2
  · rw [testBit_block_word0, decide_eq_true_iff]; omega
  · rw [Nat.zero_testBit]; simp only [Bool.false_eq_true, false_iff]; omega
  · rw [testBit_block_word31, decide_eq_true_iff]; omega
  · rw [testBit_ones32, decide_eq_true_iff]; omega

/-! ## Directory packing -/

theorem u16_of_int_natCast (n : Nat) (h : n < 65536) : u16_of_int (n : Int) = n := by
  unfold u16_of_int
  have : ((n : Int) % 65536) = (n : Int) := Int.emod_eq_of_lt (by omega) (by omega)
  rw [this]; simp

theorem bytes_remaining_foldl (es : List ext2_dir_entry) (r : Int) :
    es.foldl (fun r e => r - (e.rec_len : Int)) r
      = r - ((es.map (fun e => e.rec_len)).sum : Nat) := by
  induction es generalizing r with
  | nil => simp
  | cons e es ih =>
    simp only [List.foldl_cons, List.map_cons, List.sum_cons]
    rw [ih]; push_cast; omega

theorem bytes_remaining_after_eq (es : List ext2_dir_entry) :
    bytes_remaining_after es
      = (BLOCK_SIZE : Int) - ((es.map (fun e => e.rec_len)).sum : Nat) := by
  unfold bytes_remaining_after
  exact bytes_remaining_foldl es _

theorem dir_entries_write_lens (stack : Nat → Nat → Nat) (es : List ext2_dir_entry)
    (j : Nat) (fd : Fd) :
    (dir_entries_write stack es j fd).log.map (fun w => w.len)
      = (es.map (fun e => e.rec_len)).reverse ++ fd.log.map (fun w => w.len) := by
  induction es generalizing j fd with
  | nil => simp [dir_entries_write]
  | cons e es ih =>
    simp only [dir_entries_write, ih, List.map_cons, List.reverse_cons, List.append_assoc]
    simp [dir_entry_write, write]

theorem write_root_dir_block_eq_pack (stack : Nat → Nat → Nat) (fd : Fd) :
    write_root_dir_block stack fd = pack_dir_block ROOT_DIR_BLOCKNO root_bindings stack fd := by
  rfl

theorem write_lost_and_found_dir_block_eq_pack (stack : Nat → Nat → Nat) (fd : Fd) :
    write_lost_and_found_dir_block stack fd
      = pack_dir_block LOST_AND_FOUND_DIR_BLOCKNO lost_and_found_bindings stack fd := by
  rfl

/-! ## Object sizes and the inode table -/

theorem sizeof_ext2_superblock_eq : sizeof_ext2_superblock = 1052 := by decide
theorem sizeof_ext2_block_group_descriptor_eq : sizeof_ext2_block_group_descriptor = 32 := by
  decide
theorem sizeof_ext2_inode_eq : sizeof_ext2_inode = 128 := by decide
theorem sizeof_ext2_dir_entry_eq : sizeof_ext2_dir_entry = 264 := by decide

theorem write_inode_offset (index : Nat) (h1 : 1 ≤ index) (h2 : index ≤ NUM_INODES) :
    BLOCK_OFFSET INODE_TABLE_BLOCKNO + u32 (u32 index + 4294967295) * sizeof_ext2_inode
      = 5 * 1024 + (index - 1) * 128 := by
  simp only [NUM_INODES] at h2
  simp only [BLOCK_OFFSET, INODE_TABLE_BLOCKNO, BLOCK_SIZE, u32, sizeof_ext2_inode_eq]
  have : (index % 4294967296 + 4294967295) % 4294967296 = index - 1 := by omega
  rw [this]

/-! ## The log of `main` -/

theorem rec_len_dot (ino : Nat) :
    (dir_entry_set ext2_dir_entry.zero ino (str_bytes ("."))).rec_len = 12 := by
  simp [dir_entry_set, str_bytes, u16]
theorem rec_len_dotdot (ino : Nat) :
    (dir_entry_set ext2_dir_entry.zero ino (str_bytes (".."))).rec_len = 12 := by
  simp [dir_entry_set, str_bytes, u16]
theorem rec_len_lost_found (ino : Nat) :
    (dir_entry_set ext2_dir_entry.zero ino (str_bytes ("lost+found"))).rec_len = 20 := by
  simp [dir_entry_set, str_bytes, u16]
theorem rec_len_hello_world (ino : Nat) :
    (dir_entry_set ext2_dir_entry.zero ino (str_bytes ("hello-world"))).rec_len = 20 := by
  simp [dir_entry_set, str_bytes, u16]
theorem rec_len_hello (ino : Nat) :
    (dir_entry_set ext2_dir_entry.zero ino (str_bytes ("hello"))).rec_len = 16 := by
  simp [dir_entry_set, str_bytes, u16]

theorem toNat_944 : Int.toNat 944 = 944 := rfl
theorem toNat_1000 : Int.toNat 1000 = 1000 := rfl

theorem write_root_dir_block_log (stack : Nat → Nat → Nat) (fd : Fd) :
    (write_root_dir_block stack fd).log =
      [⟨21584, 944, obj_mem ({ ext2_dir_entry.zero with rec_len := 944 }).layout (stack 5)⟩,
       ⟨21568, 16, obj_mem (dir_entry_set ext2_dir_entry.zero HELLO_INO
          (str_bytes ("hello"))).layout (stack 4)⟩,
       ⟨21548, 20, obj_mem (dir_entry_set ext2_dir_entry.zero HELLO_WORLD_INO
          (str_bytes ("hello-world"))).layout (stack 3)⟩,
       ⟨21528, 20, obj_mem (dir_entry_set ext2_dir_entry.zero LOST_AND_FOUND_INO
          (str_bytes ("lost+found"))).layout (stack 2)⟩,
       ⟨21516, 12, obj_mem (dir_entry_set ext2_dir_entry.zero EXT2_ROOT_INO
          (str_bytes (".."))).layout (stack 1)⟩,
       ⟨21504, 12, obj_mem (dir_entry_set ext2_dir_entry.zero EXT2_ROOT_INO
          (str_bytes ("."))).layout (stack 0)⟩] ++ fd.log := by
  simp only [write_root_dir_block, dir_entry_write, write, lseek, rec_len_dot, rec_len_dotdot,
    rec_len_lost_found, rec_len_hello, rec_len_hello_world, BLOCK_OFFSET, BLOCK_SIZE,
    ROOT_DIR_BLOCKNO]
  norm_num [u16_of_int, toNat_944]

theorem write_lost_and_found_dir_block_log (stack : Nat → Nat → Nat) (fd : Fd) :
    (write_lost_and_found_dir_block stack fd).log =
      [⟨22552, 1000, obj_mem ({ ext2_dir_entry.zero with rec_len := 1000 }).layout (stack 2)⟩,
       ⟨22540, 12, obj_mem (dir_entry_set ext2_dir_entry.zero EXT2_ROOT_INO
          (str_bytes (".."))).layout (stack 1)⟩,
       ⟨22528, 12, obj_mem (dir_entry_set ext2_dir_entry.zero LOST_AND_FOUND_INO
          (str_bytes ("."))).layout (stack 0)⟩] ++ fd.log := by
  simp only [write_lost_and_found_dir_block, dir_entry_write, write, lseek, rec_len_dot,
    rec_len_dotdot, BLOCK_OFFSET, BLOCK_SIZE, LOST_AND_FOUND_DIR_BLOCKNO]
  norm_num [u16_of_int, toNat_1000]

theorem write_inode_log (fd : Fd) (n : Nat) (inode : ext2_inode)
    (h1 : 1 ≤ n) (h2 : n ≤ NUM_INODES) :
    (write_inode fd n inode).log
      = ⟨5 * 1024 + (n - 1) * 128, 128, obj_mem inode.layout unread⟩ :: fd.log := by
  unfold write_inode
  rw [write_inode_offset n h1 h2, sizeof_ext2_inode_eq]
  rfl

theorem write_inode_table_log (t : Int) (fd : Fd) (h : t ≠ -1) :
    ∃ fd2, write_inode_table t fd = some fd2 ∧ fd2.log =
      [⟨6656, 128, obj_mem (symlink_inode (u32_of_int t)).layout unread⟩,
       ⟨6528, 128, obj_mem (reg_file_inode (u32_of_int t)).layout unread⟩,
       ⟨5248, 128, obj_mem (root_inode (u32_of_int t)).layout unread⟩,
       ⟨6400, 128, obj_mem (lost_and_found_inode (u32_of_int t)).layout unread⟩] ++ fd.log := by
  refine ⟨_, by simp only [write_inode_table, get_current_time, h, if_false]; rfl, ?_⟩
  rw [write_inode_log _ _ _ (by decide) (by decide), write_inode_log _ _ _ (by decide) (by decide),
    write_inode_log _ _ _ (by decide) (by decide), write_inode_log _ _ _ (by decide) (by decide)]
  rfl

theorem write_superblock_log (t : Int) (fd : Fd) (h : t ≠ -1) :
    ∃ fd2, write_superblock t fd = some fd2 ∧ fd2.log =
      ⟨1024, 1052, obj_mem (superblock_value (u32_of_int t)).layout unread⟩ :: fd.log := by
  refine ⟨_, by simp only [write_superblock, get_current_time, h, if_false]; rfl, ?_⟩
  rw [sizeof_ext2_superblock_eq]
  rfl

theorem write_block_group_descriptor_table_log (fd : Fd) :
    (write_block_group_descriptor_table fd).log =
      ⟨2048, 32, obj_mem block_group_descriptor_value.layout unread⟩ :: fd.log := by
  unfold write_block_group_descriptor_table
  rw [sizeof_ext2_block_group_descriptor_eq]
  rfl

theorem write_block_bitmap_log (uninit : Nat → Nat) (fd : Fd) :
    (write_block_bitmap uninit fd).log =
      ⟨3072, 1024, u32_array_mem (block_bitmap_array uninit)⟩ :: fd.log := rfl

theorem write_inode_bitmap_log (uninit : Nat → Nat) (fd : Fd) :
    (write_inode_bitmap uninit fd).log =
      ⟨4096, 1024, u32_array_mem (inode_bitmap_array uninit)⟩ :: fd.log := rfl

theorem write_hello_world_file_block_log (fd : Fd) :
    (write_hello_world_file_block fd).log =
      ⟨23552, 12, obj_mem [u8_array_m 12 (str_bytes ("Hello world\n"))] unread⟩ :: fd.log := rfl

theorem main_log_eq (env : Env) (h0 : env.time 0 ≠ -1) (h1 : env.time 1 ≠ -1) :
    ∃ fd, main env = some fd ∧ fd.log = main_log env := by
  obtain ⟨fd1, e1, l1⟩ :=
    write_superblock_log (env.time 0) (ftruncate_fresh (NUM_BLOCKS * BLOCK_SIZE)) h0
  obtain ⟨fd5, e5, l5⟩ := write_inode_table_log (env.time 1)
    (write_inode_bitmap env.inode_bitmap_uninit (write_block_bitmap env.block_bitmap_uninit
      (write_block_group_descriptor_table fd1))) h1
  refine ⟨write_hello_world_file_block (write_lost_and_found_dir_block
    env.lost_and_found_stack (write_root_dir_block env.root_stack fd5)), ?_, ?_⟩
  · simp only [main, e1, e5, Option.pure_def, Option.bind_eq_bind, Option.some_bind]
  · rw [write_hello_world_file_block_log, write_lost_and_found_dir_block_log,
      write_root_dir_block_log, l5, write_inode_bitmap_log, write_block_bitmap_log,
      write_block_group_descriptor_table_log, l1]
    rfl


theorem dir_walk_end (blk : Nat → Nat) (fuel : Nat) : dir_walk blk fuel 1024 = [] := by
  cases fuel <;> simp [dir_walk, BLOCK_SIZE]

/-- Memory of a directory entry object and of what follows it. -/
theorem dir_entry_mem (e : ext2_dir_entry) (after : Nat → Nat) (k : Nat) :
    obj_mem e.layout after k
      = if k < 4 then e.inode / 256 ^ k % 256
        else if k < 6 then e.rec_len / 256 ^ (k - 4) % 256
        else if k < 8 then e.name_len / 256 ^ (k - 6) % 256
        else if k < 263 then e.name.getD (k - 8) 0 % 256
        else if k < 264 then 0
        else after (k - 264) % 256 := by
  simp only [ext2_dir_entry.layout, obj_mem, u32_m, u16_m, u8_array_m, pad_m, EXT2_NAME_LEN,
    Nat.sub_sub, Nat.reduceAdd]
  split_ifs <;> omega

theorem memcpy_getD_zero (n : Nat) (str : List Nat) (j : Nat) :
    (memcpy (List.replicate n 0) str str.length).getD j 0 = str.getD j 0 := by
  unfold memcpy
  rw [List.take_length]
  by_cases h : j < str.length
  · simp [List.getD_eq_getElem?_getD, List.getElem?_append_left h]
  · have h2 : str.length ≤ j := by omega
    simp [List.getD_eq_getElem?_getD, List.getElem?_append_right h2,
      List.getElem?_eq_none h2, List.getElem?_replicate]
    split_ifs <;> rfl

theorem dir_entry_set_inode (e : ext2_dir_entry) (ino : Nat) (str : List Nat) :
    (dir_entry_set e ino str).inode = u32 ino := rfl

theorem dir_entry_set_rec_len (e : ext2_dir_entry) (ino : Nat) (str : List Nat) :
    (dir_entry_set e ino str).rec_len
      = if str.length % 4 ≠ 0 then u16 (12 + str.length / 4 * 4) else u16 (8 + str.length) :=
  rfl

theorem dir_entry_set_name_len (e : ext2_dir_entry) (ino : Nat) (str : List Nat) :
    (dir_entry_set e ino str).name_len = u16 str.length := rfl

theorem dir_entry_set_name_getD (ino : Nat) (str : List Nat) (j : Nat) :
    (dir_entry_set ext2_dir_entry.zero ino str).name.getD j 0 = str.getD j 0 :=
  memcpy_getD_zero EXT2_NAME_LEN str j

theorem dir_entry_set_name_getElem (ino : Nat) (str : List Nat) (j : Nat) :
    (dir_entry_set ext2_dir_entry.zero ino str).name[j]?.getD 0 = str[j]?.getD 0 := by
  simpa [List.getD_eq_getElem?_getD] using dir_entry_set_name_getD ino str j

theorem read_log_skip (w : WriteOp) (ws : List WriteOp) (o : Nat)
    (h : o < w.off ∨ w.off + w.len ≤ o) : read_log (w :: ws) o = read_log ws o := by
  have hn : ¬ (w.off ≤ o ∧ o < w.off + w.len) := by omega
  simp [read_log, hn]

theorem read_log_hit (w : WriteOp) (ws : List WriteOp) (o : Nat)
    (h : w.off ≤ o ∧ o < w.off + w.len) : read_log (w :: ws) o = w.buf (o - w.off) := by
  simp [read_log, h]

theorem main_log_root0 (env : Env) (o : Nat) (h1 : 21504 ≤ o) (h2 : o < 21516) :
    read_log (main_log env) o
      = obj_mem (dir_entry_set ext2_dir_entry.zero EXT2_ROOT_INO (str_bytes ("."))).layout
          (env.root_stack 0) (o - 21504) := by
  unfold main_log
  iterate 9 rw [read_log_skip _ _ _ (by dsimp only; omega)]
  rw [read_log_hit _ _ _ (by dsimp only; omega)]

theorem main_log_root1 (env : Env) (o : Nat) (h1 : 21516 ≤ o) (h2 : o < 21528) :
    read_log (main_log env) o
      = obj_mem (dir_entry_set ext2_dir_entry.zero EXT2_ROOT_INO (str_bytes (".."))).layout
          (env.root_stack 1) (o - 21516) := by
  unfold main_log
  iterate 8 rw [read_log_skip _ _ _ (by dsimp only; omega)]
  rw [read_log_hit _ _ _ (by dsimp only; omega)]

theorem main_log_root2 (env : Env) (o : Nat) (h1 : 21528 ≤ o) (h2 : o < 21548) :
    read_log (main_log env) o
      = obj_mem (dir_entry_set ext2_dir_entry.zero LOST_AND_FOUND_INO
          (str_bytes ("lost+found"))).layout (env.root_stack 2) (o - 21528) := by
  unfold main_log
  iterate 7 rw [read_log_skip _ _ _ (by dsimp only; omega)]
  rw [read_log_hit _ _ _ (by dsimp only; omega)]

theorem main_log_root3 (env : Env) (o : Nat) (h1 : 21548 ≤ o) (h2 : o < 21568) :
    read_log (main_log env) o
      = obj_mem (dir_entry_set ext2_dir_entry.zero HELLO_WORLD_INO
          (str_bytes ("hello-world"))).layout (env.root_stack 3) (o - 21548) := by
  unfold main_log
  iterate 6 rw [read_log_skip _ _ _ (by dsimp only; omega)]
  rw [read_log_hit _ _ _ (by dsimp only; omega)]

theorem main_log_root4 (env : Env) (o : Nat) (h1 : 21568 ≤ o) (h2 : o < 21584) :
    read_log (main_log env) o
      = obj_mem (dir_entry_set ext2_dir_entry.zero HELLO_INO (str_bytes ("hello"))).layout
          (env.root_stack 4) (o - 21568) := by
  unfold main_log
  iterate 5 rw [read_log_skip _ _ _ (by dsimp only; omega)]
  rw [read_log_hit _ _ _ (by dsimp only; omega)]

theorem main_log_root5 (env : Env) (o : Nat) (h1 : 21584 ≤ o) (h2 : o < 22528) :
    read_log (main_log env) o
      = obj_mem ({ ext2_dir_entry.zero with rec_len := 944 }).layout
          (env.root_stack 5) (o - 21584) := by
  unfold main_log
  iterate 4 rw [read_log_skip _ _ _ (by dsimp only; omega)]
  rw [read_log_hit _ _ _ (by dsimp only; omega)]

theorem root_dir_block_walk (env : Env) (h0 : env.time 0 ≠ -1) (h1 : env.time 1 ≠ -1)
    (fuel : Nat) (hfuel : 6 ≤ fuel) :
    ∃ fd, main env = some fd
      ∧ dir_walk (image_from fd (BLOCK_OFFSET ROOT_DIR_BLOCKNO)) fuel 0
        = [⟨2, 12, 1, str_bytes (".")⟩, ⟨2, 12, 2, str_bytes ("..")⟩,
           ⟨11, 20, 10, str_bytes ("lost+found")⟩, ⟨12, 20, 11, str_bytes ("hello-world")⟩,
           ⟨13, 16, 5, str_bytes ("hello")⟩, ⟨0, 944, 0, []⟩] := by
  obtain ⟨fd, hm, hl⟩ := main_log_eq env h0 h1
  refine ⟨fd, hm, ?_⟩
  obtain ⟨n, rfl⟩ : ∃ n, fuel = n + 6 := ⟨fuel - 6, by omega⟩
  have hb : ∀ k, image_from fd (BLOCK_OFFSET ROOT_DIR_BLOCKNO) k
      = read_log (main_log env) (21504 + k) := by
    intro k; simp [image_from, image, hl, BLOCK_OFFSET, ROOT_DIR_BLOCKNO, BLOCK_SIZE]
  have r0 : read_dir_record (image_from fd (BLOCK_OFFSET ROOT_DIR_BLOCKNO)) 0
      = ⟨2, 12, 1, str_bytes (".")⟩ := by
    simp (disch := omega) [read_dir_record, rd32, rd16, rdbytes, hb, main_log_root0,
      dir_entry_mem, dir_entry_set_inode, dir_entry_set_name_len, dir_entry_set_name_getElem,
      dir_entry_set_rec_len, u32, u16, EXT2_ROOT_INO, str_bytes]
    decide
  have r1 : read_dir_record (image_from fd (BLOCK_OFFSET ROOT_DIR_BLOCKNO)) 12
      = ⟨2, 12, 2, str_bytes ("..")⟩ := by
    simp (disch := omega) [read_dir_record, rd32, rd16, rdbytes, hb, main_log_root1,
      dir_entry_mem, dir_entry_set_inode, dir_entry_set_name_len, dir_entry_set_name_getElem,
      dir_entry_set_rec_len, u32, u16, EXT2_ROOT_INO, str_bytes]
    decide
  have r2 : read_dir_record (image_from fd (BLOCK_OFFSET ROOT_DIR_BLOCKNO)) 24
      = ⟨11, 20, 10, str_bytes ("lost+found")⟩ := by
    simp (disch := omega) [read_dir_record, rd32, rd16, rdbytes, hb, main_log_root2,
      dir_entry_mem, dir_entry_set_inode, dir_entry_set_name_len, dir_entry_set_name_getElem,
      dir_entry_set_rec_len, u32, u16, LOST_AND_FOUND_INO, str_bytes]
    decide
  have r3 : read_dir_record (image_from fd (BLOCK_OFFSET ROOT_DIR_BLOCKNO)) 44
      = ⟨12, 20, 11, str_bytes ("hello-world")⟩ := by
    simp (disch := omega) [read_dir_record, rd32, rd16, rdbytes, hb, main_log_root3,
      dir_entry_mem, dir_entry_set_inode, dir_entry_set_name_len, dir_entry_set_name_getElem,
      dir_entry_set_rec_len, u32, u16, HELLO_WORLD_INO, str_bytes]
    decide
  have r4 : read_dir_record (image_from fd (BLOCK_OFFSET ROOT_DIR_BLOCKNO)) 64
      = ⟨13, 16, 5, str_bytes ("hello")⟩ := by
    simp (disch := omega) [read_dir_record, rd32, rd16, rdbytes, hb, main_log_root4,
      dir_entry_mem, dir_entry_set_inode, dir_entry_set_name_len, dir_entry_set_name_getElem,
      dir_entry_set_rec_len, u32, u16, HELLO_INO, str_bytes]
    decide
  have r5 : read_dir_record (image_from fd (BLOCK_OFFSET ROOT_DIR_BLOCKNO)) 80
      = ⟨0, 944, 0, []⟩ := by
    simp (disch := omega) [read_dir_record, rd32, rd16, rdbytes, hb, main_log_root5,
      dir_entry_mem, ext2_dir_entry.zero]
  simp [dir_walk, r0, r1, r2, r3, r4, r5, BLOCK_SIZE, dir_walk_end]

/-! ## The superblock -/

theorem obj_mem_skip (m : Member) (ms : List Member) (after : Nat → Nat) (k : Nat)
    (h : m.size ≤ k) : obj_mem (m :: ms) after k = obj_mem ms after (k - m.size) := by
  have hn : ¬ k < m.size := by omega
  simp [obj_mem, hn]

theorem getD_replicate_zero (n i : Nat) : (List.replicate n 0).getD i 0 = 0 := by
  simp only [List.getD_eq_getElem?_getD, List.getElem?_replicate]
  split_ifs <;> rfl

theorem u32_array_mem_zero (n k : Nat) : u32_array_mem (List.replicate n 0) k = 0 := by
  simp [u32_array_mem, getD_replicate_zero]

theorem superblock_uuid_zero :
    superblock_uuid (List.replicate 16 0)
      = [0x5A, 0x1E, 0xAB, 0x1E, 0x13, 0x37, 0x13, 0x37,
         0x13, 0x37, 0xC0, 0xFF, 0xEE, 0xC0, 0xFF, 0xEE] := by decide

theorem superblock_volume_name :
    memcpy (List.replicate 16 0) (str_bytes ("cs111-base")) 10
      = str_bytes ("cs111-base") ++ List.replicate 6 0 := by decide

/-- The superblock object with every member spelled out. -/
theorem superblock_value_eq (t : Nat) :
    superblock_value t =
      { s_inodes_count := 128, s_blocks_count := 1024, s_r_blocks_count := 0
        s_free_blocks_count := 1000, s_free_inodes_count := 115, s_first_data_block := 1
        s_log_block_size := 0, s_log_frag_size := 0, s_blocks_per_group := 8192
        s_frags_per_group := 8192, s_inodes_per_group := 128, s_mtime := 0, s_wtime := t
        s_mnt_count := 0, s_max_mnt_count := 0, s_magic := 0xEF53, s_state := 0
        s_errors := 0, s_minor_rev_level := 0, s_lastcheck := t
        s_checkinterval := 0, s_creator_os := 0, s_rev_level := 0
        s_def_resuid := 0, s_def_resgid := 0
        s_pad := List.replicate 5 0
        s_uuid := [0x5A, 0x1E, 0xAB, 0x1E, 0x13, 0x37, 0x13, 0x37,
                   0x13, 0x37, 0xC0, 0xFF, 0xEE, 0xC0, 0xFF, 0xEE]
        s_volume_name := str_bytes ("cs111-base") ++ List.replicate 6 0
        s_reserved := List.replicate 229 0 } := by
  unfold superblock_value
  simp only [ext2_superblock.zero, superblock_uuid_zero, superblock_volume_name]
  rfl

theorem write_superblock_image (t : Int) (fd : Fd) (h : t ≠ -1) :
    ∃ fd2, write_superblock t fd = some fd2
      ∧ ∀ k, k < 1052 → image_from fd2 (BLOCK_OFFSET SUPERBLOCK_BLOCKNO) k
          = obj_mem (superblock_value (u32_of_int t)).layout unread k := by
  obtain ⟨fd2, e, l⟩ := write_superblock_log t fd h
  refine ⟨fd2, e, fun k hk => ?_⟩
  simp only [image_from, image, l, BLOCK_OFFSET, SUPERBLOCK_BLOCKNO, BLOCK_SIZE]
  rw [read_log_hit _ _ _ (by dsimp only; omega)]
  simp

set_option maxRecDepth 4000 in
theorem superblock_mem_reserved (t k : Nat) (h1 : 136 ≤ k) :
    obj_mem (superblock_value t).layout unread k = 0 := by
  rw [superblock_value_eq]
  simp only [ext2_superblock.layout]
  iterate 28 rw [obj_mem_skip _ _ _ _ (by simp only [u32_m, u16_m, u8_array_m, u32_array_m]; omega)]
  simp only [obj_mem, u32_m, u16_m, u8_array_m, u32_array_m, unread, u32_array_mem_zero]
  split_ifs <;> rfl
theorem rd32s_zero (m : Nat → Nat) (o n : Nat) (h : ∀ k, o ≤ k → k < o + 4 * n → m k = 0) :
    rd32s m o n = List.replicate n 0 := by
  induction n generalizing o with
  | zero => rfl
  | succ n ih =>
    simp only [rd32s, List.replicate_succ]
    rw [ih (o + 4) (fun k h1 h2 => h k (by omega) (by omega))]
    simp [rd32, h o (by omega) (by omega), h (o + 1) (by omega) (by omega),
      h (o + 2) (by omega) (by omega), h (o + 3) (by omega) (by omega)]

theorem u32_of_int_lt (t : Int) : u32_of_int t < 4294967296 := by
  unfold u32_of_int
  have h1 : 0 ≤ t % 4294967296 := Int.emod_nonneg _ (by decide)
  have h2 : t % 4294967296 < 4294967296 := Int.emod_lt_of_pos _ (by decide)
  omega

theorem le32_value (v : Nat) (h : v < 4294967296) :
    v % 256 + 256 * (v / 256 % 256) + 65536 * (v / 65536 % 256)
      + 16777216 * (v / 16777216 % 256) = v := by
  omega

theorem u32_of_int_zero : u32_of_int 0 = 0 := rfl

theorem u16_of_int_zero : u16_of_int 0 = 0 := rfl

set_option maxRecDepth 4000 in
/-- Round trip: decoding the bytes that `write_superblock` leaves at the start
of block 1 gives back the superblock object. -/
theorem decode_superblock_image (t : Int) (fd : Fd) (h : t ≠ -1) :
    ∃ fd2, write_superblock t fd = some fd2
      ∧ decode_superblock (image_from fd2 (BLOCK_OFFSET SUPERBLOCK_BLOCKNO))
          = superblock_value (u32_of_int t)
      ∧ image_from fd2 (BLOCK_OFFSET SUPERBLOCK_BLOCKNO) 56 = 0x53
      ∧ image_from fd2 (BLOCK_OFFSET SUPERBLOCK_BLOCKNO) 57 = 0xEF := by
  obtain ⟨fd2, e, him⟩ := write_superblock_image t fd h
  refine ⟨fd2, e, ?_, ?_, ?_⟩
  · have hres : rd32s (image_from fd2 (BLOCK_OFFSET SUPERBLOCK_BLOCKNO)) 136 229
        = List.replicate 229 0 :=
      rd32s_zero _ _ _ (fun k h1 h2 => by
        rw [him k (by omega)]; exact superblock_mem_reserved _ k h1)
    have hT := le32_value (u32_of_int t) (u32_of_int_lt t)
    rw [superblock_value_eq] at him ⊢
    unfold decode_superblock
    rw [hres]
    simp (disch := omega) only [rd32, rd16, rd32s, rdbytes, him]
    simp [ext2_superblock.layout, obj_mem, u32_m, u16_m, u8_array_m, u32_array_m,
      u32_array_mem, to_i32, to_i16, u32_of_int_zero, u16_of_int_zero, str_bytes]
    exact hT
  · rw [him 56 (by omega), superblock_value_eq]
    simp [ext2_superblock.layout, obj_mem, u32_m, u16_m]
  · rw [him 57 (by omega), superblock_value_eq]
    simp [ext2_superblock.layout, obj_mem, u32_m, u16_m]

/-! ## Inodes and file data in the image -/

theorem main_log_hello (env : Env) (o : Nat) (h1 : 23552 ≤ o) (h2 : o < 23564) :
    read_log (main_log env) o
      = obj_mem [u8_array_m 12 (str_bytes ("Hello world\n"))] unread (o - 23552) := by
  unfold main_log
  rw [read_log_hit _ _ _ (by dsimp only; omega)]

theorem main_log_symlink (env : Env) (o : Nat) (h1 : 6656 ≤ o) (h2 : o < 6784) :
    read_log (main_log env) o
      = obj_mem (symlink_inode (u32_of_int (env.time 1))).layout unread (o - 6656) := by
  unfold main_log
  iterate 10 rw [read_log_skip _ _ _ (by dsimp only; omega)]
  rw [read_log_hit _ _ _ (by dsimp only; omega)]

theorem main_log_reg_file (env : Env) (o : Nat) (h1 : 6528 ≤ o) (h2 : o < 6656) :
    read_log (main_log env) o
      = obj_mem (reg_file_inode (u32_of_int (env.time 1))).layout unread (o - 6528) := by
  unfold main_log
  iterate 11 rw [read_log_skip _ _ _ (by dsimp only; omega)]
  rw [read_log_hit _ _ _ (by dsimp only; omega)]

theorem main_log_root_inode (env : Env) (o : Nat) (h1 : 5248 ≤ o) (h2 : o < 5376) :
    read_log (main_log env) o
      = obj_mem (root_inode (u32_of_int (env.time 1))).layout unread (o - 5248) := by
  unfold main_log
  iterate 12 rw [read_log_skip _ _ _ (by dsimp only; omega)]
  rw [read_log_hit _ _ _ (by dsimp only; omega)]

theorem main_log_lost_and_found_inode (env : Env) (o : Nat) (h1 : 6400 ≤ o) (h2 : o < 6528) :
    read_log (main_log env) o
      = obj_mem (lost_and_found_inode (u32_of_int (env.time 1))).layout unread (o - 6400) := by
  unfold main_log
  iterate 13 rw [read_log_skip _ _ _ (by dsimp only; omega)]
  rw [read_log_hit _ _ _ (by dsimp only; omega)]

theorem main_log_beyond (env : Env) (o : Nat) (h : 23564 ≤ o) :
    read_log (main_log env) o = 0 := by
  unfold main_log
  iterate 18 rw [read_log_skip _ _ _ (by dsimp only; omega)]
  rfl

theorem EXT2_N_BLOCKS_eq : EXT2_N_BLOCKS = 15 := rfl

theorem reg_file_i_block (t : Nat) :
    (reg_file_inode t).i_block = [23, 0, 0, 0] ++ List.replicate 56 0 := by
  show store_u32 ext2_inode.zero.i_block 0 HELLO_WORLD_FILE_BLOCKNO = _
  decide

theorem root_i_block (t : Nat) :
    (root_inode t).i_block = [21, 0, 0, 0] ++ List.replicate 56 0 := by
  show store_u32 ext2_inode.zero.i_block 0 ROOT_DIR_BLOCKNO = _
  decide

theorem lost_and_found_i_block (t : Nat) :
    (lost_and_found_inode t).i_block = [22, 0, 0, 0] ++ List.replicate 56 0 := by
  show store_u32 ext2_inode.zero.i_block 0 LOST_AND_FOUND_DIR_BLOCKNO = _
  decide

theorem symlink_i_block (t : Nat) :
    (symlink_inode t).i_block = str_bytes ("hello-world") ++ List.replicate 49 0 := by
  show memcpy ext2_inode.zero.i_block (str_bytes ("hello-world") ++ [0]) 11 = _
  decide

theorem symlink_i_mode (t : Nat) : (symlink_inode t).i_mode = 0xA1A4 := by
  show u16 (EXT2_S_IFLNK ||| EXT2_S_IRUSR ||| EXT2_S_IWUSR ||| EXT2_S_IRGRP
    ||| EXT2_S_IROTH) = _
  decide

theorem reg_file_i_size (t : Nat) : (reg_file_inode t).i_size = 12 := rfl
theorem symlink_i_size (t : Nat) : (symlink_inode t).i_size = 11 := rfl
theorem symlink_i_blocks (t : Nat) : (symlink_inode t).i_blocks = 0 := rfl

/-! ## Bitmaps, counts and sizes in the image -/

/-- The bits of the array that `write_block_bitmap` writes, read from its
memory: bits 0..22 and 1023..8191 are set, bits 23..1022 are clear. -/
theorem block_bitmap_mem_bit_iff (uninit : Nat → Nat) (i : Nat) (hi : i < 8192) :
    bitmap_bit (u32_array_mem (block_bitmap_array uninit)) i = true ↔ (i < 23 ∨ 1023 ≤ i) := by
  rw [testBit_u32_array_mem, block_bitmap_array_getD uninit (i / 32) (by omega)]
  split_ifs with h0 h1 h2
  · rw [testBit_block_word0, decide_eq_true_iff]; omega
  · rw [Nat.zero_testBit]; simp only [Bool.false_eq_true, false_iff]; omega
  · rw [testBit_block_word31, decide_eq_true_iff]; omega
  · rw [testBit_ones32, decide_eq_true_iff]; omega

/-- The bits of the array that `write_inode_bitmap` writes, read from its
memory: bits 0..12 and 128..8191 are set, bits 13..127 are clear. -/
theorem inode_bitmap_mem_bit_iff (uninit : Nat → Nat) (i : Nat) (hi : i < 8192) :
    bitmap_bit (u32_array_mem (inode_bitmap_array uninit)) i = true ↔ (i < 13 ∨ 128 ≤ i) := by
  rw [testBit_u32_array_mem, inode_bitmap_array_getD uninit (i / 32) (by omega)]
  split_ifs with h0 h1
  · rw [testBit_inode_word0, decide_eq_true_iff]; omega
  · rw [Nat.zero_testBit]; simp only [Bool.false_eq_true, false_iff]; omega
  · rw [testBit_ones32, decide_eq_true_iff]; omega

theorem main_log_lost_and_found0 (env : Env) (o : Nat) (h1 : 22528 ≤ o) (h2 : o < 22540) :
    read_log (main_log env) o
      = obj_mem (dir_entry_set ext2_dir_entry.zero LOST_AND_FOUND_INO
          (str_bytes ("."))).layout (env.lost_and_found_stack 0) (o - 22528) := by
  unfold main_log
  iterate 3 rw [read_log_skip _ _ _ (by dsimp only; omega)]
  rw [read_log_hit _ _ _ (by dsimp only; omega)]

theorem main_log_lost_and_found1 (env : Env) (o : Nat) (h1 : 22540 ≤ o) (h2 : o < 22552) :
    read_log (main_log env) o
      = obj_mem (dir_entry_set ext2_dir_entry.zero EXT2_ROOT_INO
          (str_bytes (".."))).layout (env.lost_and_found_stack 1) (o - 22540) := by
  unfold main_log
  iterate 2 rw [read_log_skip _ _ _ (by dsimp only; omega)]
  rw [read_log_hit _ _ _ (by dsimp only; omega)]

theorem main_log_lost_and_found2 (env : Env) (o : Nat) (h1 : 22552 ≤ o) (h2 : o < 23552) :
    read_log (main_log env) o
      = obj_mem ({ ext2_dir_entry.zero with rec_len := 1000 }).layout
          (env.lost_and_found_stack 2) (o - 22552) := by
  unfold main_log
  iterate 1 rw [read_log_skip _ _ _ (by dsimp only; omega)]
  rw [read_log_hit _ _ _ (by dsimp only; omega)]

theorem main_log_inode_bitmap (env : Env) (o : Nat) (h1 : 4096 ≤ o) (h2 : o < 5120) :
    read_log (main_log env) o
      = u32_array_mem (inode_bitmap_array env.inode_bitmap_uninit) (o - 4096) := by
  unfold main_log
  iterate 14 rw [read_log_skip _ _ _ (by dsimp only; omega)]
  rw [read_log_hit _ _ _ (by dsimp only; omega)]

theorem main_log_block_bitmap (env : Env) (o : Nat) (h1 : 3072 ≤ o) (h2 : o < 4096) :
    read_log (main_log env) o
      = u32_array_mem (block_bitmap_array env.block_bitmap_uninit) (o - 3072) := by
  unfold main_log
  iterate 15 rw [read_log_skip _ _ _ (by dsimp only; omega)]
  rw [read_log_hit _ _ _ (by dsimp only; omega)]

theorem main_log_group_descriptor (env : Env) (o : Nat) (h1 : 2048 ≤ o) (h2 : o < 2080) :
    read_log (main_log env) o
      = obj_mem block_group_descriptor_value.layout unread (o - 2048) := by
  unfold main_log
  iterate 16 rw [read_log_skip _ _ _ (by dsimp only; omega)]
  rw [read_log_hit _ _ _ (by dsimp only; omega)]

theorem main_log_superblock (env : Env) (o : Nat) (h1 : 1024 ≤ o) (h2 : o < 2048) :
    read_log (main_log env) o
      = obj_mem (superblock_value (u32_of_int (env.time 0))).layout unread (o - 1024) := by
  unfold main_log
  iterate 17 rw [read_log_skip _ _ _ (by dsimp only; omega)]
  rw [read_log_hit _ _ _ (by dsimp only; omega)]

theorem main_log_boot (env : Env) (o : Nat) (h : o < 1024) :
    read_log (main_log env) o = 0 := by
  unfold main_log
  iterate 18 rw [read_log_skip _ _ _ (by dsimp only; omega)]
  rfl

/-- Number of indices below `n` that lie in `[a, b)`. -/
theorem countP_range_interval (a b n : Nat) (hab : a ≤ b) :
    (List.range n).countP (fun i => decide (a ≤ i ∧ i < b)) = min n b - min n a := by
  induction n with
  | zero => simp
  | succ n ih =>
    rw [List.range_succ, List.countP_append, ih]
    by_cases h : a ≤ n ∧ n < b
    · simp [List.countP_cons, h]; omega
    · simp [List.countP_cons, h]; omega

theorem write_block_group_descriptor_table_image (fd : Fd) (k : Nat) (hk : k < 32) :
    image_from (write_block_group_descriptor_table fd)
        (BLOCK_OFFSET BLOCK_GROUP_DESCRIPTOR_BLOCKNO) k
      = obj_mem block_group_descriptor_value.layout unread k := by
  unfold write_block_group_descriptor_table
  exact image_from_write fd _ _ _ _ (by rw [sizeof_ext2_block_group_descriptor_eq]; exact hk)

theorem group_descriptor_mem_free_counts :
    rd16 (obj_mem block_group_descriptor_value.layout unread) 12 = 1000
    ∧ rd16 (obj_mem block_group_descriptor_value.layout unread) 14 = 115 := by
  decide


theorem main_image_from (env : Env) (fd : Fd) (hl : fd.log = main_log env) (b k : Nat) :
    image_from fd b k = read_log (main_log env) (b + k) := by
  simp [image_from, image, hl]

theorem main_block_bitmap_zero_bits (env : Env) (fd : Fd) (hl : fd.log = main_log env) :
    (List.range 8192).countP
        (fun i => !bitmap_bit (image_from fd (BLOCK_OFFSET BLOCK_BITMAP_BLOCKNO)) i) = 1000 := by
  rw [List.countP_congr (q := fun i => decide (23 ≤ i ∧ i < 1023))]
  · rw [countP_range_interval 23 1023 8192 (by omega)]; rfl
  · intro i hi
    have hi2 : i < 8192 := List.mem_range.1 hi
    have hbit : bitmap_bit (image_from fd (BLOCK_OFFSET BLOCK_BITMAP_BLOCKNO)) i
        = bitmap_bit (u32_array_mem (block_bitmap_array env.block_bitmap_uninit)) i := by
      apply bitmap_bit_congr
      rw [main_image_from env fd hl]
      simp only [BLOCK_OFFSET, BLOCK_BITMAP_BLOCKNO, BLOCK_SIZE]
      rw [main_log_block_bitmap env _ (by omega) (by omega)]
      have e : 3 * 1024 + i / 8 - 3072 = i / 8 := by omega
      rw [e]
    have hiff := block_bitmap_mem_bit_iff env.block_bitmap_uninit i hi2
    rw [hbit]
    cases hb : bitmap_bit (u32_array_mem (block_bitmap_array env.block_bitmap_uninit)) i
    · have : ¬ (i < 23 ∨ 1023 ≤ i) := fun h => by rw [hiff.2 h] at hb; cases hb
      simp; omega
    · have := hiff.1 hb
      simp; omega

theorem main_inode_bitmap_zero_bits (env : Env) (fd : Fd) (hl : fd.log = main_log env) :
    (List.range 8192).countP
        (fun i => !bitmap_bit (image_from fd (BLOCK_OFFSET INODE_BITMAP_BLOCKNO)) i) = 115 := by
  rw [List.countP_congr (q := fun i => decide (13 ≤ i ∧ i < 128))]
  · rw [countP_range_interval 13 128 8192 (by omega)]; rfl
  · intro i hi
    have hi2 : i < 8192 := List.mem_range.1 hi
    have hbit : bitmap_bit (image_from fd (BLOCK_OFFSET INODE_BITMAP_BLOCKNO)) i
        = bitmap_bit (u32_array_mem (inode_bitmap_array env.inode_bitmap_uninit)) i := by
      apply bitmap_bit_congr
      rw [main_image_from env fd hl]
      simp only [BLOCK_OFFSET, INODE_BITMAP_BLOCKNO, BLOCK_SIZE]
      rw [main_log_inode_bitmap env _ (by omega) (by omega)]
      have e : 4 * 1024 + i / 8 - 4096 = i / 8 := by omega
      rw [e]
    have hiff := inode_bitmap_mem_bit_iff env.inode_bitmap_uninit i hi2
    rw [hbit]
    cases hb : bitmap_bit (u32_array_mem (inode_bitmap_array env.inode_bitmap_uninit)) i
    · have : ¬ (i < 13 ∨ 128 ≤ i) := fun h => by rw [hiff.2 h] at hb; cases hb
      simp; omega
    · have := hiff.1 hb
      simp; omega

set_option maxRecDepth 4000 in
theorem main_superblock_free_counts (env : Env) (fd : Fd) (hl : fd.log = main_log env) :
    rd32 (image_from fd (BLOCK_OFFSET SUPERBLOCK_BLOCKNO)) 12 = 1000
    ∧ rd32 (image_from fd (BLOCK_OFFSET SUPERBLOCK_BLOCKNO)) 16 = 115 := by
  constructor
  · simp (disch := omega) [rd32, main_image_from env fd hl, BLOCK_OFFSET, SUPERBLOCK_BLOCKNO,
      BLOCK_SIZE, main_log_superblock, superblock_value_eq, ext2_superblock.layout, obj_mem,
      u32_m]
  · simp (disch := omega) [rd32, main_image_from env fd hl, BLOCK_OFFSET, SUPERBLOCK_BLOCKNO,
      BLOCK_SIZE, main_log_superblock, superblock_value_eq, ext2_superblock.layout, obj_mem,
      u32_m]

theorem main_group_descriptor_free_counts (env : Env) (fd : Fd) (hl : fd.log = main_log env) :
    rd16 (image_from fd (BLOCK_OFFSET BLOCK_GROUP_DESCRIPTOR_BLOCKNO)) 12 = 1000
    ∧ rd16 (image_from fd (BLOCK_OFFSET BLOCK_GROUP_DESCRIPTOR_BLOCKNO)) 14 = 115 := by
  have e : ∀ k, k < 32 → image_from fd (BLOCK_OFFSET BLOCK_GROUP_DESCRIPTOR_BLOCKNO) k
      = obj_mem block_group_descriptor_value.layout unread k := by
    intro k hk
    rw [main_image_from env fd hl]
    simp only [BLOCK_OFFSET, BLOCK_GROUP_DESCRIPTOR_BLOCKNO, BLOCK_SIZE]
    rw [main_log_group_descriptor env _ (by omega) (by omega)]
    have e : 2 * 1024 + k - 2048 = k := by omega
    rw [e]
  constructor
  · unfold rd16
    rw [e 12 (by omega), e (12 + 1) (by omega)]
    exact group_descriptor_mem_free_counts.1
  · unfold rd16
    rw [e 14 (by omega), e (14 + 1) (by omega)]
    exact group_descriptor_mem_free_counts.2


theorem lseek_size (s0 : Nat) (fd : Fd) (off : Nat) (h : fd.size = log_size s0 fd.log) :
    (lseek fd off).size = log_size s0 (lseek fd off).log := h

theorem write_size (s0 : Nat) (fd : Fd) (buf : Nat → Nat) (len : Nat)
    (h : fd.size = log_size s0 fd.log) :
    (write fd buf len).size = log_size s0 (write fd buf len).log := by
  simp only [write, log_size, h]

theorem write_inode_size (s0 : Nat) (fd : Fd) (index : Nat) (inode : ext2_inode)
    (h : fd.size = log_size s0 fd.log) :
    (write_inode fd index inode).size = log_size s0 (write_inode fd index inode).log :=
  write_size s0 _ _ _ (lseek_size s0 fd _ h)

theorem dir_entry_write_size (s0 : Nat) (entry : ext2_dir_entry) (after : Nat → Nat) (fd : Fd)
    (h : fd.size = log_size s0 fd.log) :
    (dir_entry_write entry after fd).size
      = log_size s0 (dir_entry_write entry after fd).log :=
  write_size s0 _ _ _ h

theorem write_root_dir_block_size (s0 : Nat) (stack : Nat → Nat → Nat) (fd : Fd)
    (h : fd.size = log_size s0 fd.log) :
    (write_root_dir_block stack fd).size
      = log_size s0 (write_root_dir_block stack fd).log := by
  unfold write_root_dir_block
  exact dir_entry_write_size s0 _ _ _ (dir_entry_write_size s0 _ _ _
    (dir_entry_write_size s0 _ _ _ (dir_entry_write_size s0 _ _ _
    (dir_entry_write_size s0 _ _ _ (dir_entry_write_size s0 _ _ _
    (lseek_size s0 fd _ h))))))

theorem write_lost_and_found_dir_block_size (s0 : Nat) (stack : Nat → Nat → Nat) (fd : Fd)
    (h : fd.size = log_size s0 fd.log) :
    (write_lost_and_found_dir_block stack fd).size
      = log_size s0 (write_lost_and_found_dir_block stack fd).log := by
  unfold write_lost_and_found_dir_block
  exact dir_entry_write_size s0 _ _ _ (dir_entry_write_size s0 _ _ _
    (dir_entry_write_size s0 _ _ _ (lseek_size s0 fd _ h)))

theorem main_size (env : Env) (h0 : env.time 0 ≠ -1) (h1 : env.time 1 ≠ -1) :
    ∃ fd, main env = some fd
      ∧ fd.size = log_size (NUM_BLOCKS * BLOCK_SIZE) fd.log := by
  have hm : main env = some
      (write_hello_world_file_block
        (write_lost_and_found_dir_block env.lost_and_found_stack
          (write_root_dir_block env.root_stack
            (write_inode
              (write_inode
                (write_inode
                  (write_inode
                    (write_inode_bitmap env.inode_bitmap_uninit
                      (write_block_bitmap env.block_bitmap_uninit
                        (write_block_group_descriptor_table
                          (write (lseek (ftruncate_fresh (NUM_BLOCKS * BLOCK_SIZE))
                              (BLOCK_OFFSET 1))
                            (obj_mem (superblock_value (u32_of_int (env.time 0))).layout unread)
                            sizeof_ext2_superblock))))
                    LOST_AND_FOUND_INO (lost_and_found_inode (u32_of_int (env.time 1))))
                  EXT2_ROOT_INO (root_inode (u32_of_int (env.time 1))))
                HELLO_WORLD_INO (reg_file_inode (u32_of_int (env.time 1))))
              HELLO_INO (symlink_inode (u32_of_int (env.time 1))))))) := by
    simp only [main, write_superblock, write_inode_table, get_current_time, h0, h1, if_false,
      Option.pure_def, Option.bind_eq_bind, Option.some_bind]
  refine ⟨_, hm, ?_⟩
  unfold write_hello_world_file_block
  refine write_size _ _ _ _ (lseek_size _ _ _ ?_)
  refine write_lost_and_found_dir_block_size _ _ _ ?_
  refine write_root_dir_block_size _ _ _ ?_
  refine write_inode_size _ _ _ _ (write_inode_size _ _ _ _ (write_inode_size _ _ _ _
    (write_inode_size _ _ _ _ ?_)))
  unfold write_inode_bitmap write_block_bitmap write_block_group_descriptor_table
  refine write_size _ _ _ _ (lseek_size _ _ _ (write_size _ _ _ _ (lseek_size _ _ _
    (write_size _ _ _ _ (lseek_size _ _ _ (write_size _ _ _ _ (lseek_size _ _ _ ?_)))))))
  rfl

theorem main_log_size (env : Env) :
    log_size (NUM_BLOCKS * BLOCK_SIZE) (main_log env) = NUM_BLOCKS * BLOCK_SIZE := by
  simp [main_log, log_size, NUM_BLOCKS, BLOCK_SIZE]

/-! ## Inode records and directory listings in the image -/

theorem dir_mode_eq :
    u16 (EXT2_S_IFDIR ||| EXT2_S_IRUSR ||| EXT2_S_IWUSR ||| EXT2_S_IXUSR
      ||| EXT2_S_IRGRP ||| EXT2_S_IXGRP ||| EXT2_S_IROTH ||| EXT2_S_IXOTH) = 0x41ED := by
  decide

theorem reg_mode_eq :
    u16 (EXT2_S_IFREG ||| EXT2_S_IRUSR ||| EXT2_S_IWUSR ||| EXT2_S_IRGRP
      ||| EXT2_S_IROTH) = 0x81A4 := by
  decide

theorem lnk_mode_eq :
    u16 (EXT2_S_IFLNK ||| EXT2_S_IRUSR ||| EXT2_S_IWUSR ||| EXT2_S_IRGRP
      ||| EXT2_S_IROTH) = 0xA1A4 := by
  decide

/-- The root directory's inode with every member spelled out. -/
theorem root_inode_eq (t : Nat) :
    root_inode t =
      { i_mode := 0x41ED, i_uid := 0, i_size := 1024, i_atime := t, i_ctime := t
        i_mtime := t, i_dtime := 0, i_gid := 0, i_links_count := 3, i_blocks := 2
        i_flags := 0, i_reserved1 := 0
        i_block := [21, 0, 0, 0] ++ List.replicate 56 0
        i_version := 0, i_file_acl := 0, i_dir_acl := 0, i_faddr := 0, i_frag := 0
        i_fsize := 0, i_pad1 := 0, i_reserved2 := [0, 0] } := by
  have hb := root_i_block t
  unfold root_inode at hb ⊢
  simp only [dir_mode_eq] at hb ⊢
  rw [ext2_inode.mk.injEq]
  exact ⟨rfl, rfl, rfl, rfl, rfl, rfl, rfl, rfl, rfl, rfl, rfl, rfl, hb, rfl, rfl, rfl, rfl,
    rfl, rfl, rfl, rfl⟩

/-- The lost+found directory's inode with every member spelled out. -/
theorem lost_and_found_inode_eq (t : Nat) :
    lost_and_found_inode t =
      { i_mode := 0x41ED, i_uid := 0, i_size := 1024, i_atime := t, i_ctime := t
        i_mtime := t, i_dtime := 0, i_gid := 0, i_links_count := 2, i_blocks := 2
        i_flags := 0, i_reserved1 := 0
        i_block := [22, 0, 0, 0] ++ List.replicate 56 0
        i_version := 0, i_file_acl := 0, i_dir_acl := 0, i_faddr := 0, i_frag := 0
        i_fsize := 0, i_pad1 := 0, i_reserved2 := [0, 0] } := by
  have hb := lost_and_found_i_block t
  unfold lost_and_found_inode at hb ⊢
  simp only [dir_mode_eq] at hb ⊢
  rw [ext2_inode.mk.injEq]
  exact ⟨rfl, rfl, rfl, rfl, rfl, rfl, rfl, rfl, rfl, rfl, rfl, rfl, hb, rfl, rfl, rfl, rfl,
    rfl, rfl, rfl, rfl⟩

/-- The regular file's inode with every member spelled out. -/
theorem reg_file_inode_eq (t : Nat) :
    reg_file_inode t =
      { i_mode := 0x81A4, i_uid := 1000, i_size := 12, i_atime := t, i_ctime := t
        i_mtime := t, i_dtime := 0, i_gid := 1000, i_links_count := 1, i_blocks := 2
        i_flags := 0, i_reserved1 := 0
        i_block := [23, 0, 0, 0] ++ List.replicate 56 0
        i_version := 0, i_file_acl := 0, i_dir_acl := 0, i_faddr := 0, i_frag := 0
        i_fsize := 0, i_pad1 := 0, i_reserved2 := [0, 0] } := by
  have hb := reg_file_i_block t
  unfold reg_file_inode at hb ⊢
  simp only [reg_mode_eq] at hb ⊢
  rw [ext2_inode.mk.injEq]
  exact ⟨rfl, rfl, rfl, rfl, rfl, rfl, rfl, rfl, rfl, rfl, rfl, rfl, hb, rfl, rfl, rfl, rfl,
    rfl, rfl, rfl, rfl⟩

/-- The symbolic link's inode with every member spelled out. -/
theorem symlink_inode_eq (t : Nat) :
    symlink_inode t =
      { i_mode := 0xA1A4, i_uid := 1000, i_size := 11, i_atime := t, i_ctime := t
        i_mtime := t, i_dtime := 0, i_gid := 1000, i_links_count := 1, i_blocks := 0
        i_flags := 0, i_reserved1 := 0
        i_block := str_bytes ("hello-world") ++ List.replicate 49 0
        i_version := 0, i_file_acl := 0, i_dir_acl := 0, i_faddr := 0, i_frag := 0
        i_fsize := 0, i_pad1 := 0, i_reserved2 := [0, 0] } := by
  have hb := symlink_i_block t
  unfold symlink_inode at hb ⊢
  simp only [lnk_mode_eq] at hb ⊢
  rw [ext2_inode.mk.injEq]
  exact ⟨rfl, rfl, rfl, rfl, rfl, rfl, rfl, rfl, rfl, rfl, rfl, rfl, hb, rfl, rfl, rfl, rfl,
    rfl, rfl, rfl, rfl⟩

set_option maxRecDepth 4000 in
theorem decode_inode_congr (m m2 : Nat → Nat) (h : ∀ k, k < 128 → m k = m2 k) :
    decode_inode m = decode_inode m2 := by
  unfold decode_inode
  simp (disch := omega) only [rd32, rd16, rdbytes, rd32s, h]

set_option maxRecDepth 4000 in
theorem decode_root_inode_mem (t : Nat) (ht : t < 4294967296) :
    decode_inode (obj_mem (root_inode t).layout unread) = root_inode t := by
  have hT := le32_value t ht
  rw [root_inode_eq]
  unfold decode_inode
  simp [rd32, rd16, rdbytes, rd32s, ext2_inode.layout, obj_mem, u16_m, u32_m, u8_m,
    u8_array_m, u32_array_m, u32_array_mem, EXT2_N_BLOCKS_eq]
  exact hT

set_option maxRecDepth 4000 in
theorem decode_lost_and_found_inode_mem (t : Nat) (ht : t < 4294967296) :
    decode_inode (obj_mem (lost_and_found_inode t).layout unread) = lost_and_found_inode t := by
  have hT := le32_value t ht
  rw [lost_and_found_inode_eq]
  unfold decode_inode
  simp [rd32, rd16, rdbytes, rd32s, ext2_inode.layout, obj_mem, u16_m, u32_m, u8_m,
    u8_array_m, u32_array_m, u32_array_mem, EXT2_N_BLOCKS_eq]
  exact hT

set_option maxRecDepth 4000 in
theorem decode_reg_file_inode_mem (t : Nat) (ht : t < 4294967296) :
    decode_inode (obj_mem (reg_file_inode t).layout unread) = reg_file_inode t := by
  have hT := le32_value t ht
  rw [reg_file_inode_eq]
  unfold decode_inode
  simp [rd32, rd16, rdbytes, rd32s, ext2_inode.layout, obj_mem, u16_m, u32_m, u8_m,
    u8_array_m, u32_array_m, u32_array_mem, EXT2_N_BLOCKS_eq]
  exact hT

set_option maxRecDepth 4000 in
theorem decode_symlink_inode_mem (t : Nat) (ht : t < 4294967296) :
    decode_inode (obj_mem (symlink_inode t).layout unread) = symlink_inode t := by
  have hT := le32_value t ht
  rw [symlink_inode_eq]
  unfold decode_inode
  simp [rd32, rd16, rdbytes, rd32s, ext2_inode.layout, obj_mem, u16_m, u32_m, u8_m,
    u8_array_m, u32_array_m, u32_array_mem, EXT2_N_BLOCKS_eq, str_bytes]
  exact hT

/-- In the image built by `main`, each of the four inode records decodes to the
object that `write_inode_table` built for it. -/
theorem main_inodes_decoded (env : Env) (fd : Fd) (hl : fd.log = main_log env) :
    decode_inode (image_from fd 5248) = root_inode (u32_of_int (env.time 1))
    ∧ decode_inode (image_from fd 6400) = lost_and_found_inode (u32_of_int (env.time 1))
    ∧ decode_inode (image_from fd 6528) = reg_file_inode (u32_of_int (env.time 1))
    ∧ decode_inode (image_from fd 6656) = symlink_inode (u32_of_int (env.time 1)) := by
  have ht := u32_of_int_lt (env.time 1)
  refine ⟨?_, ?_, ?_, ?_⟩
  · rw [← decode_root_inode_mem _ ht]
    apply decode_inode_congr
    intro k hk
    rw [main_image_from env fd hl, main_log_root_inode env _ (by omega) (by omega),
      Nat.add_sub_cancel_left]
  · rw [← decode_lost_and_found_inode_mem _ ht]
    apply decode_inode_congr
    intro k hk
    rw [main_image_from env fd hl, main_log_lost_and_found_inode env _ (by omega) (by omega),
      Nat.add_sub_cancel_left]
  · rw [← decode_reg_file_inode_mem _ ht]
    apply decode_inode_congr
    intro k hk
    rw [main_image_from env fd hl, main_log_reg_file env _ (by omega) (by omega),
      Nat.add_sub_cancel_left]
  · rw [← decode_symlink_inode_mem _ ht]
    apply decode_inode_congr
    intro k hk
    rw [main_image_from env fd hl, main_log_symlink env _ (by omega) (by omega),
      Nat.add_sub_cancel_left]

theorem root_dir_block_walk_of_main (env : Env) (h0 : env.time 0 ≠ -1) (h1 : env.time 1 ≠ -1)
    (fd : Fd) (hm : main env = some fd) (fuel : Nat) (hfuel : 6 ≤ fuel) :
    dir_walk (image_from fd (BLOCK_OFFSET ROOT_DIR_BLOCKNO)) fuel 0
      = [⟨2, 12, 1, str_bytes (".")⟩, ⟨2, 12, 2, str_bytes ("..")⟩,
         ⟨11, 20, 10, str_bytes ("lost+found")⟩, ⟨12, 20, 11, str_bytes ("hello-world")⟩,
         ⟨13, 16, 5, str_bytes ("hello")⟩, ⟨0, 944, 0, []⟩] := by
  obtain ⟨fd2, hm2, hw⟩ := root_dir_block_walk env h0 h1 fuel hfuel
  have e : fd2 = fd := Option.some.inj (hm2.symm.trans hm)
  rw [← e]; exact hw

theorem lost_and_found_dir_block_walk (env : Env) (fd : Fd) (hl : fd.log = main_log env)
    (fuel : Nat) (hfuel : 3 ≤ fuel) :
    dir_walk (image_from fd (BLOCK_OFFSET LOST_AND_FOUND_DIR_BLOCKNO)) fuel 0
      = [⟨11, 12, 1, str_bytes (".")⟩, ⟨2, 12, 2, str_bytes ("..")⟩, ⟨0, 1000, 0, []⟩] := by
  obtain ⟨n, rfl⟩ : ∃ n, fuel = n + 3 := ⟨fuel - 3, by omega⟩
  have hb : ∀ k, image_from fd (BLOCK_OFFSET LOST_AND_FOUND_DIR_BLOCKNO) k
      = read_log (main_log env) (22528 + k) := by
    intro k; simp [image_from, image, hl, BLOCK_OFFSET, LOST_AND_FOUND_DIR_BLOCKNO, BLOCK_SIZE]
  have r0 : read_dir_record (image_from fd (BLOCK_OFFSET LOST_AND_FOUND_DIR_BLOCKNO)) 0
      = ⟨11, 12, 1, str_bytes (".")⟩ := by
    simp (disch := omega) [read_dir_record, rd32, rd16, rdbytes, hb, main_log_lost_and_found0,
      dir_entry_mem, dir_entry_set_inode, dir_entry_set_name_len, dir_entry_set_name_getElem,
      dir_entry_set_rec_len, u32, u16, LOST_AND_FOUND_INO, str_bytes]
    decide
  have r1 : read_dir_record (image_from fd (BLOCK_OFFSET LOST_AND_FOUND_DIR_BLOCKNO)) 12
      = ⟨2, 12, 2, str_bytes ("..")⟩ := by
    simp (disch := omega) [read_dir_record, rd32, rd16, rdbytes, hb, main_log_lost_and_found1,
      dir_entry_mem, dir_entry_set_inode, dir_entry_set_name_len, dir_entry_set_name_getElem,
      dir_entry_set_rec_len, u32, u16, EXT2_ROOT_INO, str_bytes]
    decide
  have r2 : read_dir_record (image_from fd (BLOCK_OFFSET LOST_AND_FOUND_DIR_BLOCKNO)) 24
      = ⟨0, 1000, 0, []⟩ := by
    simp (disch := omega) [read_dir_record, rd32, rd16, rdbytes, hb, main_log_lost_and_found2,
      dir_entry_mem, ext2_dir_entry.zero]
  simp [dir_walk, r0, r1, r2, BLOCK_SIZE, dir_walk_end]

set_option maxRecDepth 4000 in
/-- In the image built by `main`, `i_block[0]` of the root, lost+found and
regular-file inodes. -/
theorem main_i_block0 (env : Env) (fd : Fd) (hl : fd.log = main_log env) :
    rd32 (image_from fd 5248) 40 = 21 ∧ rd32 (image_from fd 6400) 40 = 22
    ∧ rd32 (image_from fd 6528) 40 = 23 := by
  have hb := main_image_from env fd hl
  refine ⟨?_, ?_, ?_⟩
  · simp (disch := omega) [rd32, hb, main_log_root_inode, ext2_inode.layout, obj_mem, u16_m,
      u32_m, u8_array_m, EXT2_N_BLOCKS_eq, root_i_block]
    decide
  · simp (disch := omega) [rd32, hb, main_log_lost_and_found_inode, ext2_inode.layout,
      obj_mem, u16_m, u32_m, u8_array_m, EXT2_N_BLOCKS_eq, lost_and_found_i_block]
    decide
  · simp (disch := omega) [rd32, hb, main_log_reg_file, ext2_inode.layout, obj_mem, u16_m,
      u32_m, u8_array_m, EXT2_N_BLOCKS_eq, reg_file_i_block]
    decide

set_option maxRecDepth 4000 in
/-- In the image built by `main`, the two clock fields of the superblock hold
the value of the clock call made in `write_superblock`. -/
theorem main_superblock_times (env : Env) (fd : Fd) (hl : fd.log = main_log env) :
    rd32 (image_from fd (BLOCK_OFFSET SUPERBLOCK_BLOCKNO)) 48 = u32_of_int (env.time 0)
    ∧ rd32 (image_from fd (BLOCK_OFFSET SUPERBLOCK_BLOCKNO)) 64 = u32_of_int (env.time 0) := by
  have hT := le32_value (u32_of_int (env.time 0)) (u32_of_int_lt (env.time 0))
  constructor
  · simp (disch := omega) [rd32, main_image_from env fd hl, BLOCK_OFFSET, SUPERBLOCK_BLOCKNO,
      BLOCK_SIZE, main_log_superblock, superblock_value_eq, ext2_superblock.layout, obj_mem,
      u32_m, u16_m]
    exact hT
  · simp (disch := omega) [rd32, main_image_from env fd hl, BLOCK_OFFSET, SUPERBLOCK_BLOCKNO,
      BLOCK_SIZE, main_log_superblock, superblock_value_eq, ext2_superblock.layout, obj_mem,
      u32_m, u16_m]
    exact hT

theorem main_hello_block (env : Env) (fd : Fd) (hl : fd.log = main_log env) :
    rdbytes (image_from fd 23552) 0 12 = str_bytes ("Hello world\n") := by
  simp (disch := omega) [rdbytes, main_image_from env fd hl, main_log_hello, obj_mem,
    u8_array_m, str_bytes]
  decide

/-! ## Runs with failing system calls -/

theorem write_root_dir_block_io_eq_pack (sys : Sys) (p : Proc) :
    write_root_dir_block_io sys p
      = pack_dir_block_io sys ROOT_DIR_BLOCKNO root_bindings sys.env.root_stack p := by
  simp only [write_root_dir_block_io, pack_dir_block_io, dir_block_entries, dir_entries,
    root_bindings, List.map_cons, List.map_nil, List.cons_append, List.nil_append,
    dir_entries_write_io, bytes_remaining_after, List.foldl_cons, List.foldl_nil, bind_pure]

theorem write_lost_and_found_dir_block_io_eq_pack (sys : Sys) (p : Proc) :
    write_lost_and_found_dir_block_io sys p
      = pack_dir_block_io sys LOST_AND_FOUND_DIR_BLOCKNO lost_and_found_bindings
          sys.env.lost_and_found_stack p := by
  simp only [write_lost_and_found_dir_block_io, pack_dir_block_io, dir_block_entries,
    dir_entries, lost_and_found_bindings, List.map_cons, List.map_nil, List.cons_append,
    List.nil_append, dir_entries_write_io, bytes_remaining_after, List.foldl_cons,
    List.foldl_nil, bind_pure]

theorem lseek_io_ok (sys : Sys) (p : Proc) (off : Nat) (h : sys.ret p.calls ≠ -1) :
    lseek_io sys p off = Except.ok ⟨lseek p.fd off, p.calls + 1, p.times⟩ := by
  simp [lseek_io, h, pure, Except.pure]

theorem lseek_io_fail (sys : Sys) (p : Proc) (off : Nat) (h : sys.ret p.calls = -1) :
    lseek_io sys p off = Except.error (exit_status (sys.errno p.calls), p.fd) := by
  simp [lseek_io, h, errno_exit]

theorem write_io_ok (sys : Sys) (p : Proc) (buf : Nat → Nat) (size : Nat)
    (h : sys.ret p.calls = (size : Int)) :
    write_io sys p buf size = Except.ok ⟨write p.fd buf size, p.calls + 1, p.times⟩ := by
  simp [write_io, h, pure, Except.pure]

theorem write_io_fail (sys : Sys) (p : Proc) (buf : Nat → Nat) (size : Nat)
    (h : sys.ret p.calls ≠ (size : Int)) :
    write_io sys p buf size
      = Except.error (exit_status (sys.errno p.calls),
          if 0 < sys.ret p.calls then write p.fd buf (min (sys.ret p.calls).toNat size)
          else p.fd) := by
  simp [write_io, h, errno_exit]

theorem get_current_time_io_ok (sys : Sys) (p : Proc) (h : sys.env.time p.times ≠ -1) :
    get_current_time_io sys p
      = Except.ok (u32_of_int (sys.env.time p.times), ⟨p.fd, p.calls, p.times + 1⟩) := by
  simp [get_current_time_io, h, pure, Except.pure]

theorem except_ok_bind {ε α β : Type} (a : α) (f : α → Except ε β) :
    (Except.ok a >>= f) = f a := rfl

theorem write_superblock_io_ok (sys : Sys) (p : Proc) (hseek : sys.ret p.calls ≠ -1)
    (ht : sys.env.time p.times ≠ -1)
    (hw : sys.ret (p.calls + 1) = (sizeof_ext2_superblock : Int)) :
    write_superblock_io sys p
      = Except.ok ⟨write (lseek p.fd (BLOCK_OFFSET 1))
          (obj_mem (superblock_value (u32_of_int (sys.env.time p.times))).layout unread)
          sizeof_ext2_superblock, p.calls + 2, p.times + 1⟩ := by
  unfold write_superblock_io
  rw [lseek_io_ok sys p _ hseek, except_ok_bind,
    get_current_time_io_ok sys ⟨lseek p.fd (BLOCK_OFFSET 1), p.calls + 1, p.times⟩ ht,
    except_ok_bind]
  exact write_io_ok sys _ _ _ hw

theorem seek_write_io_ok (sys : Sys) (p : Proc) (off : Nat) (buf : Nat → Nat) (size : Nat)
    (hseek : sys.ret p.calls ≠ -1) (hw : sys.ret (p.calls + 1) = (size : Int)) :
    (lseek_io sys p off >>= fun p => write_io sys p buf size)
      = Except.ok ⟨write (lseek p.fd off) buf size, p.calls + 2, p.times⟩ := by
  rw [lseek_io_ok sys p _ hseek, except_ok_bind]
  exact write_io_ok sys _ _ _ hw

theorem write_inode_io_ok (sys : Sys) (p : Proc) (index : Nat) (inode : ext2_inode)
    (hseek : sys.ret p.calls ≠ -1) (hw : sys.ret (p.calls + 1) = (sizeof_ext2_inode : Int)) :
    write_inode_io sys p index inode
      = Except.ok ⟨write_inode p.fd index inode, p.calls + 2, p.times⟩ :=
  seek_write_io_ok sys p _ _ _ hseek hw

theorem dir_entries_write_io_ok (sys : Sys) (stack : Nat → Nat → Nat)
    (es : List ext2_dir_entry) (j : Nat) (p : Proc)
    (h : ∀ k, k < es.length →
      sys.ret (p.calls + k) = ((es.getD k ext2_dir_entry.zero).rec_len : Int)) :
    dir_entries_write_io sys stack es j p
      = Except.ok ⟨dir_entries_write stack es j p.fd, p.calls + es.length, p.times⟩ := by
  induction es generalizing j p with
  | nil => rfl
  | cons e es ih =>
    have h0 := h 0 (by simp)
    simp only [List.getD_cons_zero, Nat.add_zero] at h0
    unfold dir_entries_write_io dir_entry_write_io
    rw [write_io_ok sys p _ _ h0, except_ok_bind, ih]
    · simp only [dir_entries_write, dir_entry_write, List.length_cons]
      congr 2; omega
    · intro k hk
      have := h (k + 1) (by simp; omega)
      simp only [List.getD_cons_succ] at this
      show sys.ret (p.calls + 1 + k) = _
      rw [← this]; congr 1; omega

theorem pack_dir_block_io_ok (sys : Sys) (blockno : Nat) (bindings : List (Nat × List Nat))
    (stack : Nat → Nat → Nat) (p : Proc) (hseek : sys.ret p.calls ≠ -1)
    (h : ∀ k, k < bindings.length + 1 →
      sys.ret (p.calls + 1 + k)
        = (((dir_block_entries bindings).getD k ext2_dir_entry.zero).rec_len : Int)) :
    pack_dir_block_io sys blockno bindings stack p
      = Except.ok ⟨pack_dir_block blockno bindings stack p.fd,
          p.calls + bindings.length + 2, p.times⟩ := by
  have hlen : (dir_block_entries bindings).length = bindings.length + 1 := by
    simp [dir_block_entries, dir_entries]
  unfold pack_dir_block_io
  rw [lseek_io_ok sys p _ hseek, except_ok_bind, dir_entries_write_io_ok]
  · simp only [pack_dir_block, hlen]
    congr 2; omega
  · intro k hk
    exact h k (by omega)

theorem main_eq_stages (env : Env) (h0 : env.time 0 ≠ -1) (h1 : env.time 1 ≠ -1) :
    main env = some
      (write_hello_world_file_block
        (write_lost_and_found_dir_block env.lost_and_found_stack
          (write_root_dir_block env.root_stack
            (write_inode
              (write_inode
                (write_inode
                  (write_inode
                    (write_inode_bitmap env.inode_bitmap_uninit
                      (write_block_bitmap env.block_bitmap_uninit
                        (write_block_group_descriptor_table
                          (write (lseek (ftruncate_fresh (NUM_BLOCKS * BLOCK_SIZE))
                              (BLOCK_OFFSET 1))
                            (obj_mem (superblock_value (u32_of_int (env.time 0))).layout unread)
                            sizeof_ext2_superblock))))
                    LOST_AND_FOUND_INO (lost_and_found_inode (u32_of_int (env.time 1))))
                  EXT2_ROOT_INO (root_inode (u32_of_int (env.time 1))))
                HELLO_WORLD_INO (reg_file_inode (u32_of_int (env.time 1))))
              HELLO_INO (symlink_inode (u32_of_int (env.time 1))))))) := by
  simp only [main, write_superblock, write_inode_table, get_current_time, h0, h1, if_false,
    Option.pure_def, Option.bind_eq_bind, Option.some_bind]

/-- When `time` and all 29 `lseek` and `write` calls succeed, the run with
failure exits returns from `main` and leaves the file that `main` describes. -/
theorem main_io_ok (sys : Sys) (h0 : sys.env.time 0 ≠ -1) (h1 : sys.env.time 1 ≠ -1)
    (hs : ∀ k, k < 29 → sys.ret k = main_success_ret k) :
    ∃ fd, main sys.env = some fd ∧ main_io sys = Except.ok ⟨fd, 29, 2⟩ := by
  refine ⟨_, main_eq_stages sys.env h0 h1, ?_⟩
  have r : ∀ k v, k < 29 → main_success_ret k = v → sys.ret k = v :=
    fun k v hk hv => (hs k hk).trans hv
  dsimp only [main_io]
  rw [write_superblock_io_ok sys _ (by show sys.ret 0 ≠ -1; rw [r 0 1024 (by omega) rfl]; decide) h0
    (r 1 _ (by omega) (by decide)), except_ok_bind]
  dsimp only
  unfold write_block_group_descriptor_table_io
  rw [seek_write_io_ok sys _ _ _ _ (by show sys.ret 2 ≠ -1; rw [r 2 2048 (by omega) rfl]; decide)
    (r 3 _ (by omega) (by decide)), except_ok_bind]
  dsimp only
  unfold write_block_bitmap_io
  rw [seek_write_io_ok sys _ _ _ _ (by show sys.ret 4 ≠ -1; rw [r 4 3072 (by omega) rfl]; decide)
    (r 5 _ (by omega) (by decide)), except_ok_bind]
  dsimp only
  unfold write_inode_bitmap_io
  rw [seek_write_io_ok sys _ _ _ _ (by show sys.ret 6 ≠ -1; rw [r 6 4096 (by omega) rfl]; decide)
    (r 7 _ (by omega) (by decide)), except_ok_bind]
  dsimp only
  unfold write_inode_table_io
  rw [get_current_time_io_ok sys _ h1, except_ok_bind]
  dsimp only
  rw [write_inode_io_ok sys _ _ _ (by show sys.ret 8 ≠ -1; rw [r 8 6400 (by omega) rfl]; decide)
    (r 9 _ (by omega) (by decide)), except_ok_bind]
  dsimp only
  rw [write_inode_io_ok sys _ _ _ (by show sys.ret 10 ≠ -1; rw [r 10 5248 (by omega) rfl]; decide)
    (r 11 _ (by omega) (by decide)), except_ok_bind]
  dsimp only
  rw [write_inode_io_ok sys _ _ _ (by show sys.ret 12 ≠ -1; rw [r 12 6528 (by omega) rfl]; decide)
    (r 13 _ (by omega) (by decide)), except_ok_bind]
  dsimp only
  rw [write_inode_io_ok sys _ _ _ (by show sys.ret 14 ≠ -1; rw [r 14 6656 (by omega) rfl]; decide)
    (r 15 _ (by omega) (by decide)), except_ok_bind]
  dsimp only
  rw [write_root_dir_block_io_eq_pack,
    pack_dir_block_io_ok sys _ _ _ _ (by show sys.ret 16 ≠ -1; rw [r 16 21504 (by omega) rfl]; decide)
      (fun k hk => by
        have hk6 : k < 6 := hk
        interval_cases k
        · exact r 17 _ (by omega) (by decide)
        · exact r 18 _ (by omega) (by decide)
        · exact r 19 _ (by omega) (by decide)
        · exact r 20 _ (by omega) (by decide)
        · exact r 21 _ (by omega) (by decide)
        · exact r 22 _ (by omega) (by decide)),
    except_ok_bind]
  dsimp only
  rw [write_lost_and_found_dir_block_io_eq_pack,
    pack_dir_block_io_ok sys _ _ _ _ (by show sys.ret 23 ≠ -1; rw [r 23 22528 (by omega) rfl]; decide)
      (fun k hk => by
        have hk3 : k < 3 := hk
        interval_cases k
        · exact r 24 _ (by omega) (by decide)
        · exact r 25 _ (by omega) (by decide)
        · exact r 26 _ (by omega) (by decide)),
    except_ok_bind]
  dsimp only
  unfold write_hello_world_file_block_io
  rw [seek_write_io_ok sys _ _ _ _ (by show sys.ret 27 ≠ -1; rw [r 27 23552 (by omega) rfl]; decide)
    (r 28 _ (by omega) (by decide))]
  rfl

theorem bytes_remaining_negative (bindings : List (Nat × List Nat))
    (hover : BLOCK_SIZE < ((dir_entries bindings).map (fun e => e.rec_len)).sum) :
    bytes_remaining_after (dir_entries bindings) < 0 := by
  rw [bytes_remaining_after_eq]
  omega

theorem pack_dir_block_log_length (blockno : Nat) (bindings : List (Nat × List Nat))
    (stack : Nat → Nat → Nat) (fd : Fd) :
    (pack_dir_block blockno bindings stack fd).log.length
      = fd.log.length + bindings.length + 1 := by
  have h := congrArg List.length
    (show (pack_dir_block blockno bindings stack fd).log.map (fun w => w.len)
        = ((dir_block_entries bindings).map (fun e => e.rec_len)).reverse
          ++ (lseek fd (BLOCK_OFFSET blockno)).log.map (fun w => w.len) from
      dir_entries_write_lens stack (dir_block_entries bindings) 0 _)
  simp only [List.length_map, List.length_append, List.length_reverse, dir_block_entries,
    dir_entries, List.length_cons, List.length_nil, lseek] at h
  omega

/-! ## Directory blocks as read back -/

theorem dir_entries_write_pos_le (stack : Nat → Nat → Nat) (es : List ext2_dir_entry)
    (j : Nat) (fd : Fd) (o : Nat) (h : o < fd.pos) :
    image (dir_entries_write stack es j fd) o = image fd o := by
  induction es generalizing j fd with
  | nil => rfl
  | cons e es ih =>
    simp only [dir_entries_write]
    rw [ih (j + 1) (dir_entry_write e (stack j) fd) (by
      simp only [dir_entry_write, write]; omega)]
    exact image_write_outside fd _ _ o (Or.inl h)

theorem rd16_dir_entry_rec_len (e : ext2_dir_entry) (after : Nat → Nat)
    (h : e.rec_len < 65536) :
    obj_mem e.layout after 4 + 256 * obj_mem e.layout after 5 = e.rec_len := by
  rw [dir_entry_mem, dir_entry_mem]
  simp only [show ¬ 4 < 4 from by omega, show 4 < 6 from by omega, show ¬ 5 < 4 from by omega,
    show 5 < 6 from by omega, if_true, if_false, Nat.sub_self, pow_zero, Nat.div_one,
    show 5 - 4 = 1 from rfl, pow_one]
  omega

theorem dir_entry_set_rec_len_bounds (e : ext2_dir_entry) (ino : Nat) (str : List Nat)
    (h : str.length ≤ EXT2_NAME_LEN) :
    8 ≤ (dir_entry_set e ino str).rec_len ∧ (dir_entry_set e ino str).rec_len ≤ 264
      ∧ (dir_entry_set e ino str).rec_len % 4 = 0 := by
  simp only [EXT2_NAME_LEN] at h
  simp only [dir_entry_set, u16]
  split_ifs with h4 <;> omega

theorem dir_entries_rec_len_bounds (bindings : List (Nat × List Nat))
    (h : ∀ b ∈ bindings, b.2.length ≤ EXT2_NAME_LEN) :
    ∀ e ∈ dir_entries bindings, 8 ≤ e.rec_len ∧ e.rec_len ≤ 264 ∧ e.rec_len % 4 = 0 := by
  intro e he
  simp only [dir_entries, List.mem_map] at he
  obtain ⟨b, hb, rfl⟩ := he
  exact dir_entry_set_rec_len_bounds _ _ _ (h b hb)

theorem rec_len_sum_mod4 (es : List ext2_dir_entry)
    (h : ∀ e ∈ es, 8 ≤ e.rec_len ∧ e.rec_len ≤ 264 ∧ e.rec_len % 4 = 0) :
    (es.map (fun e => e.rec_len)).sum % 4 = 0 := by
  induction es with
  | nil => rfl
  | cons e es ih =>
    have h1 := (h e (List.mem_cons_self e es)).2.2
    have h2 := ih (fun x hx => h x (List.mem_cons_of_mem e hx))
    simp only [List.map_cons, List.sum_cons]
    omega

theorem dir_entries_write_cons (stack : Nat → Nat → Nat) (e : ext2_dir_entry)
    (es : List ext2_dir_entry) (j : Nat) (fd : Fd) :
    dir_entries_write stack (e :: es) j fd
      = dir_entries_write stack es (j + 1) (dir_entry_write e (stack j) fd) := rfl

theorem dir_entries_write_single (stack : Nat → Nat → Nat) (e : ext2_dir_entry) (j : Nat)
    (fd : Fd) : dir_entries_write stack [e] j fd = dir_entry_write e (stack j) fd := rfl

theorem dir_walk_step (blk : Nat → Nat) (fuel off : Nat) (h : off + 8 ≤ BLOCK_SIZE)
    (hr : (read_dir_record blk off).rec_len ≠ 0) :
    dir_walk blk (fuel + 1) off
      = read_dir_record blk off
        :: dir_walk blk fuel (off + (read_dir_record blk off).rec_len) := by
  simp [dir_walk, h, hr]

theorem dir_walk_stop (blk : Nat → Nat) (fuel off : Nat) (h : ¬ off + 8 ≤ BLOCK_SIZE) :
    dir_walk blk fuel off = [] := by
  cases fuel <;> simp [dir_walk, h]

theorem read_dir_record_rec_len (blk : Nat → Nat) (off : Nat) (e : ext2_dir_entry)
    (after : Nat → Nat) (h4 : blk (off + 4) = obj_mem e.layout after 4)
    (h5 : blk (off + 4 + 1) = obj_mem e.layout after 5) (h : e.rec_len < 65536) :
    (read_dir_record blk off).rec_len = e.rec_len := by
  show blk (off + 4) + 256 * blk (off + 4 + 1) = e.rec_len
  rw [h4, h5]
  exact rd16_dir_entry_rec_len e after h

/-- Walk of a block in which the entries `es` and then the entry `fill` were
written one after the other from offset `off`, the last one ending at the end
of the block: the record lengths read back are those of `es`, followed by that
of `fill` if its write was long enough to hold a record header. -/
theorem dir_walk_written (stack : Nat → Nat → Nat) (fill : ext2_dir_entry) (base : Nat)
    (es : List ext2_dir_entry)
    (hes : ∀ e ∈ es, 8 ≤ e.rec_len ∧ e.rec_len ≤ 264 ∧ e.rec_len % 4 = 0) :
    ∀ (j : Nat) (fd : Fd) (off fuel : Nat), fd.pos = base + off →
      off + (es.map (fun e => e.rec_len)).sum + fill.rec_len = BLOCK_SIZE →
      es.length + 1 ≤ fuel →
      (dir_walk (image_from (dir_entries_write stack (es ++ [fill]) j fd) base) fuel off).map
          (fun r => r.rec_len)
        = es.map (fun e => e.rec_len) ++ (if 8 ≤ fill.rec_len then [fill.rec_len] else []) := by
  induction es with
  | nil =>
    intro j fd off fuel hpos hsum hfuel
    simp only [List.map_nil, List.sum_nil, Nat.add_zero, BLOCK_SIZE] at hsum
    obtain ⟨fuel, rfl⟩ : ∃ f, fuel = f + 1 := ⟨fuel - 1, by simp at hfuel; omega⟩
    rw [List.nil_append, dir_entries_write_single, List.map_nil, List.nil_append]
    by_cases h8 : 8 ≤ fill.rec_len
    · have hrec : (read_dir_record (image_from (dir_entry_write fill (stack j) fd) base)
          off).rec_len = fill.rec_len := by
        apply read_dir_record_rec_len _ _ fill (stack j) _ _ (by omega)
        · show image (write fd _ fill.rec_len) (base + (off + 4)) = _
          rw [show base + (off + 4) = fd.pos + 4 from by omega]
          exact image_write_inside fd _ _ 4 (by omega)
        · show image (write fd _ fill.rec_len) (base + (off + 4 + 1)) = _
          rw [show base + (off + 4 + 1) = fd.pos + 5 from by omega]
          exact image_write_inside fd _ _ 5 (by omega)
      rw [dir_walk_step _ _ _ (by simp only [BLOCK_SIZE]; omega) (by rw [hrec]; omega), hrec,
        show off + fill.rec_len = 1024 from hsum, dir_walk_end, if_pos h8]
      simp only [List.map_cons, List.map_nil, hrec]
    · rw [dir_walk_stop _ _ _ (by simp only [BLOCK_SIZE]; omega), if_neg h8]
      rfl
  | cons e es ih =>
    intro j fd off fuel hpos hsum hfuel
    have he := hes e (List.mem_cons_self e es)
    have hes2 : ∀ x ∈ es, 8 ≤ x.rec_len ∧ x.rec_len ≤ 264 ∧ x.rec_len % 4 = 0 :=
      fun x hx => hes x (List.mem_cons_of_mem e hx)
    simp only [List.map_cons, List.sum_cons, BLOCK_SIZE] at hsum
    simp only [List.length_cons] at hfuel
    obtain ⟨fuel, rfl⟩ : ∃ f, fuel = f + 1 := ⟨fuel - 1, by omega⟩
    rw [List.cons_append, dir_entries_write_cons, List.map_cons, List.cons_append]
    have hpos2 : (dir_entry_write e (stack j) fd).pos = base + (off + e.rec_len) := by
      simp only [dir_entry_write, write]; omega
    have hrec : (read_dir_record (image_from (dir_entries_write stack (es ++ [fill]) (j + 1)
        (dir_entry_write e (stack j) fd)) base) off).rec_len = e.rec_len := by
      apply read_dir_record_rec_len _ _ e (stack j) _ _ (by omega)
      · show image _ (base + (off + 4)) = _
        rw [dir_entries_write_pos_le stack _ _ _ _ (by rw [hpos2]; omega),
          show base + (off + 4) = fd.pos + 4 from by omega]
        exact image_write_inside fd _ _ 4 (by omega)
      · show image _ (base + (off + 4 + 1)) = _
        rw [dir_entries_write_pos_le stack _ _ _ _ (by rw [hpos2]; omega),
          show base + (off + 4 + 1) = fd.pos + 5 from by omega]
        exact image_write_inside fd _ _ 5 (by omega)
    rw [dir_walk_step _ _ _ (by simp only [BLOCK_SIZE]; omega) (by rw [hrec]; omega), hrec,
      List.map_cons, hrec,
      ih hes2 (j + 1) (dir_entry_write e (stack j) fd) (off + e.rec_len) fuel hpos2
        (by simp only [BLOCK_SIZE]; omega) (by omega)]

/-- The record lengths read back from a block packed by `pack_dir_block`, for
names of at most `EXT2_NAME_LEN` bytes whose records fit in the block. -/
theorem pack_dir_block_walk (blockno : Nat) (bindings : List (Nat × List Nat))
    (stack : Nat → Nat → Nat) (fd : Fd) (fuel : Nat)
    (hname : ∀ b ∈ bindings, b.2.length ≤ EXT2_NAME_LEN)
    (hfit : ((dir_entries bindings).map (fun e => e.rec_len)).sum ≤ BLOCK_SIZE)
    (hfuel : bindings.length + 1 ≤ fuel) :
    (dir_walk (image_from (pack_dir_block blockno bindings stack fd) (BLOCK_OFFSET blockno))
        fuel 0).map (fun r => r.rec_len)
      = (dir_entries bindings).map (fun e => e.rec_len)
        ++ (if 8 ≤ BLOCK_SIZE - ((dir_entries bindings).map (fun e => e.rec_len)).sum
            then [BLOCK_SIZE - ((dir_entries bindings).map (fun e => e.rec_len)).sum]
            else []) := by
  have hfill : u16_of_int (bytes_remaining_after (dir_entries bindings))
      = BLOCK_SIZE - ((dir_entries bindings).map (fun e => e.rec_len)).sum := by
    rw [bytes_remaining_after_eq]
    have e : (BLOCK_SIZE : Int) - (((dir_entries bindings).map (fun e => e.rec_len)).sum : Nat)
        = ((BLOCK_SIZE - ((dir_entries bindings).map (fun e => e.rec_len)).sum : Nat) : Int) := by
      omega
    rw [e, u16_of_int_natCast _ (by simp only [BLOCK_SIZE]; omega)]
  unfold pack_dir_block dir_block_entries
  rw [hfill]
  obtain ⟨fill, hrec, hfd⟩ : ∃ f : ext2_dir_entry,
      f.rec_len = BLOCK_SIZE - ((dir_entries bindings).map (fun e => e.rec_len)).sum
      ∧ f = { ext2_dir_entry.zero with
              rec_len := BLOCK_SIZE - ((dir_entries bindings).map (fun e => e.rec_len)).sum } :=
    ⟨_, rfl, rfl⟩
  rw [← hfd, ← hrec]
  exact dir_walk_written stack fill (BLOCK_OFFSET blockno) (dir_entries bindings)
    (dir_entries_rec_len_bounds bindings hname) 0 (lseek fd (BLOCK_OFFSET blockno)) 0 fuel
    (Nat.add_zero _).symm
    (by rw [hrec]; omega) (by simp only [dir_entries, List.length_map]; exact hfuel)

theorem pack_dir_block_walk_sum (blockno : Nat) (bindings : List (Nat × List Nat))
    (stack : Nat → Nat → Nat) (fd : Fd) (fuel : Nat)
    (hname : ∀ b ∈ bindings, b.2.length ≤ EXT2_NAME_LEN)
    (hfit : ((dir_entries bindings).map (fun e => e.rec_len)).sum ≤ BLOCK_SIZE)
    (hfuel : bindings.length + 1 ≤ fuel) :
    ((dir_walk (image_from (pack_dir_block blockno bindings stack fd) (BLOCK_OFFSET blockno))
        fuel 0).map (fun r => r.rec_len)).sum
      = if ((dir_entries bindings).map (fun e => e.rec_len)).sum = 1020 then 1020
        else BLOCK_SIZE := by
  rw [pack_dir_block_walk blockno bindings stack fd fuel hname hfit hfuel]
  have h4 := rec_len_sum_mod4 (dir_entries bindings) (dir_entries_rec_len_bounds bindings hname)
  simp only [BLOCK_SIZE] at hfit ⊢
  rw [List.sum_append]
  split_ifs with h1 h2 h2 <;> simp only [List.sum_cons, List.sum_nil] <;> omega

/-! ## Claims -/

/-- C1 (as amended): for every bit index `i` in `[0, 8192)` of the block bitmap
written by `write_block_bitmap`, bit `i` (which is bit `i % 32` of word `i / 32`)
is 1 if and only if `i + 1 <= LAST_BLOCK` or `i + 1 >= NUM_BLOCKS`, that is, bit
`i` stands for block `i + 1`; bits 0..22 are 1 and bit 23 is the first 0 bit. -/
theorem C1_block_bitmap_bits (uninit : Nat → Nat) (fd : Fd) (i : Nat) (hi : i < 8192) :
    (bitmap_bit (image_from (write_block_bitmap uninit fd)
        (BLOCK_OFFSET BLOCK_BITMAP_BLOCKNO)) i = true
      ↔ (i + 1 ≤ LAST_BLOCK ∨ NUM_BLOCKS ≤ i + 1))
    ∧ bitmap_bit (image_from (write_block_bitmap uninit fd)
        (BLOCK_OFFSET BLOCK_BITMAP_BLOCKNO)) i
      = ((block_bitmap_array uninit).getD (i / 32) 0).testBit (i % 32) := by
  refine ⟨?_, block_bitmap_bit_word uninit fd i hi⟩
  rw [block_bitmap_bit_iff uninit fd i hi]
  simp only [LAST_BLOCK, HELLO_WORLD_FILE_BLOCKNO, NUM_BLOCKS]
  omega

/-- Witness for C1: bit 22 (block 23, the last reserved block) is set. -/
theorem C1_block_bitmap_bits_witness :
    (22 : Nat) < 8192 ∧
    (bitmap_bit (image_from (write_block_bitmap (fun _ => 0)
        (ftruncate_fresh (NUM_BLOCKS * BLOCK_SIZE)))
        (BLOCK_OFFSET BLOCK_BITMAP_BLOCKNO)) 22 = true
      ↔ (22 + 1 ≤ LAST_BLOCK ∨ NUM_BLOCKS ≤ 22 + 1)) :=
  ⟨by decide,
    (C1_block_bitmap_bits (fun _ => 0) (ftruncate_fresh (NUM_BLOCKS * BLOCK_SIZE)) 22
      (by decide)).1⟩

/-- C1 as stated fails at bit 23: block 23 is in the reserved range
`0..LAST_BLOCK`, yet bit 23 of the written bitmap is 0; and at bit 1023, which
is below `NUM_BLOCKS` and outside the reserved range, yet is 1. -/
theorem C1_counterexample :
    bitmap_bit (image_from (write_block_bitmap (fun _ => 0)
        (ftruncate_fresh (NUM_BLOCKS * BLOCK_SIZE)))
        (BLOCK_OFFSET BLOCK_BITMAP_BLOCKNO)) 23 = false
    ∧ (23 ≤ LAST_BLOCK ∨ NUM_BLOCKS ≤ 23)
    ∧ bitmap_bit (image_from (write_block_bitmap (fun _ => 0)
        (ftruncate_fresh (NUM_BLOCKS * BLOCK_SIZE)))
        (BLOCK_OFFSET BLOCK_BITMAP_BLOCKNO)) 1023 = true
    ∧ ¬ (1023 ≤ LAST_BLOCK ∨ NUM_BLOCKS ≤ 1023) := by
  refine ⟨?_, by decide, ?_, by decide⟩
  · have h := block_bitmap_bit_iff (fun _ => 0) (ftruncate_fresh (NUM_BLOCKS * BLOCK_SIZE))
      23 (by decide)
    cases hb : bitmap_bit (image_from (write_block_bitmap (fun _ => 0)
        (ftruncate_fresh (NUM_BLOCKS * BLOCK_SIZE)))
        (BLOCK_OFFSET BLOCK_BITMAP_BLOCKNO)) 23
    · rfl
    · exact absurd (h.1 hb) (by decide)
  · exact (block_bitmap_bit_iff (fun _ => 0) (ftruncate_fresh (NUM_BLOCKS * BLOCK_SIZE))
      1023 (by decide)).2 (by decide)

/-- C2: for every bit index `i` in `[0, 8192)` of the 1024-byte inode bitmap
written by `write_inode_bitmap`, bit `i` (standing for inode `i + 1`) is 1 if
and only if `i + 1 <= LAST_INO` or `i + 1 > NUM_INODES`; exactly `BLOCK_SIZE`
bytes are written at the start of block `INODE_BITMAP_BLOCKNO`. -/
theorem C2_inode_bitmap_bits (uninit : Nat → Nat) (fd : Fd) (i : Nat) (hi : i < 8192) :
    (bitmap_bit (image_from (write_inode_bitmap uninit fd)
        (BLOCK_OFFSET INODE_BITMAP_BLOCKNO)) i = true
      ↔ (i + 1 ≤ LAST_INO ∨ NUM_INODES < i + 1))
    ∧ (write_inode_bitmap uninit fd).log.head?.map (fun w => (w.off, w.len))
        = some (4096, 1024) := by
  refine ⟨?_, rfl⟩
  rw [inode_bitmap_bit_word uninit fd i hi,
    inode_bitmap_array_getD uninit (i / 32) (by omega)]
  simp only [LAST_INO, HELLO_INO, NUM_INODES]
  split_ifs with h0 h1
  · rw [testBit_inode_word0, decide_eq_true_iff]; omega
  · rw [Nat.zero_testBit]; simp only [Bool.false_eq_true, false_iff]; omega
  · rw [testBit_ones32, decide_eq_true_iff]; omega

/-- Witness for C2: bit 12 (inode 13, the last reserved inode) is set. -/
theorem C2_inode_bitmap_bits_witness :
    (12 : Nat) < 8192 ∧
    (bitmap_bit (image_from (write_inode_bitmap (fun _ => 0)
        (ftruncate_fresh (NUM_BLOCKS * BLOCK_SIZE)))
        (BLOCK_OFFSET INODE_BITMAP_BLOCKNO)) 12 = true
      ↔ (12 + 1 ≤ LAST_INO ∨ NUM_INODES < 12 + 1)) :=
  ⟨by decide,
    (C2_inode_bitmap_bits (fun _ => 0) (ftruncate_fresh (NUM_BLOCKS * BLOCK_SIZE)) 12
      (by decide)).1⟩

/-- C3: for every name of length `len <= EXT2_NAME_LEN`, the record length set by
`dir_entry_set` is `12 + len / 4 * 4` when `len % 4 != 0` and `8 + len` otherwise;
it is a multiple of 4, at least `8 + len`, less than `8 + len + 4`, equal to
`(8 + len + 3) / 4 * 4`, and `name_len` is `len`. -/
theorem C3_dir_entry_set_rec_len (entry : ext2_dir_entry) (inode_num : Nat) (str : List Nat)
    (hlen : str.length ≤ EXT2_NAME_LEN) :
    (dir_entry_set entry inode_num str).rec_len
        = (if str.length % 4 ≠ 0 then 12 + str.length / 4 * 4 else 8 + str.length)
    ∧ (dir_entry_set entry inode_num str).rec_len % 4 = 0
    ∧ 8 + str.length ≤ (dir_entry_set entry inode_num str).rec_len
    ∧ (dir_entry_set entry inode_num str).rec_len < 8 + str.length + 4
    ∧ (dir_entry_set entry inode_num str).rec_len = (8 + str.length + 3) / 4 * 4
    ∧ (dir_entry_set entry inode_num str).name_len = str.length := by
  simp only [EXT2_NAME_LEN] at hlen
  simp only [dir_entry_set, u16]
  split_ifs with h <;> omega

/-- Witness for C3: the name `hello-world` (11 bytes) gets record length 20. -/
theorem C3_dir_entry_set_rec_len_witness :
    (str_bytes ("hello-world")).length ≤ EXT2_NAME_LEN
    ∧ (dir_entry_set ext2_dir_entry.zero HELLO_WORLD_INO (str_bytes ("hello-world"))).rec_len
        = (8 + (str_bytes ("hello-world")).length + 3) / 4 * 4 :=
  ⟨by decide,
    (C3_dir_entry_set_rec_len ext2_dir_entry.zero HELLO_WORLD_INO (str_bytes ("hello-world"))
      (by decide)).2.2.2.2.1⟩

/-- C4 (as amended): for every ordered sequence of bindings with names of at most
`EXT2_NAME_LEN` bytes whose record lengths, as `dir_entry_set` computes them, sum
to at most the block size, the packing done by the directory writers (real
entries, then one zero-inode filler whose `u16` record length is
`bytes_remaining`) sets record lengths, filler included, that sum to exactly
`BLOCK_SIZE`, and these are the lengths of the writes performed.  Read back from
the written block by record length, the records are the real entries, followed
by the filler when the filler has at least the 8 bytes of a record header, and
their lengths sum to `BLOCK_SIZE`; the one exception is a real total of 1020,
where the filler is a 4-byte write that holds no record length and the lengths
read back sum to 1020.  The two directory writers of the source are instances of
this packing. -/
theorem C4_dir_block_rec_len_sum (blockno : Nat) (bindings : List (Nat × List Nat))
    (stack : Nat → Nat → Nat) (fd : Fd) (fuel : Nat)
    (hname : ∀ b ∈ bindings, b.2.length ≤ EXT2_NAME_LEN)
    (hfit : ((dir_entries bindings).map (fun e => e.rec_len)).sum ≤ BLOCK_SIZE)
    (hfuel : bindings.length + 1 ≤ fuel) :
    ((dir_block_entries bindings).map (fun e => e.rec_len)).sum = BLOCK_SIZE
    ∧ (pack_dir_block blockno bindings stack fd).log.map (fun w => w.len)
        = ((dir_block_entries bindings).map (fun e => e.rec_len)).reverse
          ++ fd.log.map (fun w => w.len)
    ∧ (dir_walk (image_from (pack_dir_block blockno bindings stack fd) (BLOCK_OFFSET blockno))
          fuel 0).map (fun r => r.rec_len)
        = (dir_entries bindings).map (fun e => e.rec_len)
          ++ (if 8 ≤ BLOCK_SIZE - ((dir_entries bindings).map (fun e => e.rec_len)).sum
              then [BLOCK_SIZE - ((dir_entries bindings).map (fun e => e.rec_len)).sum]
              else [])
    ∧ ((dir_walk (image_from (pack_dir_block blockno bindings stack fd) (BLOCK_OFFSET blockno))
          fuel 0).map (fun r => r.rec_len)).sum
        = (if ((dir_entries bindings).map (fun e => e.rec_len)).sum = 1020 then 1020
           else BLOCK_SIZE)
    ∧ write_root_dir_block stack fd
        = pack_dir_block ROOT_DIR_BLOCKNO root_bindings stack fd
    ∧ write_lost_and_found_dir_block stack fd
        = pack_dir_block LOST_AND_FOUND_DIR_BLOCKNO lost_and_found_bindings stack fd := by
  refine ⟨?_, ?_, pack_dir_block_walk blockno bindings stack fd fuel hname hfit hfuel,
    pack_dir_block_walk_sum blockno bindings stack fd fuel hname hfit hfuel,
    write_root_dir_block_eq_pack stack fd, write_lost_and_found_dir_block_eq_pack stack fd⟩
  · unfold dir_block_entries
    rw [bytes_remaining_after_eq]
    have e : (BLOCK_SIZE : Int) - (((dir_entries bindings).map (fun e => e.rec_len)).sum : Nat)
        = ((BLOCK_SIZE - ((dir_entries bindings).map (fun e => e.rec_len)).sum : Nat) : Int) := by
      omega
    rw [e, u16_of_int_natCast _ (by simp only [BLOCK_SIZE]; omega)]
    simp only [List.map_append, List.sum_append, List.map_cons, List.map_nil, List.sum_cons,
      List.sum_nil]
    omega
  · unfold pack_dir_block
    rw [dir_entries_write_lens]
    simp [lseek]

/-- Witness for C4: the five bindings of the root directory, read back with
fuel 6. -/
theorem C4_dir_block_rec_len_sum_witness :
    (∀ b ∈ root_bindings, b.2.length ≤ EXT2_NAME_LEN)
    ∧ ((dir_entries root_bindings).map (fun e => e.rec_len)).sum ≤ BLOCK_SIZE
    ∧ root_bindings.length + 1 ≤ 6
    ∧ ((dir_block_entries root_bindings).map (fun e => e.rec_len)).sum = BLOCK_SIZE
    ∧ ((dir_walk (image_from (pack_dir_block ROOT_DIR_BLOCKNO root_bindings (fun _ _ => 0)
          (ftruncate_fresh (NUM_BLOCKS * BLOCK_SIZE))) (BLOCK_OFFSET ROOT_DIR_BLOCKNO))
          6 0).map (fun r => r.rec_len)).sum
        = (if ((dir_entries root_bindings).map (fun e => e.rec_len)).sum = 1020 then 1020
           else BLOCK_SIZE) :=
  ⟨by decide, by decide, by decide,
    (C4_dir_block_rec_len_sum ROOT_DIR_BLOCKNO root_bindings (fun _ _ => 0)
      (ftruncate_fresh (NUM_BLOCKS * BLOCK_SIZE)) 6 (by decide) (by decide) (by decide)).1,
    (C4_dir_block_rec_len_sum ROOT_DIR_BLOCKNO root_bindings (fun _ _ => 0)
      (ftruncate_fresh (NUM_BLOCKS * BLOCK_SIZE)) 6 (by decide) (by decide) (by decide)).2.2.2.1⟩

set_option maxRecDepth 100000 in
/-- C4 as stated fails for 86 bindings of a one-byte name: their header and name
bytes total 774, which fits within a block, but their record lengths total 1032,
`bytes_remaining` ends at -8, the filler gets record length 65528 and the record
lengths set sum to 66560, as do the sizes of the 87 writes; read back from block
21 by record length, the records stop at offset 1020 and their lengths sum to
1020. -/
theorem C4_counterexample :
    (((List.replicate 86 (HELLO_WORLD_INO, str_bytes ("a"))).map
        (fun b => 8 + b.2.length)).sum ≤ BLOCK_SIZE)
    ∧ ((dir_block_entries (List.replicate 86 (HELLO_WORLD_INO, str_bytes ("a")))).map
        (fun e => e.rec_len)).sum = 66560
    ∧ ((dir_block_entries (List.replicate 86 (HELLO_WORLD_INO, str_bytes ("a")))).map
        (fun e => e.rec_len)).sum ≠ BLOCK_SIZE
    ∧ ((pack_dir_block ROOT_DIR_BLOCKNO (List.replicate 86 (HELLO_WORLD_INO, str_bytes ("a")))
          (fun _ _ => 0) (ftruncate_fresh (NUM_BLOCKS * BLOCK_SIZE))).log.map
        (fun w => w.len)).sum = 66560
    ∧ ((dir_walk (image_from (pack_dir_block ROOT_DIR_BLOCKNO
          (List.replicate 86 (HELLO_WORLD_INO, str_bytes ("a"))) (fun _ _ => 0)
          (ftruncate_fresh (NUM_BLOCKS * BLOCK_SIZE))) (BLOCK_OFFSET ROOT_DIR_BLOCKNO))
          100 0).map (fun r => r.rec_len)).sum = 1020 := by
  decide

/-- C5: in the image built by `main`, walking the root directory block (block
21) by record length finds `.` -> 2, `..` -> 2, `lost+found` -> 11,
`hello-world` -> 12 and `hello` -> 13 in this order, each with `name_len` equal
to the length of its name, then one zero-inode filler; exactly 5 entries have a
non-zero inode number, and the record lengths sum to 1024. -/
theorem C5_root_dir_block_entries (env : Env) (h0 : env.time 0 ≠ -1) (h1 : env.time 1 ≠ -1)
    (fuel : Nat) (hfuel : 6 ≤ fuel) :
    ∃ fd, main env = some fd
      ∧ dir_walk (image_from fd (BLOCK_OFFSET ROOT_DIR_BLOCKNO)) fuel 0
        = [⟨2, 12, 1, str_bytes (".")⟩, ⟨2, 12, 2, str_bytes ("..")⟩,
           ⟨11, 20, 10, str_bytes ("lost+found")⟩, ⟨12, 20, 11, str_bytes ("hello-world")⟩,
           ⟨13, 16, 5, str_bytes ("hello")⟩, ⟨0, 944, 0, []⟩]
      ∧ ((dir_walk (image_from fd (BLOCK_OFFSET ROOT_DIR_BLOCKNO)) fuel 0).filter
          (fun r => decide (r.inode ≠ 0))).length = 5
      ∧ ((dir_walk (image_from fd (BLOCK_OFFSET ROOT_DIR_BLOCKNO)) fuel 0).map
          (fun r => r.rec_len)).sum = BLOCK_SIZE := by
  obtain ⟨fd, hm, hw⟩ := root_dir_block_walk env h0 h1 fuel hfuel
  refine ⟨fd, hm, hw, ?_, ?_⟩
  · rw [hw]; decide
  · rw [hw]; decide

/-- Witness for C5: the sample environment, walked with fuel 6. -/
theorem C5_root_dir_block_entries_witness :
    sample_env.time 0 ≠ -1 ∧ sample_env.time 1 ≠ -1 ∧ 6 ≤ 6
    ∧ ∃ fd, main sample_env = some fd
      ∧ dir_walk (image_from fd (BLOCK_OFFSET ROOT_DIR_BLOCKNO)) 6 0
        = [⟨2, 12, 1, str_bytes (".")⟩, ⟨2, 12, 2, str_bytes ("..")⟩,
           ⟨11, 20, 10, str_bytes ("lost+found")⟩, ⟨12, 20, 11, str_bytes ("hello-world")⟩,
           ⟨13, 16, 5, str_bytes ("hello")⟩, ⟨0, 944, 0, []⟩]
      ∧ ((dir_walk (image_from fd (BLOCK_OFFSET ROOT_DIR_BLOCKNO)) 6 0).filter
          (fun r => decide (r.inode ≠ 0))).length = 5
      ∧ ((dir_walk (image_from fd (BLOCK_OFFSET ROOT_DIR_BLOCKNO)) 6 0).map
          (fun r => r.rec_len)).sum = BLOCK_SIZE :=
  ⟨by decide, by decide, by decide,
    C5_root_dir_block_entries sample_env (by decide) (by decide) 6 (by decide)⟩

/-- C6 (as amended): decoding the bytes that `write_superblock` places at image
offset 1024 as little-endian fields at the struct offsets reproduces every value
assigned: s_inodes_count = 128 (offset 0), s_blocks_count = 1024 (4),
s_r_blocks_count = 0 (8), s_free_blocks_count = 1000 (12), s_free_inodes_count =
115 (16), s_first_data_block = 1 (20), s_log_block_size = 0 (24),
s_blocks_per_group = 8192 (32), s_frags_per_group = 8192 (36), s_inodes_per_group
= 128 (40), s_mtime = 0 (44), s_wtime = the clock value (48), s_magic = 0xEF53
(56, bytes 0x53 0xEF), s_lastcheck = the clock value (64), the 16 s_uuid bytes
(104), the volume name `cs111-base` (120), and every other decoded field 0. -/
theorem C6_superblock_decode (t : Int) (fd : Fd) (h : t ≠ -1) :
    ∃ fd2, write_superblock t fd = some fd2
      ∧ decode_superblock (image_from fd2 (BLOCK_OFFSET SUPERBLOCK_BLOCKNO))
          = superblock_value (u32_of_int t)
      ∧ decode_superblock (image_from fd2 (BLOCK_OFFSET SUPERBLOCK_BLOCKNO))
          = { s_inodes_count := 128, s_blocks_count := 1024, s_r_blocks_count := 0
              s_free_blocks_count := 1000, s_free_inodes_count := 115
              s_first_data_block := 1, s_log_block_size := 0, s_log_frag_size := 0
              s_blocks_per_group := 8192, s_frags_per_group := 8192
              s_inodes_per_group := 128, s_mtime := 0, s_wtime := u32_of_int t
              s_mnt_count := 0, s_max_mnt_count := 0, s_magic := 0xEF53, s_state := 0
              s_errors := 0, s_minor_rev_level := 0, s_lastcheck := u32_of_int t
              s_checkinterval := 0, s_creator_os := 0, s_rev_level := 0
              s_def_resuid := 0, s_def_resgid := 0
              s_pad := List.replicate 5 0
              s_uuid := [0x5A, 0x1E, 0xAB, 0x1E, 0x13, 0x37, 0x13, 0x37,
                         0x13, 0x37, 0xC0, 0xFF, 0xEE, 0xC0, 0xFF, 0xEE]
              s_volume_name := str_bytes ("cs111-base") ++ List.replicate 6 0
              s_reserved := List.replicate 229 0 }
      ∧ rd32 (image_from fd2 (BLOCK_OFFSET SUPERBLOCK_BLOCKNO)) 36 = 8192
      ∧ rd32 (image_from fd2 (BLOCK_OFFSET SUPERBLOCK_BLOCKNO)) 44 = 0
      ∧ rd32 (image_from fd2 (BLOCK_OFFSET SUPERBLOCK_BLOCKNO)) 48 = u32_of_int t
      ∧ rd32 (image_from fd2 (BLOCK_OFFSET SUPERBLOCK_BLOCKNO)) 64 = u32_of_int t
      ∧ image_from fd2 (BLOCK_OFFSET SUPERBLOCK_BLOCKNO) 56 = 0x53
      ∧ image_from fd2 (BLOCK_OFFSET SUPERBLOCK_BLOCKNO) 57 = 0xEF := by
  obtain ⟨fd2, e, hd, hm0, hm1⟩ := decode_superblock_image t fd h
  have hv := superblock_value_eq (u32_of_int t)
  refine ⟨fd2, e, hd, hd.trans hv, ?_, ?_, ?_, ?_, hm0, hm1⟩
  · exact (congrArg ext2_superblock.s_frags_per_group (hd.trans hv) :)
  · exact (congrArg ext2_superblock.s_mtime (hd.trans hv) :)
  · exact (congrArg ext2_superblock.s_wtime (hd.trans hv) :)
  · exact (congrArg ext2_superblock.s_lastcheck (hd.trans hv) :)

/-- Witness for C6: the clock returns 1700000000. -/
theorem C6_superblock_decode_witness :
    (1700000000 : Int) ≠ -1
    ∧ ∃ fd2, write_superblock 1700000000 (ftruncate_fresh (NUM_BLOCKS * BLOCK_SIZE)) = some fd2
      ∧ decode_superblock (image_from fd2 (BLOCK_OFFSET SUPERBLOCK_BLOCKNO))
          = superblock_value (u32_of_int 1700000000) :=
  ⟨by decide,
    (C6_superblock_decode 1700000000 (ftruncate_fresh (NUM_BLOCKS * BLOCK_SIZE))
      (by decide)).imp (fun _ hx => ⟨hx.1, hx.2.1⟩)⟩

/-- C6 as stated fails when the clock returns 1700000000: the `u32` at offset
44 is `s_mtime` = 0, not the clock value (`s_wtime` is at offset 48), and
`s_frags_per_group`, a field the claim does not list, decodes to 8192, not 0. -/
theorem C6_counterexample :
    ∃ fd2, write_superblock 1700000000 (ftruncate_fresh (NUM_BLOCKS * BLOCK_SIZE)) = some fd2
      ∧ rd32 (image_from fd2 (BLOCK_OFFSET SUPERBLOCK_BLOCKNO)) 44 ≠ u32_of_int 1700000000
      ∧ (decode_superblock
          (image_from fd2 (BLOCK_OFFSET SUPERBLOCK_BLOCKNO))).s_frags_per_group ≠ 0 := by
  obtain ⟨fd2, e, hd, _, _⟩ :=
    decode_superblock_image 1700000000 (ftruncate_fresh (NUM_BLOCKS * BLOCK_SIZE)) (by decide)
  have hv := hd.trans (superblock_value_eq (u32_of_int 1700000000))
  refine ⟨fd2, e, ?_, ?_⟩
  · have h44 : rd32 (image_from fd2 (BLOCK_OFFSET SUPERBLOCK_BLOCKNO)) 44 = 0 :=
      (congrArg ext2_superblock.s_mtime hv :)
    rw [h44]; decide
  · rw [hv]; decide

/-- C7: for every inode number `n` with `1 <= n <= NUM_INODES`, `write_inode`
writes exactly 128 bytes at offset `5 * 1024 + (n - 1) * 128` (the record's object
representation; the rest of the file is unchanged); the range lies inside the
inode table region `[5 * 1024, 21 * 1024)`, and the ranges of distinct numbers
do not overlap. -/
theorem C7_write_inode_placement (fd : Fd) (n : Nat) (inode : ext2_inode)
    (h1 : 1 ≤ n) (h2 : n ≤ NUM_INODES) :
    (∃ w, (write_inode fd n inode).log = w :: fd.log
        ∧ w.off = 5 * 1024 + (n - 1) * 128 ∧ w.len = 128)
    ∧ (∀ o, image (write_inode fd n inode) o
        = if 5 * 1024 + (n - 1) * 128 ≤ o ∧ o < 5 * 1024 + (n - 1) * 128 + 128
          then obj_mem inode.layout unread (o - (5 * 1024 + (n - 1) * 128))
          else image fd o)
    ∧ 5 * 1024 ≤ 5 * 1024 + (n - 1) * 128
    ∧ 5 * 1024 + (n - 1) * 128 + 128 ≤ 21 * 1024
    ∧ (∀ m, 1 ≤ m → m ≤ NUM_INODES → m ≠ n →
        5 * 1024 + (m - 1) * 128 + 128 ≤ 5 * 1024 + (n - 1) * 128
        ∨ 5 * 1024 + (n - 1) * 128 + 128 ≤ 5 * 1024 + (m - 1) * 128) := by
  have hlog : (write_inode fd n inode).log
      = ⟨5 * 1024 + (n - 1) * 128, 128, obj_mem inode.layout unread⟩ :: fd.log := by
    unfold write_inode
    rw [write_inode_offset n h1 h2, sizeof_ext2_inode_eq]
    rfl
  simp only [NUM_INODES] at h2 ⊢
  refine ⟨⟨_, hlog, rfl, rfl⟩, ?_, by omega, by omega, fun m hm1 hm2 hne => by omega⟩
  intro o
  unfold image
  rw [hlog]
  rfl

/-- Witness for C7: the regular file's inode, number 12, goes to offset 6528. -/
theorem C7_write_inode_placement_witness :
    1 ≤ HELLO_WORLD_INO ∧ HELLO_WORLD_INO ≤ NUM_INODES
    ∧ ∃ w, (write_inode (ftruncate_fresh (NUM_BLOCKS * BLOCK_SIZE)) HELLO_WORLD_INO
          (reg_file_inode 0)).log = w :: (ftruncate_fresh (NUM_BLOCKS * BLOCK_SIZE)).log
        ∧ w.off = 5 * 1024 + (HELLO_WORLD_INO - 1) * 128 ∧ w.len = 128 :=
  ⟨by decide, by decide,
    (C7_write_inode_placement (ftruncate_fresh (NUM_BLOCKS * BLOCK_SIZE)) HELLO_WORLD_INO
      (reg_file_inode 0) (by decide) (by decide)).1⟩

/-- C8: in the image built by `main`, the regular file's inode (inode 12, at the
offset `write_inode` assigns) has `i_size` = 12 and `i_block[0]` = 23; the first
12 bytes of the block that `i_block[0]` names are the bytes of `"Hello world\n"`;
and `write_hello_world_file_block` writes as many bytes as that `i_size`. -/
theorem C8_regular_file (env : Env) (h0 : env.time 0 ≠ -1) (h1 : env.time 1 ≠ -1) :
    ∃ fd, main env = some fd
      ∧ rd32 (image_from fd (5 * 1024 + (HELLO_WORLD_INO - 1) * 128)) 4 = 12
      ∧ rd32 (image_from fd (5 * 1024 + (HELLO_WORLD_INO - 1) * 128)) 40 = 23
      ∧ rdbytes (image_from fd (BLOCK_OFFSET
          (rd32 (image_from fd (5 * 1024 + (HELLO_WORLD_INO - 1) * 128)) 40))) 0 12
        = str_bytes ("Hello world\n")
      ∧ (∀ fd0, ((write_hello_world_file_block fd0).log.head?.map (fun w => w.len))
          = some (rd32 (image_from fd (5 * 1024 + (HELLO_WORLD_INO - 1) * 128)) 4)) := by
  obtain ⟨fd, hm, hl⟩ := main_log_eq env h0 h1
  have hb : ∀ b k, image_from fd b k = read_log (main_log env) (b + k) := by
    intro b k; simp [image_from, image, hl]
  have hsize : rd32 (image_from fd (5 * 1024 + (HELLO_WORLD_INO - 1) * 128)) 4 = 12 := by
    simp (disch := omega) [rd32, hb, HELLO_WORLD_INO, main_log_reg_file, ext2_inode.layout,
      obj_mem, u16_m, u32_m, u8_array_m, EXT2_N_BLOCKS_eq, reg_file_i_size]
  have hblk : rd32 (image_from fd (5 * 1024 + (HELLO_WORLD_INO - 1) * 128)) 40 = 23 := by
    simp (disch := omega) [rd32, hb, HELLO_WORLD_INO, main_log_reg_file, ext2_inode.layout,
      obj_mem, u16_m, u32_m, u8_array_m, EXT2_N_BLOCKS_eq, reg_file_i_block]
    decide
  refine ⟨fd, hm, hsize, hblk, ?_, ?_⟩
  · rw [hblk]
    simp (disch := omega) [rdbytes, hb, BLOCK_OFFSET, BLOCK_SIZE, main_log_hello, obj_mem,
      u8_array_m, str_bytes]
    decide
  · intro fd0
    rw [hsize]
    rfl

/-- Witness for C8: the sample environment. -/
theorem C8_regular_file_witness :
    sample_env.time 0 ≠ -1 ∧ sample_env.time 1 ≠ -1
    ∧ ∃ fd, main sample_env = some fd
      ∧ rd32 (image_from fd (5 * 1024 + (HELLO_WORLD_INO - 1) * 128)) 4 = 12
      ∧ rd32 (image_from fd (5 * 1024 + (HELLO_WORLD_INO - 1) * 128)) 40 = 23 :=
  ⟨by decide, by decide,
    (C8_regular_file sample_env (by decide) (by decide)).imp
      (fun _ hx => ⟨hx.1, hx.2.1, hx.2.2.1⟩)⟩

/-- C9: in the image built by `main`, the symbolic link's inode (inode 13) is a
fast symlink: its mode has type `EXT2_S_IFLNK`, `i_size` = 11, `i_blocks` = 0,
the first 11 bytes of its 60-byte `i_block` array (inode byte offset 40) are the
bytes of `hello-world`, the remaining 49 bytes are 0, and no data block is
written for it: no write of the run reaches past block `LAST_BLOCK`, the image is
zero from there on, and blocks 21, 22 and 23 are the blocks named by `i_block[0]`
of inodes 2, 11 and 12. -/
theorem C9_symlink (env : Env) (h0 : env.time 0 ≠ -1) (h1 : env.time 1 ≠ -1) :
    ∃ fd, main env = some fd
      ∧ rd16 (image_from fd (5 * 1024 + (HELLO_INO - 1) * 128)) 0 &&& 0xF000 = EXT2_S_IFLNK
      ∧ rd32 (image_from fd (5 * 1024 + (HELLO_INO - 1) * 128)) 4 = 11
      ∧ rd32 (image_from fd (5 * 1024 + (HELLO_INO - 1) * 128)) 28 = 0
      ∧ rdbytes (image_from fd (5 * 1024 + (HELLO_INO - 1) * 128)) 40 11
          = str_bytes ("hello-world")
      ∧ rdbytes (image_from fd (5 * 1024 + (HELLO_INO - 1) * 128)) 51 49
          = List.replicate 49 0
      ∧ (∀ w ∈ fd.log, w.off + w.len ≤ (LAST_BLOCK + 1) * BLOCK_SIZE)
      ∧ (∀ o, (LAST_BLOCK + 1) * BLOCK_SIZE ≤ o → image fd o = 0)
      ∧ rd32 (image_from fd (5 * 1024 + (EXT2_ROOT_INO - 1) * 128)) 40 = ROOT_DIR_BLOCKNO
      ∧ rd32 (image_from fd (5 * 1024 + (LOST_AND_FOUND_INO - 1) * 128)) 40
          = LOST_AND_FOUND_DIR_BLOCKNO
      ∧ rd32 (image_from fd (5 * 1024 + (HELLO_WORLD_INO - 1) * 128)) 40
          = HELLO_WORLD_FILE_BLOCKNO := by
  obtain ⟨fd, hm, hl⟩ := main_log_eq env h0 h1
  have hb : ∀ b k, image_from fd b k = read_log (main_log env) (b + k) := by
    intro b k; simp [image_from, image, hl]
  refine ⟨fd, hm, ?_, ?_, ?_, ?_, ?_, ?_, ?_, ?_, ?_, ?_⟩
  · simp (disch := omega) [rd16, hb, HELLO_INO, main_log_symlink, ext2_inode.layout,
      obj_mem, u16_m, u32_m, u8_array_m, EXT2_N_BLOCKS_eq, symlink_i_mode]
    decide
  · simp (disch := omega) [rd32, hb, HELLO_INO, main_log_symlink, ext2_inode.layout,
      obj_mem, u16_m, u32_m, u8_array_m, EXT2_N_BLOCKS_eq, symlink_i_size]
  · simp (disch := omega) [rd32, hb, HELLO_INO, main_log_symlink, ext2_inode.layout,
      obj_mem, u16_m, u32_m, u8_array_m, EXT2_N_BLOCKS_eq, symlink_i_blocks]
  · simp (disch := omega) [rdbytes, hb, HELLO_INO, main_log_symlink, ext2_inode.layout,
      obj_mem, u16_m, u32_m, u8_array_m, EXT2_N_BLOCKS_eq, symlink_i_block, str_bytes]
    decide
  · simp (disch := omega) [rdbytes, hb, HELLO_INO, main_log_symlink, ext2_inode.layout,
      obj_mem, u16_m, u32_m, u8_array_m, EXT2_N_BLOCKS_eq, symlink_i_block, str_bytes]
    decide
  · rw [hl]
    simp [main_log, LAST_BLOCK, HELLO_WORLD_FILE_BLOCKNO, BLOCK_SIZE]
  · intro o ho
    simp only [LAST_BLOCK, HELLO_WORLD_FILE_BLOCKNO, BLOCK_SIZE] at ho
    simp only [image, hl]
    exact main_log_beyond env o (by omega)
  · simp (disch := omega) [rd32, hb, EXT2_ROOT_INO, ROOT_DIR_BLOCKNO, main_log_root_inode,
      ext2_inode.layout, obj_mem, u16_m, u32_m, u8_array_m, EXT2_N_BLOCKS_eq, root_i_block]
    decide
  · simp (disch := omega) [rd32, hb, LOST_AND_FOUND_INO, LOST_AND_FOUND_DIR_BLOCKNO,
      main_log_lost_and_found_inode, ext2_inode.layout, obj_mem, u16_m, u32_m, u8_array_m,
      EXT2_N_BLOCKS_eq, lost_and_found_i_block]
    decide
  · simp (disch := omega) [rd32, hb, HELLO_WORLD_INO, HELLO_WORLD_FILE_BLOCKNO,
      main_log_reg_file, ext2_inode.layout, obj_mem, u16_m, u32_m, u8_array_m,
      EXT2_N_BLOCKS_eq, reg_file_i_block]
    decide

/-- Witness for C9: the sample environment. -/
theorem C9_symlink_witness :
    sample_env.time 0 ≠ -1 ∧ sample_env.time 1 ≠ -1
    ∧ ∃ fd, main sample_env = some fd
      ∧ rd16 (image_from fd (5 * 1024 + (HELLO_INO - 1) * 128)) 0 &&& 0xF000 = EXT2_S_IFLNK
      ∧ rd32 (image_from fd (5 * 1024 + (HELLO_INO - 1) * 128)) 4 = 11
      ∧ rd32 (image_from fd (5 * 1024 + (HELLO_INO - 1) * 128)) 28 = 0 :=
  ⟨by decide, by decide,
    (C9_symlink sample_env (by decide) (by decide)).imp
      (fun _ hx => ⟨hx.1, hx.2.1, hx.2.2.1, hx.2.2.2.1⟩)⟩

/-- C10 fails on the code: `sizeof(struct ext2_superblock)` is 1052, so
`write_superblock` writes `[1024, 2076)`, which runs 28 bytes into block 2 and
overlaps the `[2048, 2080)` written by `write_block_group_descriptor_table`.
The order of the two stages shows in the image: byte 2048 is 3 when the
descriptor is written last (as `main` does) and 0 when the superblock is. -/
theorem C10_superblock_write_overlaps_group_descriptor :
    sizeof_ext2_superblock = 1052
    ∧ (write_superblock 1700000000 (ftruncate_fresh (NUM_BLOCKS * BLOCK_SIZE))).map
        (fun fd => fd.log.map (fun w => (w.off, w.len))) = some [(1024, 1052)]
    ∧ (write_block_group_descriptor_table (ftruncate_fresh (NUM_BLOCKS * BLOCK_SIZE))).log.map
        (fun w => (w.off, w.len)) = [(2048, 32)]
    ∧ BLOCK_OFFSET BLOCK_GROUP_DESCRIPTOR_BLOCKNO < 1024 + 1052
    ∧ (write_superblock 1700000000 (ftruncate_fresh (NUM_BLOCKS * BLOCK_SIZE))).map
        (fun fd => image (write_block_group_descriptor_table fd) 2048) = some 3
    ∧ (write_superblock 1700000000
        (write_block_group_descriptor_table (ftruncate_fresh (NUM_BLOCKS * BLOCK_SIZE)))).map
        (fun fd => image fd 2048) = some 0 := by
  decide

/-- C11: in a run of `main`, every byte written by a writer stage has an offset
in `[1024, NUM_BLOCKS * BLOCK_SIZE)`, so no write extends the image past the
size set by `ftruncate`: the finished image is exactly 1048576 bytes long, and
the boot range `[0, 1024)` is never written and stays zero. -/
theorem C11_writes_within_image (env : Env) (h0 : env.time 0 ≠ -1) (h1 : env.time 1 ≠ -1) :
    ∃ fd, main env = some fd
      ∧ (∀ w ∈ fd.log, ∀ k, k < w.len →
          1024 ≤ w.off + k ∧ w.off + k < NUM_BLOCKS * BLOCK_SIZE)
      ∧ (∀ w ∈ fd.log, 1024 ≤ w.off ∧ w.off + w.len ≤ NUM_BLOCKS * BLOCK_SIZE)
      ∧ fd.size = NUM_BLOCKS * BLOCK_SIZE
      ∧ NUM_BLOCKS * BLOCK_SIZE = 1048576
      ∧ (∀ o, o < 1024 → image fd o = 0) := by
  obtain ⟨fd, hm, hl⟩ := main_log_eq env h0 h1
  obtain ⟨fd2, hm2, hs⟩ := main_size env h0 h1
  have e : fd2 = fd := Option.some.inj (hm2.symm.trans hm)
  subst e
  have hr : ∀ w ∈ fd2.log, 1024 ≤ w.off ∧ w.off + w.len ≤ NUM_BLOCKS * BLOCK_SIZE := by
    rw [hl]
    simp [main_log, NUM_BLOCKS, BLOCK_SIZE]
  refine ⟨fd2, hm, ?_, hr, ?_, by decide, ?_⟩
  · intro w hw k hk
    have := hr w hw
    omega
  · rw [hs, hl, main_log_size]
  · intro o ho
    simp only [image, hl]
    exact main_log_boot env o ho

/-- Witness for C11: the sample environment. -/
theorem C11_writes_within_image_witness :
    sample_env.time 0 ≠ -1 ∧ sample_env.time 1 ≠ -1
    ∧ ∃ fd, main sample_env = some fd ∧ fd.size = NUM_BLOCKS * BLOCK_SIZE :=
  ⟨by decide, by decide,
    (C11_writes_within_image sample_env (by decide) (by decide)).imp
      (fun _ hx => ⟨hx.1, hx.2.2.2.1⟩)⟩

/-- C12: in the image built by `main`, every non-zero inode number found in a
directory entry of the root block or of the lost+found block lies in
`[1, NUM_INODES]`, is one of 2, 11, 12, 13, and is the number of an inode record
that was written (a write of `sizeof(struct ext2_inode)` bytes at that number's
slot of the inode table); and `i_block[0]` of the root, lost+found and regular
file inodes is 21, 22 and 23, below `NUM_BLOCKS`, and names the block that a
write starts at and that holds the corresponding directory listing or file data. -/
theorem C12_references_resolve (env : Env) (h0 : env.time 0 ≠ -1) (h1 : env.time 1 ≠ -1) :
    ∃ fd, main env = some fd
      ∧ (∀ r ∈ dir_walk (image_from fd (BLOCK_OFFSET ROOT_DIR_BLOCKNO)) BLOCK_SIZE 0
            ++ dir_walk (image_from fd (BLOCK_OFFSET LOST_AND_FOUND_DIR_BLOCKNO)) BLOCK_SIZE 0,
          r.inode ≠ 0 →
            1 ≤ r.inode ∧ r.inode ≤ NUM_INODES
            ∧ r.inode ∈ [EXT2_ROOT_INO, LOST_AND_FOUND_INO, HELLO_WORLD_INO, HELLO_INO]
            ∧ ∃ w ∈ fd.log,
                w.off = BLOCK_OFFSET INODE_TABLE_BLOCKNO + (r.inode - 1) * sizeof_ext2_inode
                ∧ w.len = sizeof_ext2_inode)
      ∧ rd32 (image_from fd (5 * 1024 + (EXT2_ROOT_INO - 1) * 128)) 40 = ROOT_DIR_BLOCKNO
      ∧ rd32 (image_from fd (5 * 1024 + (LOST_AND_FOUND_INO - 1) * 128)) 40
          = LOST_AND_FOUND_DIR_BLOCKNO
      ∧ rd32 (image_from fd (5 * 1024 + (HELLO_WORLD_INO - 1) * 128)) 40
          = HELLO_WORLD_FILE_BLOCKNO
      ∧ ROOT_DIR_BLOCKNO < NUM_BLOCKS ∧ LOST_AND_FOUND_DIR_BLOCKNO < NUM_BLOCKS
      ∧ HELLO_WORLD_FILE_BLOCKNO < NUM_BLOCKS
      ∧ (∃ w ∈ fd.log, w.off = BLOCK_OFFSET
            (rd32 (image_from fd (5 * 1024 + (EXT2_ROOT_INO - 1) * 128)) 40))
      ∧ (∃ w ∈ fd.log, w.off = BLOCK_OFFSET
            (rd32 (image_from fd (5 * 1024 + (LOST_AND_FOUND_INO - 1) * 128)) 40))
      ∧ (∃ w ∈ fd.log, w.off = BLOCK_OFFSET
            (rd32 (image_from fd (5 * 1024 + (HELLO_WORLD_INO - 1) * 128)) 40))
      ∧ (dir_walk (image_from fd (BLOCK_OFFSET
            (rd32 (image_from fd (5 * 1024 + (EXT2_ROOT_INO - 1) * 128)) 40)))
          BLOCK_SIZE 0).head? = some ⟨EXT2_ROOT_INO, 12, 1, str_bytes (".")⟩
      ∧ (dir_walk (image_from fd (BLOCK_OFFSET
            (rd32 (image_from fd (5 * 1024 + (LOST_AND_FOUND_INO - 1) * 128)) 40)))
          BLOCK_SIZE 0).head? = some ⟨LOST_AND_FOUND_INO, 12, 1, str_bytes (".")⟩
      ∧ rdbytes (image_from fd (BLOCK_OFFSET
            (rd32 (image_from fd (5 * 1024 + (HELLO_WORLD_INO - 1) * 128)) 40))) 0 12
          = str_bytes ("Hello world\n") := by
  obtain ⟨fd, hm, hl⟩ := main_log_eq env h0 h1
  have hroot := root_dir_block_walk_of_main env h0 h1 fd hm BLOCK_SIZE (by decide)
  have hlf := lost_and_found_dir_block_walk env fd hl BLOCK_SIZE (by decide)
  obtain ⟨hb2, hb11, hb12⟩ := main_i_block0 env fd hl
  have e2 : 5 * 1024 + (EXT2_ROOT_INO - 1) * 128 = 5248 := by decide
  have e11 : 5 * 1024 + (LOST_AND_FOUND_INO - 1) * 128 = 6400 := by decide
  have e12 : 5 * 1024 + (HELLO_WORLD_INO - 1) * 128 = 6528 := by decide
  have o21 : BLOCK_OFFSET 21 = BLOCK_OFFSET ROOT_DIR_BLOCKNO := rfl
  have o22 : BLOCK_OFFSET 22 = BLOCK_OFFSET LOST_AND_FOUND_DIR_BLOCKNO := rfl
  have o23 : BLOCK_OFFSET 23 = 23552 := rfl
  refine ⟨fd, hm, ?_⟩
  rw [e2, e11, e12, hb2, hb11, hb12, o21, o22, o23, hroot, hlf]
  refine ⟨?_, rfl, rfl, rfl, by decide, by decide, by decide, ?_, ?_, ?_, rfl, rfl,
    main_hello_block env fd hl⟩
  · rw [hl]
    simp [main_log, NUM_INODES, EXT2_ROOT_INO, LOST_AND_FOUND_INO, HELLO_WORLD_INO, HELLO_INO,
      BLOCK_OFFSET, INODE_TABLE_BLOCKNO, BLOCK_SIZE, sizeof_ext2_inode_eq]
  · rw [hl]; simp [main_log, BLOCK_OFFSET, ROOT_DIR_BLOCKNO, BLOCK_SIZE]
  · rw [hl]; simp [main_log, BLOCK_OFFSET, LOST_AND_FOUND_DIR_BLOCKNO, BLOCK_SIZE]
  · rw [hl]; simp [main_log]

/-- Witness for C12: the sample environment. -/
theorem C12_references_resolve_witness :
    sample_env.time 0 ≠ -1 ∧ sample_env.time 1 ≠ -1
    ∧ ∃ fd, main sample_env = some fd
      ∧ (∀ r ∈ dir_walk (image_from fd (BLOCK_OFFSET ROOT_DIR_BLOCKNO)) BLOCK_SIZE 0
            ++ dir_walk (image_from fd (BLOCK_OFFSET LOST_AND_FOUND_DIR_BLOCKNO)) BLOCK_SIZE 0,
          r.inode ≠ 0 →
            1 ≤ r.inode ∧ r.inode ≤ NUM_INODES
            ∧ r.inode ∈ [EXT2_ROOT_INO, LOST_AND_FOUND_INO, HELLO_WORLD_INO, HELLO_INO]
            ∧ ∃ w ∈ fd.log,
                w.off = BLOCK_OFFSET INODE_TABLE_BLOCKNO + (r.inode - 1) * sizeof_ext2_inode
                ∧ w.len = sizeof_ext2_inode) :=
  ⟨by decide, by decide,
    (C12_references_resolve sample_env (by decide) (by decide)).imp
      (fun _ hx => ⟨hx.1, hx.2.1⟩)⟩

/-- C13: in the image built by `main`, for each of the four inodes written (2,
11, 12, 13) `i_links_count` equals the number of directory entries, over the
root and lost+found blocks, whose inode field is that number: 3 for the root, 2
for lost+found, 1 for the regular file and 1 for the symbolic link. -/
theorem C13_links_count (env : Env) (h0 : env.time 0 ≠ -1) (h1 : env.time 1 ≠ -1) :
    ∃ fd, main env = some fd
      ∧ rd16 (image_from fd (5 * 1024 + (EXT2_ROOT_INO - 1) * 128)) 26
          = (dir_walk (image_from fd (BLOCK_OFFSET ROOT_DIR_BLOCKNO)) BLOCK_SIZE 0
              ++ dir_walk (image_from fd (BLOCK_OFFSET LOST_AND_FOUND_DIR_BLOCKNO))
                BLOCK_SIZE 0).countP (fun r => decide (r.inode = EXT2_ROOT_INO))
      ∧ rd16 (image_from fd (5 * 1024 + (EXT2_ROOT_INO - 1) * 128)) 26 = 3
      ∧ rd16 (image_from fd (5 * 1024 + (LOST_AND_FOUND_INO - 1) * 128)) 26
          = (dir_walk (image_from fd (BLOCK_OFFSET ROOT_DIR_BLOCKNO)) BLOCK_SIZE 0
              ++ dir_walk (image_from fd (BLOCK_OFFSET LOST_AND_FOUND_DIR_BLOCKNO))
                BLOCK_SIZE 0).countP (fun r => decide (r.inode = LOST_AND_FOUND_INO))
      ∧ rd16 (image_from fd (5 * 1024 + (LOST_AND_FOUND_INO - 1) * 128)) 26 = 2
      ∧ rd16 (image_from fd (5 * 1024 + (HELLO_WORLD_INO - 1) * 128)) 26
          = (dir_walk (image_from fd (BLOCK_OFFSET ROOT_DIR_BLOCKNO)) BLOCK_SIZE 0
              ++ dir_walk (image_from fd (BLOCK_OFFSET LOST_AND_FOUND_DIR_BLOCKNO))
                BLOCK_SIZE 0).countP (fun r => decide (r.inode = HELLO_WORLD_INO))
      ∧ rd16 (image_from fd (5 * 1024 + (HELLO_WORLD_INO - 1) * 128)) 26 = 1
      ∧ rd16 (image_from fd (5 * 1024 + (HELLO_INO - 1) * 128)) 26
          = (dir_walk (image_from fd (BLOCK_OFFSET ROOT_DIR_BLOCKNO)) BLOCK_SIZE 0
              ++ dir_walk (image_from fd (BLOCK_OFFSET LOST_AND_FOUND_DIR_BLOCKNO))
                BLOCK_SIZE 0).countP (fun r => decide (r.inode = HELLO_INO))
      ∧ rd16 (image_from fd (5 * 1024 + (HELLO_INO - 1) * 128)) 26 = 1 := by
  obtain ⟨fd, hm, hl⟩ := main_log_eq env h0 h1
  have hroot := root_dir_block_walk_of_main env h0 h1 fd hm BLOCK_SIZE (by decide)
  have hlf := lost_and_found_dir_block_walk env fd hl BLOCK_SIZE (by decide)
  obtain ⟨d2, d11, d12, d13⟩ := main_inodes_decoded env fd hl
  have l2 : rd16 (image_from fd 5248) 26 = 3 :=
    (congrArg ext2_inode.i_links_count d2 :)
  have l11 : rd16 (image_from fd 6400) 26 = 2 :=
    (congrArg ext2_inode.i_links_count d11 :)
  have l12 : rd16 (image_from fd 6528) 26 = 1 :=
    (congrArg ext2_inode.i_links_count d12 :)
  have l13 : rd16 (image_from fd 6656) 26 = 1 :=
    (congrArg ext2_inode.i_links_count d13 :)
  have e2 : 5 * 1024 + (EXT2_ROOT_INO - 1) * 128 = 5248 := by decide
  have e11 : 5 * 1024 + (LOST_AND_FOUND_INO - 1) * 128 = 6400 := by decide
  have e12 : 5 * 1024 + (HELLO_WORLD_INO - 1) * 128 = 6528 := by decide
  have e13 : 5 * 1024 + (HELLO_INO - 1) * 128 = 6656 := by decide
  refine ⟨fd, hm, ?_⟩
  rw [e2, e11, e12, e13, l2, l11, l12, l13, hroot, hlf]
  decide

/-- Witness for C13: the sample environment. -/
theorem C13_links_count_witness :
    sample_env.time 0 ≠ -1 ∧ sample_env.time 1 ≠ -1
    ∧ ∃ fd, main sample_env = some fd
      ∧ rd16 (image_from fd (5 * 1024 + (EXT2_ROOT_INO - 1) * 128)) 26
          = (dir_walk (image_from fd (BLOCK_OFFSET ROOT_DIR_BLOCKNO)) BLOCK_SIZE 0
              ++ dir_walk (image_from fd (BLOCK_OFFSET LOST_AND_FOUND_DIR_BLOCKNO))
                BLOCK_SIZE 0).countP (fun r => decide (r.inode = EXT2_ROOT_INO)) :=
  ⟨by decide, by decide,
    (C13_links_count sample_env (by decide) (by decide)).imp (fun _ hx => ⟨hx.1, hx.2.1⟩)⟩

/-- C14 (as amended): within one run, the superblock's `s_wtime` and
`s_lastcheck` both hold the value returned by the clock call made in
`write_superblock`, and `i_atime`, `i_ctime` and `i_mtime` of each of the four
inodes hold the value returned by the clock call made in `write_inode_table`;
all these fields hold the same value when the two calls return the same value;
every `i_dtime` is 0. -/
theorem C14_timestamps (env : Env) (h0 : env.time 0 ≠ -1) (h1 : env.time 1 ≠ -1) :
    ∃ fd, main env = some fd
      ∧ rd32 (image_from fd (BLOCK_OFFSET SUPERBLOCK_BLOCKNO)) 48 = u32_of_int (env.time 0)
      ∧ rd32 (image_from fd (BLOCK_OFFSET SUPERBLOCK_BLOCKNO)) 64 = u32_of_int (env.time 0)
      ∧ (∀ n ∈ [EXT2_ROOT_INO, LOST_AND_FOUND_INO, HELLO_WORLD_INO, HELLO_INO],
          rd32 (image_from fd (5 * 1024 + (n - 1) * 128)) 8 = u32_of_int (env.time 1)
          ∧ rd32 (image_from fd (5 * 1024 + (n - 1) * 128)) 12 = u32_of_int (env.time 1)
          ∧ rd32 (image_from fd (5 * 1024 + (n - 1) * 128)) 16 = u32_of_int (env.time 1)
          ∧ rd32 (image_from fd (5 * 1024 + (n - 1) * 128)) 20 = 0)
      ∧ (env.time 0 = env.time 1 →
          ∀ n ∈ [EXT2_ROOT_INO, LOST_AND_FOUND_INO, HELLO_WORLD_INO, HELLO_INO],
            rd32 (image_from fd (5 * 1024 + (n - 1) * 128)) 8
              = rd32 (image_from fd (BLOCK_OFFSET SUPERBLOCK_BLOCKNO)) 48
            ∧ rd32 (image_from fd (5 * 1024 + (n - 1) * 128)) 12
              = rd32 (image_from fd (BLOCK_OFFSET SUPERBLOCK_BLOCKNO)) 48
            ∧ rd32 (image_from fd (5 * 1024 + (n - 1) * 128)) 16
              = rd32 (image_from fd (BLOCK_OFFSET SUPERBLOCK_BLOCKNO)) 48
            ∧ rd32 (image_from fd (BLOCK_OFFSET SUPERBLOCK_BLOCKNO)) 64
              = rd32 (image_from fd (BLOCK_OFFSET SUPERBLOCK_BLOCKNO)) 48) := by
  obtain ⟨fd, hm, hl⟩ := main_log_eq env h0 h1
  obtain ⟨hw, hc⟩ := main_superblock_times env fd hl
  obtain ⟨d2, d11, d12, d13⟩ := main_inodes_decoded env fd hl
  have hin : ∀ n ∈ [EXT2_ROOT_INO, LOST_AND_FOUND_INO, HELLO_WORLD_INO, HELLO_INO],
      rd32 (image_from fd (5 * 1024 + (n - 1) * 128)) 8 = u32_of_int (env.time 1)
      ∧ rd32 (image_from fd (5 * 1024 + (n - 1) * 128)) 12 = u32_of_int (env.time 1)
      ∧ rd32 (image_from fd (5 * 1024 + (n - 1) * 128)) 16 = u32_of_int (env.time 1)
      ∧ rd32 (image_from fd (5 * 1024 + (n - 1) * 128)) 20 = 0 := by
    intro n hn
    simp only [List.mem_cons, List.mem_singleton, List.mem_nil_iff, or_false] at hn
    rcases hn with rfl | rfl | rfl | rfl
    · exact ⟨(congrArg ext2_inode.i_atime d2 :), (congrArg ext2_inode.i_ctime d2 :),
        (congrArg ext2_inode.i_mtime d2 :), (congrArg ext2_inode.i_dtime d2 :)⟩
    · exact ⟨(congrArg ext2_inode.i_atime d11 :), (congrArg ext2_inode.i_ctime d11 :),
        (congrArg ext2_inode.i_mtime d11 :), (congrArg ext2_inode.i_dtime d11 :)⟩
    · exact ⟨(congrArg ext2_inode.i_atime d12 :), (congrArg ext2_inode.i_ctime d12 :),
        (congrArg ext2_inode.i_mtime d12 :), (congrArg ext2_inode.i_dtime d12 :)⟩
    · exact ⟨(congrArg ext2_inode.i_atime d13 :), (congrArg ext2_inode.i_ctime d13 :),
        (congrArg ext2_inode.i_mtime d13 :), (congrArg ext2_inode.i_dtime d13 :)⟩
  refine ⟨fd, hm, hw, hc, hin, ?_⟩
  intro heq n hn
  obtain ⟨a, c, m, _⟩ := hin n hn
  rw [a, c, m, hw, hc, heq]
  exact ⟨rfl, rfl, rfl, rfl⟩

/-- Witness for C14: the sample environment. -/
theorem C14_timestamps_witness :
    sample_env.time 0 ≠ -1 ∧ sample_env.time 1 ≠ -1
    ∧ ∃ fd, main sample_env = some fd
      ∧ rd32 (image_from fd (BLOCK_OFFSET SUPERBLOCK_BLOCKNO)) 48
          = u32_of_int (sample_env.time 0)
      ∧ rd32 (image_from fd (BLOCK_OFFSET SUPERBLOCK_BLOCKNO)) 64
          = u32_of_int (sample_env.time 0) :=
  ⟨by decide, by decide,
    (C14_timestamps sample_env (by decide) (by decide)).imp
      (fun _ hx => ⟨hx.1, hx.2.1, hx.2.2.1⟩)⟩

/-- C14 as stated fails when the clock advances between its two calls: with
`time` returning 1700000000 in `write_superblock` and 1700000001 in
`write_inode_table`, `s_wtime` is 1700000000 and the root inode's `i_atime` is
1700000001. -/
theorem C14_counterexample :
    ∃ fd, main { sample_env with time := fun k => 1700000000 + (k : Int) } = some fd
      ∧ rd32 (image_from fd (BLOCK_OFFSET SUPERBLOCK_BLOCKNO)) 48 = 1700000000
      ∧ rd32 (image_from fd (5 * 1024 + (EXT2_ROOT_INO - 1) * 128)) 8 = 1700000001
      ∧ rd32 (image_from fd (BLOCK_OFFSET SUPERBLOCK_BLOCKNO)) 48
          ≠ rd32 (image_from fd (5 * 1024 + (EXT2_ROOT_INO - 1) * 128)) 8 := by
  obtain ⟨fd, hm, hl⟩ := main_log_eq
    { sample_env with time := fun k => 1700000000 + (k : Int) } (by decide) (by decide)
  obtain ⟨hw, _⟩ := main_superblock_times _ fd hl
  obtain ⟨d2, _, _, _⟩ := main_inodes_decoded _ fd hl
  have ha : rd32 (image_from fd (5 * 1024 + (EXT2_ROOT_INO - 1) * 128)) 8
      = u32_of_int (1700000000 + ((1 : Nat) : Int)) :=
    (congrArg ext2_inode.i_atime d2 :)
  refine ⟨fd, hm, ?_, ?_, ?_⟩
  · rw [hw]; decide
  · rw [ha]; decide
  · rw [hw, ha]; decide

/-- C15 (as amended): the free-block and free-inode counts that
`write_block_group_descriptor_table` stores in the group descriptor
(`bg_free_blocks_count` at offset 12, `bg_free_inodes_count` at offset 14) are
the literals 1000 and 115, and they are equal to the arithmetic derivation used
for the superblock's free counts, `NUM_BLOCKS - (LAST_BLOCK + 1)` and
`NUM_INODES - LAST_INO`. -/
theorem C15_group_descriptor_free_counts (fd : Fd) :
    rd16 (image_from (write_block_group_descriptor_table fd)
        (BLOCK_OFFSET BLOCK_GROUP_DESCRIPTOR_BLOCKNO)) 12 = 1000
    ∧ rd16 (image_from (write_block_group_descriptor_table fd)
        (BLOCK_OFFSET BLOCK_GROUP_DESCRIPTOR_BLOCKNO)) 14 = 115
    ∧ rd16 (image_from (write_block_group_descriptor_table fd)
        (BLOCK_OFFSET BLOCK_GROUP_DESCRIPTOR_BLOCKNO)) 12 = NUM_BLOCKS - (LAST_BLOCK + 1)
    ∧ rd16 (image_from (write_block_group_descriptor_table fd)
        (BLOCK_OFFSET BLOCK_GROUP_DESCRIPTOR_BLOCKNO)) 14 = NUM_INODES - LAST_INO
    ∧ NUM_FREE_BLOCKS = NUM_BLOCKS - (LAST_BLOCK + 1)
    ∧ NUM_FREE_INODES = NUM_INODES - LAST_INO := by
  have hb : rd16 (image_from (write_block_group_descriptor_table fd)
      (BLOCK_OFFSET BLOCK_GROUP_DESCRIPTOR_BLOCKNO)) 12 = 1000 := by
    unfold rd16
    rw [write_block_group_descriptor_table_image fd 12 (by omega),
      write_block_group_descriptor_table_image fd (12 + 1) (by omega)]
    exact group_descriptor_mem_free_counts.1
  have hi : rd16 (image_from (write_block_group_descriptor_table fd)
      (BLOCK_OFFSET BLOCK_GROUP_DESCRIPTOR_BLOCKNO)) 14 = 115 := by
    unfold rd16
    rw [write_block_group_descriptor_table_image fd 14 (by omega),
      write_block_group_descriptor_table_image fd (14 + 1) (by omega)]
    exact group_descriptor_mem_free_counts.2
  refine ⟨hb, hi, ?_, ?_, by decide, by decide⟩
  · rw [hb]; decide
  · rw [hi]; decide

/-- C15 as stated fails: neither literal differs from the derived value. The
object written has `bg_free_blocks_count` = 1000 = `NUM_BLOCKS - (LAST_BLOCK + 1)`
and `bg_free_inodes_count` = 115 = `NUM_INODES - LAST_INO`. -/
theorem C15_counterexample :
    ¬ (block_group_descriptor_value.bg_free_blocks_count ≠ NUM_BLOCKS - (LAST_BLOCK + 1)
        ∨ block_group_descriptor_value.bg_free_inodes_count ≠ NUM_INODES - LAST_INO) := by
  decide

/-- C16 fails on the code for a short write that leaves `errno` at 0: when the
first `write` (1052 bytes of superblock requested) transfers 512 bytes, the run
stops there, with only that partial write made, but `errno_exit` calls
`exit(errno)` = `exit(0)`, the same status as a run in which every call
succeeds.  With `errno` = 5 the status is 5, and a failed `lseek` with `errno` =
29 stops the run before the root directory block with status 29. -/
theorem C16_short_write_exits_with_status_zero :
    run_status (main_io (sys_short_write 0)) = 0
    ∧ run_writes (main_io (sys_short_write 0)) = [(1024, 512)]
    ∧ run_status (main_io sys_success) = 0
    ∧ (run_writes (main_io sys_success)).length = 18
    ∧ run_status (main_io (sys_short_write 5)) = 5
    ∧ run_writes (main_io (sys_short_write 5)) = [(1024, 512)]
    ∧ run_status (main_io (sys_seek_fails 29)) = 29
    ∧ run_writes (main_io (sys_seek_fails 29))
        = [(1024, 1052), (2048, 32), (3072, 1024), (4096, 1024), (6400, 128), (5248, 128),
           (6528, 128), (6656, 128)] := by
  decide

/-- C17 (as amended): packing a directory block the way the two writers do has
no failure path of its own.  For every binding sequence with names of at most
`EXT2_NAME_LEN` bytes whose real entries' record lengths sum to more than the
block size, if the seek and every write succeed, the packer returns after
writing every real entry and the filler: each real entry is written with 8 to
264 bytes, all inside its own object, `bytes_remaining` is negative and the
filler's record length is `bytes_remaining` converted to `u16`.  The two
sequences that the source packs have record lengths summing to 80 and 24. -/
theorem C17_pack_dir_block_unchecked (sys : Sys) (blockno : Nat)
    (bindings : List (Nat × List Nat)) (stack : Nat → Nat → Nat) (p : Proc)
    (hname : ∀ b ∈ bindings, b.2.length ≤ EXT2_NAME_LEN)
    (hover : BLOCK_SIZE < ((dir_entries bindings).map (fun e => e.rec_len)).sum)
    (hseek : sys.ret p.calls ≠ -1)
    (hwr : ∀ k, k < bindings.length + 1 →
      sys.ret (p.calls + 1 + k)
        = (((dir_block_entries bindings).getD k ext2_dir_entry.zero).rec_len : Int)) :
    pack_dir_block_io sys blockno bindings stack p
        = Except.ok ⟨pack_dir_block blockno bindings stack p.fd,
            p.calls + bindings.length + 2, p.times⟩
    ∧ (∀ e ∈ dir_entries bindings, 8 ≤ e.rec_len ∧ e.rec_len ≤ sizeof_ext2_dir_entry)
    ∧ bytes_remaining_after (dir_entries bindings) < 0
    ∧ (pack_dir_block blockno bindings stack p.fd).log.length
        = p.fd.log.length + bindings.length + 1
    ∧ (dir_block_entries bindings).getLast?
        = some { ext2_dir_entry.zero with
                 rec_len := u16_of_int (bytes_remaining_after (dir_entries bindings)) }
    ∧ ((dir_entries root_bindings).map (fun e => e.rec_len)).sum = 80
    ∧ ((dir_entries lost_and_found_bindings).map (fun e => e.rec_len)).sum = 24 := by
  refine ⟨pack_dir_block_io_ok sys blockno bindings stack p hseek hwr, ?_,
    bytes_remaining_negative bindings hover,
    pack_dir_block_log_length blockno bindings stack p.fd, ?_, by decide, by decide⟩
  · intro e he
    have h := dir_entries_rec_len_bounds bindings hname e he
    rw [sizeof_ext2_dir_entry_eq]
    exact ⟨h.1, h.2.1⟩
  · simp [dir_block_entries]

set_option maxRecDepth 100000 in
/-- Witness for C17: the 86 one-byte names, packed into block 21 of a fresh
image. -/
theorem C17_pack_dir_block_unchecked_witness :
    (∀ b ∈ overflow_bindings, b.2.length ≤ EXT2_NAME_LEN)
    ∧ BLOCK_SIZE < ((dir_entries overflow_bindings).map (fun e => e.rec_len)).sum
    ∧ pack_dir_block_io sys_pack_overflow ROOT_DIR_BLOCKNO overflow_bindings (fun _ _ => 0)
          ⟨ftruncate_fresh (NUM_BLOCKS * BLOCK_SIZE), 0, 0⟩
        = Except.ok ⟨pack_dir_block ROOT_DIR_BLOCKNO overflow_bindings (fun _ _ => 0)
            (ftruncate_fresh (NUM_BLOCKS * BLOCK_SIZE)), 0 + overflow_bindings.length + 2, 0⟩ :=
  ⟨by decide, by decide,
    (C17_pack_dir_block_unchecked sys_pack_overflow ROOT_DIR_BLOCKNO overflow_bindings
      (fun _ _ => 0) ⟨ftruncate_fresh (NUM_BLOCKS * BLOCK_SIZE), 0, 0⟩ (by decide) (by decide)
      (by decide) (by decide)).1⟩

set_option maxRecDepth 100000 in
/-- C17 as stated fails for the 86 one-byte names: their record lengths sum to
1032, more than the block size, yet with every call succeeding the packer does
not exit: it returns after 87 writes, 1032 bytes of real entries followed by a
filler of record length 65528 at offset 21504 + 1032, past the end of the block. -/
theorem C17_counterexample :
    BLOCK_SIZE < ((dir_entries overflow_bindings).map (fun e => e.rec_len)).sum
    ∧ (∃ p, pack_dir_block_io sys_pack_overflow ROOT_DIR_BLOCKNO overflow_bindings
          (fun _ _ => 0) ⟨ftruncate_fresh (NUM_BLOCKS * BLOCK_SIZE), 0, 0⟩ = Except.ok p)
    ∧ (run_writes (pack_dir_block_io sys_pack_overflow ROOT_DIR_BLOCKNO overflow_bindings
          (fun _ _ => 0) ⟨ftruncate_fresh (NUM_BLOCKS * BLOCK_SIZE), 0, 0⟩)).length = 87
    ∧ (run_writes (pack_dir_block_io sys_pack_overflow ROOT_DIR_BLOCKNO overflow_bindings
          (fun _ _ => 0) ⟨ftruncate_fresh (NUM_BLOCKS * BLOCK_SIZE), 0, 0⟩)).getLast?
        = some (21504 + 1032, 65528) := by
  have hok := pack_dir_block_io_ok sys_pack_overflow ROOT_DIR_BLOCKNO overflow_bindings
    (fun _ _ => 0) ⟨ftruncate_fresh (NUM_BLOCKS * BLOCK_SIZE), 0, 0⟩ (by decide) (by decide)
  refine ⟨by decide, ⟨_, hok⟩, ?_, ?_⟩
  · decide
  · decide

/-- C18: read with the format's base offset, where bit `i` of the block bitmap
stands for block `s_first_data_block + i` and the superblock declares
`s_first_data_block` = 1: for every `i` in `[0, 8192)`, bit `i` is 1 if and only
if that block holds a planned structure (superblock, group descriptor, the two
bitmaps, an inode table block, one of the two directory blocks or the file data
block, together the blocks 1..`LAST_BLOCK`) or does not exist (its number is at
least `NUM_BLOCKS`). -/
theorem C18_block_bitmap_base_offset (uninit : Nat → Nat) (fd : Fd) (t i : Nat)
    (hi : i < 8192) :
    (superblock_value t).s_first_data_block = 1
    ∧ (bitmap_bit (image_from (write_block_bitmap uninit fd)
          (BLOCK_OFFSET BLOCK_BITMAP_BLOCKNO)) i = true
        ↔ ((superblock_value t).s_first_data_block + i = SUPERBLOCK_BLOCKNO
            ∨ (superblock_value t).s_first_data_block + i = BLOCK_GROUP_DESCRIPTOR_BLOCKNO
            ∨ (superblock_value t).s_first_data_block + i = BLOCK_BITMAP_BLOCKNO
            ∨ (superblock_value t).s_first_data_block + i = INODE_BITMAP_BLOCKNO
            ∨ (BLOCK_OFFSET INODE_TABLE_BLOCKNO
                  ≤ BLOCK_OFFSET ((superblock_value t).s_first_data_block + i)
                ∧ BLOCK_OFFSET ((superblock_value t).s_first_data_block + i)
                  < BLOCK_OFFSET INODE_TABLE_BLOCKNO + NUM_INODES * sizeof_ext2_inode)
            ∨ (superblock_value t).s_first_data_block + i = ROOT_DIR_BLOCKNO
            ∨ (superblock_value t).s_first_data_block + i = LOST_AND_FOUND_DIR_BLOCKNO
            ∨ (superblock_value t).s_first_data_block + i = HELLO_WORLD_FILE_BLOCKNO)
          ∨ NUM_BLOCKS ≤ (superblock_value t).s_first_data_block + i)
    ∧ (bitmap_bit (image_from (write_block_bitmap uninit fd)
          (BLOCK_OFFSET BLOCK_BITMAP_BLOCKNO)) i = true
        ↔ ((1 ≤ (superblock_value t).s_first_data_block + i
            ∧ (superblock_value t).s_first_data_block + i ≤ LAST_BLOCK)
          ∨ NUM_BLOCKS ≤ (superblock_value t).s_first_data_block + i)) := by
  have h1 : (superblock_value t).s_first_data_block = 1 := rfl
  rw [h1, block_bitmap_bit_iff uninit fd i hi]
  simp only [SUPERBLOCK_BLOCKNO, BLOCK_GROUP_DESCRIPTOR_BLOCKNO, BLOCK_BITMAP_BLOCKNO,
    INODE_BITMAP_BLOCKNO, INODE_TABLE_BLOCKNO, ROOT_DIR_BLOCKNO, LOST_AND_FOUND_DIR_BLOCKNO,
    HELLO_WORLD_FILE_BLOCKNO, LAST_BLOCK, NUM_BLOCKS, NUM_INODES, BLOCK_OFFSET, BLOCK_SIZE,
    sizeof_ext2_inode_eq]
  refine ⟨trivial, ?_, ?_⟩ <;> omega

/-- Witness for C18: bit 20 stands for block 21, the root directory block. -/
theorem C18_block_bitmap_base_offset_witness :
    (20 : Nat) < 8192
    ∧ (bitmap_bit (image_from (write_block_bitmap (fun _ => 0)
          (ftruncate_fresh (NUM_BLOCKS * BLOCK_SIZE)))
          (BLOCK_OFFSET BLOCK_BITMAP_BLOCKNO)) 20 = true
        ↔ ((1 ≤ (superblock_value 0).s_first_data_block + 20
            ∧ (superblock_value 0).s_first_data_block + 20 ≤ LAST_BLOCK)
          ∨ NUM_BLOCKS ≤ (superblock_value 0).s_first_data_block + 20)) :=
  ⟨by decide,
    (C18_block_bitmap_base_offset (fun _ => 0) (ftruncate_fresh (NUM_BLOCKS * BLOCK_SIZE))
      0 20 (by decide)).2.2⟩

/-- C19: in the image built by `main`, the number of 0 bits in the block bitmap
equals the free-block count stored in the superblock (`s_free_blocks_count` =
`NUM_FREE_BLOCKS`) and in the group descriptor (`bg_free_blocks_count`), and the
number of 0 bits in the inode bitmap equals the free-inode count stored in the
superblock (`s_free_inodes_count` = `NUM_FREE_INODES`) and in the group
descriptor (`bg_free_inodes_count`). -/
theorem C19_free_counts_match_bitmaps (env : Env) (h0 : env.time 0 ≠ -1)
    (h1 : env.time 1 ≠ -1) :
    ∃ fd, main env = some fd
      ∧ (List.range 8192).countP
          (fun i => !bitmap_bit (image_from fd (BLOCK_OFFSET BLOCK_BITMAP_BLOCKNO)) i)
        = rd32 (image_from fd (BLOCK_OFFSET SUPERBLOCK_BLOCKNO)) 12
      ∧ (List.range 8192).countP
          (fun i => !bitmap_bit (image_from fd (BLOCK_OFFSET BLOCK_BITMAP_BLOCKNO)) i)
        = rd16 (image_from fd (BLOCK_OFFSET BLOCK_GROUP_DESCRIPTOR_BLOCKNO)) 12
      ∧ rd32 (image_from fd (BLOCK_OFFSET SUPERBLOCK_BLOCKNO)) 12 = NUM_FREE_BLOCKS
      ∧ (List.range 8192).countP
          (fun i => !bitmap_bit (image_from fd (BLOCK_OFFSET INODE_BITMAP_BLOCKNO)) i)
        = rd32 (image_from fd (BLOCK_OFFSET SUPERBLOCK_BLOCKNO)) 16
      ∧ (List.range 8192).countP
          (fun i => !bitmap_bit (image_from fd (BLOCK_OFFSET INODE_BITMAP_BLOCKNO)) i)
        = rd16 (image_from fd (BLOCK_OFFSET BLOCK_GROUP_DESCRIPTOR_BLOCKNO)) 14
      ∧ rd32 (image_from fd (BLOCK_OFFSET SUPERBLOCK_BLOCKNO)) 16 = NUM_FREE_INODES := by
  obtain ⟨fd, hm, hl⟩ := main_log_eq env h0 h1
  have hb := main_block_bitmap_zero_bits env fd hl
  have hi := main_inode_bitmap_zero_bits env fd hl
  obtain ⟨hs1, hs2⟩ := main_superblock_free_counts env fd hl
  obtain ⟨hg1, hg2⟩ := main_group_descriptor_free_counts env fd hl
  refine ⟨fd, hm, ?_, ?_, ?_, ?_, ?_, ?_⟩
  · rw [hb, hs1]
  · rw [hb, hg1]
  · rw [hs1]; decide
  · rw [hi, hs2]
  · rw [hi, hg2]
  · rw [hs2]; decide

/-- Witness for C19: the sample environment. -/
theorem C19_free_counts_match_bitmaps_witness :
    sample_env.time 0 ≠ -1 ∧ sample_env.time 1 ≠ -1
    ∧ ∃ fd, main sample_env = some fd
      ∧ (List.range 8192).countP
          (fun i => !bitmap_bit (image_from fd (BLOCK_OFFSET BLOCK_BITMAP_BLOCKNO)) i)
        = rd32 (image_from fd (BLOCK_OFFSET SUPERBLOCK_BLOCKNO)) 12 :=
  ⟨by decide, by decide,
    (C19_free_counts_match_bitmaps sample_env (by decide) (by decide)).imp
      (fun _ hx => ⟨hx.1, hx.2.1⟩)⟩

/-- C20 fails on the code for the two filler entries: `sizeof(struct
ext2_dir_entry)` is 264, but the filler of the root block is written with
`rec_len` = 944 and the filler of the lost+found block with `rec_len` = 1000, so
`write` reads 680 and 736 bytes past the `fill_entry` objects; the byte at image
offset 21584 + 264 is the first byte of the stack memory behind the root
block's `fill_entry` (0xAA in the sample environment). -/
theorem C20_filler_write_reads_past_entry :
    sizeof_ext2_dir_entry = 264
    ∧ ∃ fd, main sample_env = some fd
      ∧ (21584, 944) ∈ fd.log.map (fun w => (w.off, w.len))
      ∧ (22552, 1000) ∈ fd.log.map (fun w => (w.off, w.len))
      ∧ sizeof_ext2_dir_entry < 944 ∧ sizeof_ext2_dir_entry < 1000
      ∧ image fd (21584 + sizeof_ext2_dir_entry) = sample_env.root_stack 5 0 % 256
      ∧ image fd (21584 + sizeof_ext2_dir_entry) = 0xAA
      ∧ image fd (22552 + sizeof_ext2_dir_entry) = sample_env.lost_and_found_stack 2 0 % 256 := by
  obtain ⟨fd, hm, hl⟩ := main_log_eq sample_env (by decide) (by decide)
  have h1 : image fd 21848 = sample_env.root_stack 5 0 % 256 := by
    simp only [image, hl]
    rw [main_log_root5 sample_env 21848 (by omega) (by omega), dir_entry_mem]
    rfl
  have h2 : image fd 22816 = sample_env.lost_and_found_stack 2 0 % 256 := by
    simp only [image, hl]
    rw [main_log_lost_and_found2 sample_env 22816 (by omega) (by omega), dir_entry_mem]
    rfl
  refine ⟨by decide, fd, hm, ?_, ?_, by decide, by decide, h1, ?_, h2⟩
  · rw [hl]; simp [main_log]
  · rw [hl]; simp [main_log]
  · show image fd 21848 = 0xAA
    rw [h1]; rfl

end Ext2Create
